import Mathlib

/-!
# gogram: classification of RPC errors, and the peer cache

A shallow embedding of `errors.go` (package gogram) and of `telegram/cache.go`.

Go strings are immutable byte sequences, so a string is a list of bytes here and
the string literals of the source are given by their UTF-8 encoding.  The
functions of the Go standard library that the source calls (`strings.HasPrefix`,
`strings.HasSuffix`, `strings.TrimPrefix`, `strings.TrimSuffix`, `strconv.Atoi`,
`fmt.Sprintf`) are embedded from the library's own source and documentation.
The call to `log.Printf` in `TryExpandError` writes to the process log and has no
effect on the values returned; it is left out.
-/

namespace Gogram

/-! ## Strings -/

/-- A Go string: a sequence of bytes. -/
abbrev GoString := List UInt8

/-- The bytes of a string literal of the source, that is, its UTF-8 encoding. -/
def utf8 (s : String) : GoString := s.toList.flatMap String.utf8EncodeChar

/-- Go `strings.HasPrefix`:
`len(s) >= len(prefix) && s[:len(prefix)] == prefix`. -/
def HasPrefix (s pre : GoString) : Bool :=
  decide (pre.length ≤ s.length) && (s.take pre.length == pre)

/-- Go `strings.HasSuffix`:
`len(s) >= len(suffix) && s[len(s)-len(suffix):] == suffix`. -/
def HasSuffix (s suf : GoString) : Bool :=
  decide (suf.length ≤ s.length) && (s.drop (s.length - suf.length) == suf)

/-- Go `strings.TrimPrefix`: `s` without the leading `pre` when it has it, else `s`. -/
def TrimPrefix (s pre : GoString) : GoString :=
  if HasPrefix s pre then s.drop pre.length else s

/-- Go `strings.TrimSuffix`: `s` without the trailing `suf` when it has it, else `s`. -/
def TrimSuffix (s suf : GoString) : GoString :=
  if HasSuffix s suf then s.take (s.length - suf.length) else s

/-! ## strconv -/

/-- The two sentinel errors a `*strconv.NumError` wraps. -/
inductive NumError where
  | ErrSyntax
  | ErrRange
  deriving DecidableEq, Repr

/-- The largest `uint64`. -/
def maxUint64 : Nat := 2 ^ 64 - 1

/-- The `int` of the 64-bit platforms: values in `[-2^63, 2^63)`. -/
def minInt : Int := -(2 ^ 63)

/-- The largest `int` (64 bits). -/
def maxInt : Int := 2 ^ 63 - 1

/-- Conversion `int64(u)` of a `uint64`: the same 64 bits read as two's complement. -/
def toInt64 (u : Nat) : Int :=
  if u % 2 ^ 64 < 2 ^ 63 then ((u % 2 ^ 64 : Nat) : Int) else ((u % 2 ^ 64 : Nat) : Int) - 2 ^ 64

/-- Negation `-n` of an `int64`, which wraps around at `-2^63`. -/
def negInt64 (n : Int) : Int :=
  toInt64 ((-n) % 2 ^ 64).toNat

/-- The digit loop of `strconv.ParseUint(s, 10, 64)`, `n` being the value read so far.
Per byte `c`: `'0'..'9'` gives the digit `c - '0'`, a letter gives `lower(c) - 'a' + 10`,
any other byte is a syntax error; a digit `>= base` is a syntax error; `n >= cutoff`
(with `cutoff = maxUint64/10 + 1`) or an overflow of `n*10 + d` returns
`maxVal` with a range error at once, without reading the rest. -/
def parseUintLoop : GoString → Nat → Nat × Option NumError
  | [], n => (n, none)
  | c :: cs, n =>
    let lower : UInt8 := c ||| 32
    let digit : Option Nat :=
      if 48 ≤ c.toNat ∧ c.toNat ≤ 57 then some (c.toNat - 48)
      else if 97 ≤ lower.toNat ∧ lower.toNat ≤ 122 then some (lower.toNat - 97 + 10)
      else none
    match digit with
    | none => (0, some NumError.ErrSyntax)
    | some d =>
      if 10 ≤ d then (0, some NumError.ErrSyntax)
      else if maxUint64 / 10 + 1 ≤ n then (maxUint64, some NumError.ErrRange)
      else
        let n10 := n * 10
        let n1 := (n10 + d) % 2 ^ 64
        if n1 < n10 ∨ maxUint64 < n1 then (maxUint64, some NumError.ErrRange)
        else parseUintLoop cs n1

/-- Go `strconv.ParseUint(s, 10, 64)`: value and error. -/
def ParseUint (s : GoString) : Nat × Option NumError :=
  match s with
  | [] => (0, some NumError.ErrSyntax)
  | _ :: _ => parseUintLoop s 0

/-- Go `strconv.ParseInt(s, 10, 0)` on a 64-bit platform: value and error.
An optional leading `+` or `-` is picked off, the rest goes through `ParseUint`;
a syntax error returns 0, a magnitude out of range returns the nearest bound
together with a range error. -/
def ParseInt (s : GoString) : Int × Option NumError :=
  match s with
  | [] => (0, some NumError.ErrSyntax)
  | c :: rest =>
    let neg : Bool := c == 45
    let s1 : GoString := if c == 43 then rest else if c == 45 then rest else s
    let r := ParseUint s1
    if r.2 = some NumError.ErrSyntax then (0, r.2)
    else
      let cutoff : Nat := 2 ^ 63
      if !neg && decide (cutoff ≤ r.1) then (((cutoff - 1 : Nat) : Int), some NumError.ErrRange)
      else if neg && decide (cutoff < r.1) then (-((cutoff : Nat) : Int), some NumError.ErrRange)
      else
        let n := toInt64 r.1
        (if neg then negInt64 n else n, none)

/-- Go `strconv.Atoi`: "equivalent to ParseInt(s, 10, 0), converted to type int". -/
def Atoi (s : GoString) : Int × Option NumError := ParseInt s

/-! ## fmt -/

/-- The dynamic values that `TryExpandError` stores in an `any`: an `int` or a
`string`.  The nil interface is `none : Option Any`. -/
inductive Any where
  | int (v : Int)
  | string (s : GoString)
  deriving DecidableEq, Repr

/-- The decimal digit loop of `fmt.(*fmt).fmtInteger`: while `u >= 10` the digit
`u - (u/10)*10` is written in front of the buffer and `u` becomes `u/10`; the last
digit follows.  The fuel bounds the number of rounds. -/
def fmtDigits : Nat → Nat → GoString → GoString
  | 0, _, buf => buf
  | fuel + 1, u, buf =>
    if 10 ≤ u then fmtDigits fuel (u / 10) (UInt8.ofNat (48 + (u - u / 10 * 10)) :: buf)
    else UInt8.ofNat (48 + u) :: buf

/-- The text `fmt` prints for an `int` under `%v` (and what `strconv.Itoa` returns):
the decimal digits of the magnitude, after a `-` when the value is negative. -/
def fmtInteger (v : Int) : GoString :=
  let digits := fmtDigits (v.natAbs + 1) v.natAbs []
  if v < 0 then 45 :: digits else digits

/-- The text `fmt` prints for an operand under `%v` without flags. -/
def printArg : Any → GoString
  | Any.int v => fmtInteger v
  | Any.string s => s

/-- The name `reflect.TypeOf(arg).String()` of the operand's type. -/
def typeName : Any → GoString
  | Any.int _ => utf8 "int"
  | Any.string _ => utf8 "string"

/-- The text `fmt` appends for an operand that no verb consumed. -/
def extraString (a : Any) : GoString :=
  utf8 "%!(EXTRA " ++ typeName a ++ utf8 "=" ++ printArg a ++ utf8 ")"

/-- The loop of `fmt.(*pp).doPrintf` for one operand; `used` tells whether a verb has
consumed it.  Bytes other than `%` are copied; `%%` writes `%`; `%v` prints the
operand, or `%!v(MISSING)` when it is already consumed; a final lone `%` writes
`%!(NOVERB)`; at the end an unconsumed operand is reported as `%!(EXTRA type=value)`.
Every other directive (flags, width, precision, argument index, other verbs) is
outside this embedding and gives `none`. -/
def doPrintf : GoString → Any → Bool → Option GoString
  | [], a, used => some (if used then [] else extraString a)
  | c :: rest, a, used =>
    if c ≠ 37 then (doPrintf rest a used).map (fun out => c :: out)
    else
      match rest with
      | [] => some (utf8 "%!(NOVERB)" ++ (if used then [] else extraString a))
      | verb :: rest1 =>
        if verb = 37 then (doPrintf rest1 a used).map (fun out => 37 :: out)
        else if verb = 118 then
          (doPrintf rest1 a true).map
            (fun out => (if used then utf8 "%!v(MISSING)" else printArg a) ++ out)
        else none

/-- Go `fmt.Sprintf(format, a)` with a single operand. -/
def Sprintf (format : GoString) (a : Any) : Option GoString :=
  doPrintf format a false


/-! ## errors.go -/

/-- Go `reflect.Kind`. -/
inductive Kind where
  | Invalid | Bool | Int | Int8 | Int16 | Int32 | Int64
  | Uint | Uint8 | Uint16 | Uint32 | Uint64 | Uintptr
  | Float32 | Float64 | Complex64 | Complex128
  | Array | Chan | Func | Interface | Map | Pointer | Slice
  | String | Struct | UnsafePointer
  deriving DecidableEq, Repr

/-- Go `reflect.Kind.String`. -/
def Kind.name : Kind → GoString
  | Kind.Invalid => utf8 "invalid"
  | Kind.Bool => utf8 "bool"
  | Kind.Int => utf8 "int"
  | Kind.Int8 => utf8 "int8"
  | Kind.Int16 => utf8 "int16"
  | Kind.Int32 => utf8 "int32"
  | Kind.Int64 => utf8 "int64"
  | Kind.Uint => utf8 "uint"
  | Kind.Uint8 => utf8 "uint8"
  | Kind.Uint16 => utf8 "uint16"
  | Kind.Uint32 => utf8 "uint32"
  | Kind.Uint64 => utf8 "uint64"
  | Kind.Uintptr => utf8 "uintptr"
  | Kind.Float32 => utf8 "float32"
  | Kind.Float64 => utf8 "float64"
  | Kind.Complex64 => utf8 "complex64"
  | Kind.Complex128 => utf8 "complex128"
  | Kind.Array => utf8 "array"
  | Kind.Chan => utf8 "chan"
  | Kind.Func => utf8 "func"
  | Kind.Interface => utf8 "interface"
  | Kind.Map => utf8 "map"
  | Kind.Pointer => utf8 "ptr"
  | Kind.Slice => utf8 "slice"
  | Kind.String => utf8 "string"
  | Kind.Struct => utf8 "struct"
  | Kind.UnsafePointer => utf8 "unsafe.Pointer"

/-- What a call produces: a returned value, a Go panic with its message, or a call
of `fmt.Sprintf` on a format outside the embedded part of `fmt`. -/
inductive Outcome (α : Type) where
  | ok (value : α)
  | panic (msg : GoString)
  | unmodelled
  deriving DecidableEq, Repr

/-- The record `objects.RpcError` as far as `RpcErrorToNative` reads it:
`ErrorCode int32` and `ErrorMessage string`. -/
structure RpcError where
  ErrorCode : Int
  ErrorMessage : GoString
  deriving DecidableEq, Repr

/-- Go `ErrResponseCode`. -/
structure ErrResponseCode where
  Code : Int
  Message : GoString
  Description : GoString
  AdditionalInfo : Option Any
  deriving DecidableEq, Repr

/-- Go `prefixSuffix`: a rule of `specificErrors`. -/
structure prefixSuffix where
  prefix_ : GoString
  suffix_ : GoString
  kind : Kind
  deriving DecidableEq, Repr

/-- Go `specificErrors`, in the order of the source. -/
def specificErrors : List prefixSuffix := [
  ⟨utf8 "EMAIL_UNCONFIRMED_", utf8 "", Kind.Int⟩,
  ⟨utf8 "FILE_MIGRATE_", utf8 "", Kind.Int⟩,
  ⟨utf8 "FILE_PART_", utf8 "_MISSING", Kind.Int⟩,
  ⟨utf8 "FLOOD_TEST_PHONE_WAIT_", utf8 "", Kind.Int⟩,
  ⟨utf8 "FLOOD_WAIT_", utf8 "", Kind.Int⟩,
  ⟨utf8 "INTERDC_", utf8 "_CALL_ERROR", Kind.Int⟩,
  ⟨utf8 "INTERDC_", utf8 "_CALL_RICH_ERROR", Kind.Int⟩,
  ⟨utf8 "NETWORK_MIGRATE_", utf8 "", Kind.Int⟩,
  ⟨utf8 "PASSWORD_TOO_FRESH_", utf8 "", Kind.Int⟩,
  ⟨utf8 "PHONE_MIGRATE_", utf8 "", Kind.Int⟩,
  ⟨utf8 "SESSION_TOO_FRESH_", utf8 "", Kind.Int⟩,
  ⟨utf8 "SLOWMODE_WAIT_", utf8 "", Kind.Int⟩,
  ⟨utf8 "STATS_MIGRATE_", utf8 "", Kind.Int⟩,
  ⟨utf8 "TAKEOUT_INIT_DELAY_", utf8 "", Kind.Int⟩,
  ⟨utf8 "USER_MIGRATE_", utf8 "", Kind.Int⟩,
  ⟨utf8 "PREVIOUS_CHAT_IMPORT_ACTIVE_WAIT_", utf8 "MIN", Kind.Int⟩]

/-- The test of the loop in `TryExpandError`:
`strings.HasPrefix(errStr, errCase.prefix) && strings.HasSuffix(errStr, errCase.suffix)`. -/
def ruleMatches (errStr : GoString) (errCase : prefixSuffix) : Bool :=
  HasPrefix errStr errCase.prefix_ && HasSuffix errStr errCase.suffix_

/-- The loop of `TryExpandError` over the rule table: the first rule that passes the
test is chosen and the loop breaks; `none` is the nil pointer left when none passes. -/
def choosePrefixSuffix : List prefixSuffix → GoString → Option prefixSuffix
  | [], _ => none
  | errCase :: rest, errStr =>
    if ruleMatches errStr errCase then some errCase else choosePrefixSuffix rest errStr

/-- The text `trimmedData` of `TryExpandError` for a chosen rule. -/
def trimmedData (errStr : GoString) (chosen : prefixSuffix) : GoString :=
  TrimSuffix (TrimPrefix errStr chosen.prefix_) chosen.suffix_

/-- The name `nativeErrorName` of `TryExpandError` for a chosen rule. -/
def nativeName (chosen : prefixSuffix) : GoString :=
  chosen.prefix_ ++ utf8 "X" ++ chosen.suffix_

/-- Go `TryExpandError`, over a given rule table. -/
def TryExpandErrorIn (rules : List prefixSuffix) (errStr : GoString) :
    Outcome (GoString × Option Any) :=
  match choosePrefixSuffix rules errStr with
  | none => Outcome.ok (errStr, none)
  | some chosen =>
    match chosen.kind with
    | Kind.Int => Outcome.ok (nativeName chosen, some (Any.int (Atoi (trimmedData errStr chosen)).1))
    | Kind.String => Outcome.ok (nativeName chosen, some (Any.string (trimmedData errStr chosen)))
    | v => Outcome.panic (utf8 "couldn't parse this type: " ++ v.name)

/-- Go `TryExpandError`: the native error name and the additional data. -/
def TryExpandError (errStr : GoString) : Outcome (GoString × Option Any) :=
  TryExpandErrorIn specificErrors errStr

/-- Go `errorMessages`: the map from error name to description. -/
def errorMessages : List (GoString × GoString) := [
  (utf8 "ABOUT_TOO_LONG", utf8 "The provided bio is too long"),
  (utf8 "ACCESS_TOKEN_EXPIRED", utf8 "Bot token expired"),
  (utf8 "ACCESS_TOKEN_INVALID", utf8 "The provided token is not valid"),
  (utf8 "ACTIVE_USER_REQUIRED", utf8 "The method is only available to already activated users"),
  (utf8 "ADMINS_TOO_MUCH", utf8 "Too many admins"),
  (utf8 "ADMIN_RANK_EMOJI_NOT_ALLOWED", utf8 "Emoji are not allowed in admin titles or ranks"),
  (utf8 "ADMIN_RANK_INVALID", utf8 "The given admin title or rank was invalid (possibly larger than 16 characters)"),
  (utf8 "ALBUM_PHOTOS_TOO_MANY", utf8 "Too many photos were included in the album"),
  (utf8 "API_ID_INVALID", utf8 "The api_id/api_hash combination is invalid"),
  (utf8 "API_ID_PUBLISHED_FLOOD", utf8 "This API id was published somewhere, you can't use it now"),
  (utf8 "ARTICLE_TITLE_EMPTY", utf8 "The title of the article is empty"),
  (utf8 "AUDIO_TITLE_EMPTY", utf8 "The title attribute of the audio must be non-empty"),
  (utf8 "AUDIO_CONTENT_URL_EMPTY", utf8 "The content URL of the audio must be non-empty"),
  (utf8 "AUTH_BYTES_INVALID", utf8 "The provided authorization is invalid"),
  (utf8 "AUTH_KEY_DUPLICATED", utf8 "The authorization key (session file) was used under two different IP addresses simultaneously, and can no longer be used. Use the same session exclusively, or use different sessions"),
  (utf8 "AUTH_KEY_INVALID", utf8 "The Authorization Key is invalid"),
  (utf8 "AUTH_KEY_PERM_EMPTY", utf8 "The method is unavailable for temporary authorization key, not bound to permanent"),
  (utf8 "AUTH_KEY_UNREGISTERED", utf8 "The key is not registered in the system"),
  (utf8 "AUTH_RESTART", utf8 "Restart the authorization process"),
  (utf8 "AUTH_TOKEN_ALREADY_ACCEPTED", utf8 "The authorization token was already used"),
  (utf8 "AUTH_TOKEN_EXPIRED", utf8 "The provided authorization token has expired and the updated QR-code must be re-scanned"),
  (utf8 "AUTH_TOKEN_INVALID", utf8 "An invalid authorization token was provided"),
  (utf8 "AUTOARCHIVE_NOT_AVAILABLE", utf8 "You cannot use this feature yet"),
  (utf8 "BANK_CARD_NUMBER_INVALID", utf8 "Incorrect credit card number"),
  (utf8 "BASE_PORT_LOC_INVALID", utf8 "Base port location invalid"),
  (utf8 "BANNED_RIGHTS_INVALID", utf8 "You cannot use that set of permissions in this request, i.e. restricting view_messages as a default"),
  (utf8 "BOTS_TOO_MUCH", utf8 "There are too many bots in this chat/channel"),
  (utf8 "BOT_ONESIDE_NOT_AVAIL", utf8 "One-sided pinned messages are not available in this chat"),
  (utf8 "BOT_CHANNELS_NA", utf8 "Bots can't edit admin privileges"),
  (utf8 "BOT_COMMAND_DESCRIPTION_INVALID", utf8 "The command description was empty, too long or had invalid characters used"),
  (utf8 "BOT_COMMAND_INVALID", utf8 "The bot command was in invalid format"),
  (utf8 "BOT_DOMAIN_INVALID", utf8 "The domain used for the auth button does not match the one configured in @BotFather"),
  (utf8 "BOT_GAMES_DISABLED", utf8 "Bot games cannot be used in this type of chat"),
  (utf8 "BOT_GROUPS_BLOCKED", utf8 "This bot can't be added to groups"),
  (utf8 "BOT_INLINE_DISABLED", utf8 "This bot can't be used in inline mode"),
  (utf8 "BOT_INVALID", utf8 "This is not a valid bot"),
  (utf8 "BOT_METHOD_INVALID", utf8 "The API access for bot users is restricted. The method you tried to invoke cannot be executed as a bot"),
  (utf8 "BOT_MISSING", utf8 "This method can only be run by a bot"),
  (utf8 "BOT_PAYMENTS_DISABLED", utf8 "This method can only be run by a bot"),
  (utf8 "BOT_POLLS_DISABLED", utf8 "You cannot create polls under a bot account"),
  (utf8 "BOT_RESPONSE_TIMEOUT", utf8 "The bot did not answer to the callback query in time"),
  (utf8 "BOT_SCORE_NOT_MODIFIED", utf8 "There are too many bots in this chat/channel"),
  (utf8 "BROADCAST_CALLS_DISABLED", utf8 ""),
  (utf8 "BROADCAST_FORBIDDEN", utf8 "The request cannot be used in broadcast channels"),
  (utf8 "BROADCAST_ID_INVALID", utf8 "The channel is invalid"),
  (utf8 "BROADCAST_PUBLIC_VOTERS_FORBIDDEN", utf8 "You cannot broadcast polls where the voters are public"),
  (utf8 "BROADCAST_REQUIRED", utf8 "The request can only be used with a broadcast channel"),
  (utf8 "BUTTON_DATA_INVALID", utf8 "The provided button data is invalid"),
  (utf8 "BUTTON_TYPE_INVALID", utf8 "The type of one of the buttons you provided is invalid"),
  (utf8 "BUTTON_URL_INVALID", utf8 "Button URL invalid"),
  (utf8 "CALL_ALREADY_ACCEPTED", utf8 "The call was already accepted"),
  (utf8 "CALL_ALREADY_DECLINED", utf8 "The call was already declined"),
  (utf8 "CALL_OCCUPY_FAILED", utf8 "The call failed because the user is already making another call"),
  (utf8 "CALL_PEER_INVALID", utf8 "The provided call peer object is invalid"),
  (utf8 "CALL_PROTOCOL_FLAGS_INVALID", utf8 "Call protocol flags invalid"),
  (utf8 "CDN_METHOD_INVALID", utf8 "This method cannot be invoked on a CDN server. Refer to https://core.telegram.org/cdn#schema for available methods"),
  (utf8 "CHANNELS_ADMIN_PUBLIC_TOO_MUCH", utf8 "You're admin of too many public channels, make some channels private to change the username of this channel"),
  (utf8 "CHANNELS_ADMIN_LOCATED_TOO_MUCH", utf8 "Returned if both the check_limit and the by_location flags are set and the user has reached the limit of public geogroups"),
  (utf8 "CHANNELS_TOO_MUCH", utf8 "You have joined too many channels/supergroups"),
  (utf8 "CHANNEL_ADD_INVALID", utf8 ""),
  (utf8 "CHANNEL_BANNED", utf8 "The channel is banned"),
  (utf8 "CHANNEL_INVALID", utf8 "Invalid channel object. Make sure to pass the right types, for instance making sure that the request is designed for channels or otherwise look for a different one more suited"),
  (utf8 "CHANNEL_PRIVATE", utf8 "The channel specified is private and you lack permission to access it. Another reason may be that you were banned from it"),
  (utf8 "CHANNEL_PUBLIC_GROUP_NA", utf8 "channel/supergroup not available"),
  (utf8 "CHANNEL_TOO_LARGE", utf8 "Channel is too large to be deleted; this error is issued when trying to delete channels with more than 1000 members (subject to change)"),
  (utf8 "CHAT_ABOUT_NOT_MODIFIED", utf8 "About text has not changed"),
  (utf8 "CHAT_ABOUT_TOO_LONG", utf8 "Chat about too long"),
  (utf8 "CHAT_ADMIN_INVITE_REQUIRED", utf8 "You do not have the rights to do this"),
  (utf8 "CHAT_ADMIN_REQUIRED", utf8 "Chat admin privileges are required to do that in the specified chat (for example, to send a message in a channel which is not yours), or invalid permissions used for the channel or group"),
  (utf8 "CHAT_FORBIDDEN", utf8 "You cannot write in this chat"),
  (utf8 "CHAT_FORWARDS_RESTRICTED", utf8 "You cannot forward messages from this chat"),
  (utf8 "CHAT_ID_EMPTY", utf8 "The provided chat ID is empty"),
  (utf8 "CHAT_ID_INVALID", utf8 "Invalid object ID for a chat. Make sure to pass the right types, for instance making sure that the request is designed for chats (not channels/megagroups) or otherwise look for a different one more suited\nAn example working with a megagroup and AddChatUserRequest, it will fail because megagroups are channels. Use InviteToChannelRequest instead"),
  (utf8 "CHAT_INVALID", utf8 "The chat is invalid for this request"),
  (utf8 "CHAT_LINK_EXISTS", utf8 "The chat is linked to a channel and cannot be used in that request"),
  (utf8 "CHAT_NOT_MODIFIED", utf8 "The chat or channel wasn't modified (title, invites, username, admins, etc. are the same)"),
  (utf8 "CHAT_RESTRICTED", utf8 "The chat is restricted and cannot be used in that request"),
  (utf8 "CHAT_SEND_GIFS_FORBIDDEN", utf8 "You can't send gifs in this chat"),
  (utf8 "CHAT_SEND_INLINE_FORBIDDEN", utf8 "You cannot send inline results in this chat"),
  (utf8 "CHAT_SEND_MEDIA_FORBIDDEN", utf8 "You can't send media in this chat"),
  (utf8 "CHAT_SEND_STICKERS_FORBIDDEN", utf8 "You can't send stickers in this chat"),
  (utf8 "CHAT_TITLE_EMPTY", utf8 "No chat title provided"),
  (utf8 "CHAT_TOO_BIG", utf8 "The chat is too big"),
  (utf8 "CHAT_WRITE_FORBIDDEN", utf8 "You can't write in this chat"),
  (utf8 "CHP_CALL_FAIL", utf8 "The statistics cannot be retrieved at this time"),
  (utf8 "CODE_EMPTY", utf8 "The provided code is empty"),
  (utf8 "CODE_HASH_INVALID", utf8 "Code hash invalid"),
  (utf8 "CODE_INVALID", utf8 "Code invalid (i.e. from email)"),
  (utf8 "CONNECTION_API_ID_INVALID", utf8 "The provided API id is invalid"),
  (utf8 "CONNECTION_DEVICE_MODEL_EMPTY", utf8 "Device model empty"),
  (utf8 "CONNECTION_LANG_PACK_INVALID", utf8 "The specified language pack is not valid. This is meant to be used by official applications only so far, leave it empty"),
  (utf8 "CONNECTION_LAYER_INVALID", utf8 "The very first request must always be InvokeWithLayerRequest"),
  (utf8 "CONNECTION_NOT_INITED", utf8 "Connection not initialized"),
  (utf8 "CONNECTION_SYSTEM_EMPTY", utf8 "Connection system empty"),
  (utf8 "CONNECTION_SYSTEM_LANG_CODE_EMPTY", utf8 "The system language string was empty during connection"),
  (utf8 "CONTACT_ID_INVALID", utf8 "The provided contact ID is invalid"),
  (utf8 "CONTACT_NAME_EMPTY", utf8 "The provided contact name cannot be empty"),
  (utf8 "CURRENCY_TOTAL_AMOUNT_INVALID", utf8 "The total amount of the invoice is invalid"),
  (utf8 "DATA_INVALID", utf8 "Encrypted data invalid"),
  (utf8 "DATA_JSON_INVALID", utf8 "The provided JSON data is invalid"),
  (utf8 "DATE_EMPTY", utf8 "Date empty"),
  (utf8 "DC_ID_INVALID", utf8 "This occurs when an authorization is tried to be exported for the same data center one is currently connected to"),
  (utf8 "DH_G_A_INVALID", utf8 "g_a invalid"),
  (utf8 "DOCUMENT_INVALID", utf8 "The document file was invalid and can't be used in inline mode"),
  (utf8 "EMAIL_HASH_EXPIRED", utf8 "The email hash expired and cannot be used to verify it"),
  (utf8 "EMAIL_INVALID", utf8 "The given email is invalid"),
  (utf8 "EMOJI_INVALID", utf8 "The specified emoji cannot be used or was not a emoji"),
  (utf8 "EMOJI_NOT_MODIFIED", utf8 "The emoji was not modified"),
  (utf8 "EMOTICON_EMPTY", utf8 "The emoticon field cannot be empty"),
  (utf8 "EMOTICON_INVALID", utf8 "The specified emoticon cannot be used or was not a emoticon"),
  (utf8 "EMOTICON_STICKERPACK_MISSING", utf8 "The emoticon sticker pack you are trying to get is missing"),
  (utf8 "ENCRYPTED_MESSAGE_INVALID", utf8 "Encrypted message invalid"),
  (utf8 "ENCRYPTION_ALREADY_ACCEPTED", utf8 "Secret chat already accepted"),
  (utf8 "ENCRYPTION_ALREADY_DECLINED", utf8 "The secret chat was already declined"),
  (utf8 "ENCRYPTION_DECLINED", utf8 "The secret chat was declined"),
  (utf8 "ENCRYPTION_ID_INVALID", utf8 "The provided secret chat ID is invalid"),
  (utf8 "ENCRYPTION_OCCUPY_FAILED", utf8 "TDLib developer claimed it is not an error while accepting secret chats and 500 is used instead of 420"),
  (utf8 "ENTITIES_TOO_LONG", utf8 "It is no longer possible to send such long data inside entity tags (for example inline text URLs)"),
  (utf8 "ENTITY_MENTION_USER_INVALID", utf8 "You can't use this entity"),
  (utf8 "ERROR_TEXT_EMPTY", utf8 "The provided error message is empty"),
  (utf8 "EXPIRE_DATE_INVALID", utf8 "The provided expire date is invalid"),
  (utf8 "EXPIRE_FORBIDDEN", utf8 "The provided expire date is forbidden"),
  (utf8 "EXPORT_CARD_INVALID", utf8 "Provided card is invalid"),
  (utf8 "EXTERNAL_URL_INVALID", utf8 "External URL invalid"),
  (utf8 "FIELD_NAME_EMPTY", utf8 "The field with the name FIELD_NAME is missing"),
  (utf8 "FIELD_NAME_INVALID", utf8 "The field with the name FIELD_NAME is invalid"),
  (utf8 "FILEREF_UPGRADE_NEEDED", utf8 "The file reference needs to be refreshed before being used again"),
  (utf8 "FILE_CONTENT_TYPE_INVALID", utf8 "The provided file content type is invalid"),
  (utf8 "FILE_ID_INVALID", utf8 "The provided file id is invalid. Make sure all parameters are present, have the correct type and are not empty (ID, access hash, file reference, thumb size ...)"),
  (utf8 "FILE_PARTS_INVALID", utf8 "The number of file parts is invalid"),
  (utf8 "FILE_PART_EMPTY", utf8 "The provided file part is empty"),
  (utf8 "FILE_PART_INVALID", utf8 "The file part number is invalid"),
  (utf8 "FILE_PART_LENGTH_INVALID", utf8 "The length of a file part is invalid"),
  (utf8 "FILE_PART_SIZE_CHANGED", utf8 "The file part size (chunk size) cannot change during upload"),
  (utf8 "FILE_PART_SIZE_INVALID", utf8 "The provided file part size is invalid"),
  (utf8 "FILE_REFERENCE_EMPTY", utf8 "The file reference must exist to access the media and it cannot be empty"),
  (utf8 "FILE_REFERENCE_EXPIRED", utf8 "The file reference has expired and is no longer valid or it belongs to self-destructing media and cannot be resent"),
  (utf8 "FILE_REFERENCE_INVALID", utf8 "The file reference is invalid or you can't do that operation on such message"),
  (utf8 "FILE_TITLE_EMPTY", utf8 "The provided file title is empty"),
  (utf8 "FIRSTNAME_INVALID", utf8 "The first name is invalid"),
  (utf8 "FILTER_NOT_SUPPORTED", utf8 "The provided filter is not supported"),
  (utf8 "FOLDER_ID_EMPTY", utf8 "The folder you tried to delete was already empty"),
  (utf8 "FOLDER_ID_INVALID", utf8 "The folder you tried to use was not valid"),
  (utf8 "FRESH_CHANGE_ADMINS_FORBIDDEN", utf8 "Recently logged-in users cannot add or change admins"),
  (utf8 "FRESH_CHANGE_PHONE_FORBIDDEN", utf8 "Recently logged-in users cannot use this request"),
  (utf8 "FRESH_RESET_AUTHORISATION_FORBIDDEN", utf8 "The current session is too new and cannot be used to reset other authorisations yet"),
  (utf8 "FROM_PEER_INVALID", utf8 "The given from_user peer cannot be used for the parameter"),
  (utf8 "GAME_BOT_INVALID", utf8 "You cannot send that game with the current bot"),
  (utf8 "GIF_CONTENT_TYPE_INVALID", utf8 "The provided GIF content type is invalid"),
  (utf8 "GIF_ID_INVALID", utf8 "The provided GIF ID is invalid"),
  (utf8 "GRAPH_INVALID_RELOAD", utf8 "Data can't be used for the channel statistics, graphs invalid"),
  (utf8 "GRAPH_OUTDATED_RELOAD", utf8 "Data can't be used for the channel statistics, graphs outdated"),
  (utf8 "GROUPCALL_ADD_PARTICIPANTS_FAILED", utf8 "Failed to add participants to the group call"),
  (utf8 "GROUPCALL_ALREADY_DISCARDED", utf8 "The group call was already discarded"),
  (utf8 "GROUPCALL_FORBIDDEN", utf8 "The group call is forbidden"),
  (utf8 "GROUPCALL_INVALID", utf8 "The group call is invalid"),
  (utf8 "GROUPCALL_JOIN_MISSING", utf8 "The group call join is missing"),
  (utf8 "GROUPCALL_SSRC_DUPLICATE_MUCH", utf8 "Too many duplicate SSRCs"),
  (utf8 "GROUPCALL_NOT_MODIFIED", utf8 "The group call was not modified"),
  (utf8 "GROUPED_MEDIA_INVALID", utf8 "Invalid grouped media"),
  (utf8 "GROUP_CALL_INVALID", utf8 "Group call invalid"),
  (utf8 "HASH_INVALID", utf8 "The provided hash is invalid"),
  (utf8 "HISTORY_GET_FAILED", utf8 "Fetching of history failed"),
  (utf8 "IMAGE_PROCESS_FAILED", utf8 "Failure while processing image"),
  (utf8 "IMPORT_FILE_INVALID", utf8 "The file is too large to be imported"),
  (utf8 "IMPORT_FORMAT_UNRECOGNIZED", utf8 "Unknown import format"),
  (utf8 "IMPORT_ID_INVALID", utf8 "The provided import ID is invalid"),
  (utf8 "INLINE_BOT_REQUIRED", utf8 "The action must be performed through an inline bot callback"),
  (utf8 "INLINE_RESULT_EXPIRED", utf8 "The inline query expired"),
  (utf8 "INPUT_CONSTRUCTOR_INVALID", utf8 "The provided constructor is invalid"),
  (utf8 "INPUT_FETCH_ERROR", utf8 "An error occurred while deserializing TL parameters"),
  (utf8 "INPUT_FETCH_FAIL", utf8 "Failed deserializing TL payload"),
  (utf8 "INPUT_FILTER_INVALID", utf8 "The search query filter is invalid"),
  (utf8 "INPUT_LAYER_INVALID", utf8 "The provided layer is invalid"),
  (utf8 "INPUT_METHOD_INVALID", utf8 "The invoked method does not exist anymore or has never existed"),
  (utf8 "INPUT_REQUEST_TOO_LONG", utf8 "The input request was too long. This may be a bug in the library as it can occur when serializing more bytes than it should (like appending the vector constructor code at the end of a message)"),
  (utf8 "INPUT_USER_DEACTIVATED", utf8 "The specified user was deleted"),
  (utf8 "INVITE_FORBIDDEN_WITH_JOINAS", utf8 "You cannot use this method to invite users to a channel if you are using the join_as parameter"),
  (utf8 "INVITE_HASH_EMPTY", utf8 "The invite hash is empty"),
  (utf8 "INVITE_HASH_EXPIRED", utf8 "The chat the user tried to join has expired and is not valid anymore"),
  (utf8 "INVITE_HASH_INVALID", utf8 "The invite hash is invalid"),
  (utf8 "LANG_CODE_INVALID", utf8 "The provided language code is invalid"),
  (utf8 "LANG_PACK_INVALID", utf8 "The provided language pack is invalid"),
  (utf8 "LASTNAME_INVALID", utf8 "The last name is invalid"),
  (utf8 "LIMIT_INVALID", utf8 "An invalid limit was provided. See https://core.telegram.org/api/files#downloading-files"),
  (utf8 "LINK_NOT_MODIFIED", utf8 "The channel is already linked to this group"),
  (utf8 "LOCATION_INVALID", utf8 "The location given for a file was invalid. See https://core.telegram.org/api/files#downloading-files"),
  (utf8 "MAX_ID_INVALID", utf8 "The provided max ID is invalid"),
  (utf8 "MAX_QTS_INVALID", utf8 "The provided QTS were invalid"),
  (utf8 "MD5_CHECKSUM_INVALID", utf8 "The MD5 check-sums do not match"),
  (utf8 "MEDIA_CAPTION_TOO_LONG", utf8 "The caption is too long"),
  (utf8 "MEDIA_EMPTY", utf8 "The provided media object is invalid or the current account may not be able to send it (such as games as users)"),
  (utf8 "MEDIA_GROUPED_INVALID", utf8 "The provided media group is invalid"),
  (utf8 "MEDIA_INVALID", utf8 "Media invalid"),
  (utf8 "MEDIA_NEW_INVALID", utf8 "The new media to edit the message with is invalid (such as stickers or voice notes)"),
  (utf8 "MEDIA_PREV_INVALID", utf8 "The old media cannot be edited with anything else (such as stickers or voice notes)"),
  (utf8 "MEDIA_TTL_INVALID", utf8 "The provided media TTL is invalid"),
  (utf8 "MEGAGROUP_ID_INVALID", utf8 "The group is invalid"),
  (utf8 "MEGAGROUP_PREHISTORY_HIDDEN", utf8 "You can't set this discussion group because it's history is hidden"),
  (utf8 "MEGAGROUP_REQUIRED", utf8 "The request can only be used with a megagroup channel"),
  (utf8 "MEMBER_NO_LOCATION", utf8 "An internal failure occurred while fetching user info (couldn't find location)"),
  (utf8 "MEMBER_OCCUPY_PRIMARY_LOC_FAILED", utf8 "Occupation of primary member location failed"),
  (utf8 "MESSAGE_AUTHOR_REQUIRED", utf8 "Message author required"),
  (utf8 "MESSAGE_DELETE_FORBIDDEN", utf8 "You can't delete one of the messages you tried to delete, most likely because it is a service message."),
  (utf8 "MESSAGE_EDIT_TIME_EXPIRED", utf8 "You can't edit this message anymore, too much time has passed since its creation."),
  (utf8 "MESSAGE_EMPTY", utf8 "Empty or invalid UTF-8 message was sent"),
  (utf8 "MESSAGE_IDS_EMPTY", utf8 "No message ids were provided"),
  (utf8 "MESSAGE_ID_INVALID", utf8 "The specified message ID is invalid or you can't do that operation on such message"),
  (utf8 "MESSAGE_NOT_MODIFIED", utf8 "Content of the message was not modified"),
  (utf8 "MESSAGE_POLL_CLOSED", utf8 "The poll was closed and can no longer be voted on"),
  (utf8 "MESSAGE_TOO_LONG", utf8 "Message was too long. Current maximum length is 4096 UTF-8 characters"),
  (utf8 "METHOD_INVALID", utf8 "The API method is invalid and cannot be used"),
  (utf8 "MSGID_DECREASE_RETRY", utf8 "The request should be retried with a lower message ID"),
  (utf8 "MSG_ID_INVALID", utf8 "The message ID used in the peer was invalid"),
  (utf8 "MSG_WAIT_FAILED", utf8 "A waiting call returned an error"),
  (utf8 "MT_SEND_QUEUE_TOO_LONG", utf8 "The message was not sent because the send queue is too long"),
  (utf8 "MULTI_MEDIA_TOO_LONG", utf8 "Too many media files were included in the same album"),
  (utf8 "NEED_CHAT_INVALID", utf8 "The provided chat is invalid"),
  (utf8 "NEED_MEMBER_INVALID", utf8 "The provided member is invalid or does not exist (for example a thumb size)"),
  (utf8 "NEW_SALT_INVALID", utf8 "The new salt is invalid"),
  (utf8 "NEW_SETTINGS_INVALID", utf8 "The new settings are invalid"),
  (utf8 "NEXT_OFFSET_INVALID", utf8 "The value for next_offset is invalid. Check that it has normal characters and is not too long"),
  (utf8 "OFFSET_INVALID", utf8 "The given offset was invalid, it must be divisible by 1KB. See https://core.telegram.org/api/files#downloading-files"),
  (utf8 "OFFSET_PEER_ID_INVALID", utf8 "The provided offset peer is invalid"),
  (utf8 "OPTIONS_TOO_MUCH", utf8 "You defined too many options for the poll"),
  (utf8 "OPTION_INVALID", utf8 "The option specified is invalid and does not exist in the target poll"),
  (utf8 "PACK_SHORT_NAME_INVALID", utf8 "Invalid sticker pack name. It must begin with a letter, can't contain consecutive underscores and must end in \"_by_<bot username>\"."),
  (utf8 "PACK_SHORT_NAME_OCCUPIED", utf8 "A stickerpack with this name already exists"),
  (utf8 "PARTICIPANTS_TOO_FEW", utf8 "Not enough participants"),
  (utf8 "PARTICIPANT_CALL_FAILED", utf8 "Failure while making call"),
  (utf8 "PARTICIPANT_JOIN_MISSING", utf8 "The participant is not in the chat"),
  (utf8 "PARTICIPANT_ID_INVALID", utf8 "The participant ID is invalid"),
  (utf8 "PARTICIPANT_VERSION_OUTDATED", utf8 "The other participant does not use an up to date telegram client with support for calls"),
  (utf8 "PASSWORD_EMPTY", utf8 "The provided password is empty"),
  (utf8 "PASSWORD_HASH_INVALID", utf8 "The password (and thus its hash value) you entered is invalid"),
  (utf8 "PASSWORD_MISSING", utf8 "The account must have 2-factor authentication enabled (a password) before this method can be used"),
  (utf8 "PASSWORD_RECOVERY_EXPIRED", utf8 "The password recovery code has expired"),
  (utf8 "PASSWORD_RECOVERY_NA", utf8 "The password recovery code is invalid"),
  (utf8 "PASSWORD_REQUIRED", utf8 "The account must have 2-factor authentication enabled (a password) before this method can be used"),
  (utf8 "PAYMENT_PROVIDER_INVALID", utf8 "The payment provider was not recognised or its token was invalid"),
  (utf8 "PEER_FLOOD", utf8 "Too many requests"),
  (utf8 "PEER_ID_INVALID", utf8 "An invalid Peer was used. Make sure to pass the right peer type and that the value is valid (for instance, bots cannot start conversations)"),
  (utf8 "PEER_ID_NOT_SUPPORTED", utf8 "The provided peer ID is not supported"),
  (utf8 "PERSISTENT_TIMESTAMP_EMPTY", utf8 "Persistent timestamp empty"),
  (utf8 "PERSISTENT_TIMESTAMP_INVALID", utf8 "Persistent timestamp invalid"),
  (utf8 "PERSISTENT_TIMESTAMP_OUTDATED", utf8 "Persistent timestamp outdated"),
  (utf8 "PHONE_CODE_EMPTY", utf8 "The phone code is missing"),
  (utf8 "PHONE_CODE_EXPIRED", utf8 "The confirmation code has expired"),
  (utf8 "PHONE_CODE_HASH_EMPTY", utf8 "The phone code hash is missing"),
  (utf8 "PHONE_CODE_INVALID", utf8 "The phone code entered was invalid"),
  (utf8 "PHONE_NOT_OCCUPIED", utf8 "The phone number is not yet occupied"),
  (utf8 "PHONE_NUMBER_APP_SIGNUP_FORBIDDEN", utf8 "You can't sign up using this app"),
  (utf8 "PHONE_NUMBER_BANNED", utf8 "The used phone number has been banned from Telegram and cannot be used anymore. Maybe check https://www.telegram.org/faq_spam"),
  (utf8 "PHONE_NUMBER_FLOOD", utf8 "You asked for the code too many times."),
  (utf8 "PHONE_NUMBER_INVALID", utf8 "The phone number is invalid"),
  (utf8 "PHONE_NUMBER_OCCUPIED", utf8 "The phone number is already in use"),
  (utf8 "PHONE_NUMBER_UNOCCUPIED", utf8 "The phone number is not yet being used"),
  (utf8 "PHONE_PASSWORD_FLOOD", utf8 "You have tried logging in too many times"),
  (utf8 "PHONE_PASSWORD_PROTECTED", utf8 "This phone is password protected"),
  (utf8 "PHOTO_CONTENT_TYPE_INVALID", utf8 "The content type of photo is invalid"),
  (utf8 "PHOTO_CONTENT_URL_EMPTY", utf8 "The content from the URL used as a photo appears to be empty or has caused another HTTP error"),
  (utf8 "PHOTO_CROP_SIZE_SMALL", utf8 "Photo is too small"),
  (utf8 "PHOTO_EXT_INVALID", utf8 "The extension of the photo is invalid"),
  (utf8 "PHOTO_FILE_MISSING", utf8 "The photo file is missing"),
  (utf8 "PHOTO_ID_INVALID", utf8 "Photo id is invalid"),
  (utf8 "PHOTO_INVALID", utf8 "Photo invalid"),
  (utf8 "PHOTO_INVALID_DIMENSIONS", utf8 "The photo dimensions are invalid (hint: `pip install pillow` for `send_file` to resize images)"),
  (utf8 "PHOTO_SAVE_FILE_INVALID", utf8 "The photo you tried to send cannot be saved by Telegram. A reason may be that it exceeds 10MB. Try resizing it locally"),
  (utf8 "PHOTO_THUMB_URL_EMPTY", utf8 "The URL used as a thumbnail appears to be empty or has caused another HTTP error"),
  (utf8 "PIN_RESTRICTED", utf8 "You can't pin messages in private chats with other people"),
  (utf8 "PINNED_DIALOGS_TOO_MUCH", utf8 "You have too many pinned dialogs"),
  (utf8 "POLL_ANSWER_INVALID", utf8 "The poll answer is invalid"),
  (utf8 "POLL_ANSWERS_INVALID", utf8 "The poll did not have enough answers or had too many"),
  (utf8 "POLL_OPTION_DUPLICATE", utf8 "A duplicate option was sent in the same poll"),
  (utf8 "POLL_OPTION_INVALID", utf8 "A poll option used invalid data (the data may be too long)"),
  (utf8 "POLL_QUESTION_INVALID", utf8 "The poll question was either empty or too long"),
  (utf8 "POLL_UNSUPPORTED", utf8 "This layer does not support polls in the issued method"),
  (utf8 "POLL_VOTE_REQUIRED", utf8 "You must vote in a non-anonymous poll before requesting the results"),
  (utf8 "PRIVACY_KEY_INVALID", utf8 "The privacy key is invalid"),
  (utf8 "PRIVACY_TOO_LONG", utf8 "Cannot add that many entities in a single request"),
  (utf8 "PRIVACY_VALUE_INVALID", utf8 "The privacy value is invalid"),
  (utf8 "PTS_CHANGE_EMPTY", utf8 "No PTS change"),
  (utf8 "PUBLIC_KEY_REQUIRED", utf8 "The public key is required"),
  (utf8 "QUERY_ID_EMPTY", utf8 "The query ID is empty"),
  (utf8 "QUERY_ID_INVALID", utf8 "The query ID is invalid"),
  (utf8 "QUERY_TOO_SHORT", utf8 "The query string is too short"),
  (utf8 "QUIZ_ANSWER_MISSING", utf8 "A quiz must specify at least one answer"),
  (utf8 "QUIZ_CORRECT_ANSWERS_EMPTY", utf8 "A quiz must specify one correct answer"),
  (utf8 "QUIZ_CORRECT_ANSWERS_TOO_MUCH", utf8 "There can only be one correct answer"),
  (utf8 "QUIZ_CORRECT_ANSWER_INVALID", utf8 "The correct answer is not an existing answer"),
  (utf8 "QUIZ_MULTIPLE_INVALID", utf8 "A poll cannot be both multiple choice and quiz"),
  (utf8 "RANDOM_ID_DUPLICATE", utf8 "You provided a random ID that was already used"),
  (utf8 "RANDOM_ID_INVALID", utf8 "A provided random ID is invalid"),
  (utf8 "RANDOM_LENGTH_INVALID", utf8 "Random length invalid"),
  (utf8 "RANGES_INVALID", utf8 "Invalid range provided"),
  (utf8 "REACTION_EMPTY", utf8 "No reaction provided"),
  (utf8 "REACTION_INVALID", utf8 "Invalid reaction provided (only emoji are allowed) or you cannot use the reaction in the specified chat"),
  (utf8 "REFLECTOR_NOT_AVAILABLE", utf8 "Invalid call reflector server"),
  (utf8 "REG_ID_GENERATE_FAILED", utf8 "Failure while generating registration ID"),
  (utf8 "REPLY_MARKUP_GAME_EMPTY", utf8 "The provided reply markup for the game is empty"),
  (utf8 "REPLY_MARKUP_INVALID", utf8 "The provided reply markup is invalid"),
  (utf8 "REPLY_MARKUP_TOO_LONG", utf8 "The data embedded in the reply markup buttons was too much"),
  (utf8 "RESET_REQUEST_MISSING", utf8 "You must request a password reset first"),
  (utf8 "RESULTS_TOO_MUCH", utf8 "You sent too many results, see https://core.telegram.org/bots/api#answerinlinequery for the current limit"),
  (utf8 "RESULT_ID_DUPLICATE", utf8 "Duplicated IDs on the sent results. Make sure to use unique IDs"),
  (utf8 "RESULT_ID_INVALID", utf8 "The given result cannot be used to send the selection to the bot"),
  (utf8 "RESULT_TYPE_INVALID", utf8 "Result type invalid"),
  (utf8 "REVOTE_NOT_ALLOWED", utf8 "You cannot change your vote in a non-anonymous poll"),
  (utf8 "RIGHT_FORBIDDEN", utf8 "Either your admin rights do not allow you to do this or you passed the wrong rights combination (some rights only apply to channels and vice versa)"),
  (utf8 "RPC_CALL_FAIL", utf8 "Telegram is having internal issues, please try again later."),
  (utf8 "RPC_MCGET_FAIL", utf8 "Telegram is having internal issues, please try again later."),
  (utf8 "RSA_DECRYPT_FAILED", utf8 "Internal RSA decryption failed"),
  (utf8 "SCHEDULE_BOT_NOT_ALLOWED", utf8 "Bots are not allowed to schedule messages"),
  (utf8 "SCHEDULE_DATE_INVALID", utf8 "The date you tried to schedule is invalid"),
  (utf8 "SCHEDULE_DATE_TOO_LATE", utf8 "The date you tried to schedule is too far in the future (last known limit of 1 year and a few hours)"),
  (utf8 "SCHEDULE_STATUS_PRIVATE", utf8 "You cannot schedule a message until the person comes online if their privacy does not show this information"),
  (utf8 "SCHEDULE_TOO_MUCH", utf8 "You cannot schedule more messages in this chat (last known limit of 100 per chat)"),
  (utf8 "SCORE_INVALID", utf8 "The given game score is invalid"),
  (utf8 "SEARCH_QUERY_EMPTY", utf8 "The search query is empty"),
  (utf8 "SECONDS_INVALID", utf8 "Slow mode only supports certain values (e.g. 0, 10s, 30s, 1m, 5m, 15m and 1h)"),
  (utf8 "SEND_AS_PEER_INVALID", utf8 "The sendAs Peer is Invalid or cannot be used as Bot"),
  (utf8 "SEND_CODE_UNAVAILABLE", utf8 "The code you tried to send is not available"),
  (utf8 "SEND_MESSAGE_MEDIA_INVALID", utf8 "The message media was invalid or not specified"),
  (utf8 "SEND_MESSAGE_TYPE_INVALID", utf8 "The message type is invalid"),
  (utf8 "SENSITIVE_CHANGE_FORBIDDEN", utf8 "Your sensitive content settings cannot be changed at this time"),
  (utf8 "SESSION_EXPIRED", utf8 "The authorization has expired"),
  (utf8 "SESSION_PASSWORD_NEEDED", utf8 "Two-steps verification is enabled and a password is required"),
  (utf8 "SESSION_REVOKED", utf8 "The authorization has been invalidated, because of the user terminating all sessions"),
  (utf8 "SHA256_HASH_INVALID", utf8 "The provided SHA256 hash is invalid"),
  (utf8 "SHORTNAME_OCCUPY_FAILED", utf8 "An error occurred when trying to register the short-name used for the sticker pack. Try a different name"),
  (utf8 "SHORT_NAME_INVALID", utf8 "The sticker set short name is invalid"),
  (utf8 "SHORT_NAME_OCCUPIED", utf8 "The sticker set short name is already occupied"),
  (utf8 "SLOWMODE_MULTI_MSGS_DISABLED", utf8 "You cannot send multiple messages at once in slow mode"),
  (utf8 "SRP_ID_INVALID", utf8 "The SRP ID is invalid"),
  (utf8 "START_PARAM_EMPTY", utf8 "The start parameter is empty"),
  (utf8 "START_PARAM_INVALID", utf8 "Start parameter invalid"),
  (utf8 "STICKERPACK_STICKERS_TOO_MUCH", utf8 "The sticker pack contains too many stickers"),
  (utf8 "STICKERSET_INVALID", utf8 "The provided sticker set is invalid"),
  (utf8 "STICKERSET_OWNER_ANONYMOUS", utf8 "This sticker set can't be used as the group's official stickers because it was created by one of its anonymous admins"),
  (utf8 "STICKERS_EMPTY", utf8 "No sticker provided"),
  (utf8 "STICKERS_TOO_MUCH", utf8 "The pack contains too many stickers"),
  (utf8 "STICKER_DOCUMENT_INVALID", utf8 "The sticker file was invalid (this file has failed Telegram internal checks, make sure to use the correct format and comply with https://core.telegram.org/animated_stickers)"),
  (utf8 "STICKER_EMOJI_INVALID", utf8 "Sticker emoji invalid"),
  (utf8 "STICKER_FILE_INVALID", utf8 "Sticker file invalid"),
  (utf8 "STICKER_GIF_DIMENSIONS", utf8 "The sticker GIF dimensions are invalid"),
  (utf8 "STICKER_ID_INVALID", utf8 "The provided sticker ID is invalid"),
  (utf8 "STICKER_INVALID", utf8 "The provided sticker is invalid"),
  (utf8 "STICKER_PNG_DIMENSIONS", utf8 "Sticker png dimensions invalid"),
  (utf8 "STICKER_PNG_NOPNG", utf8 "Stickers must be a png file but the used image was not a png"),
  (utf8 "STICKER_TGS_NODOC", utf8 "Sticker TGS not uploaded as document"),
  (utf8 "STICKER_TGS_NOTGS", utf8 "Stickers must be a tgs file but the used file was not a tgs"),
  (utf8 "STICKER_THUMB_PNG_NOPNG", utf8 "Stickerset thumb must be a png file but the used file was not png"),
  (utf8 "STICKER_THUMB_TGS_NOTGS", utf8 "Stickerset thumb must be a tgs file but the used file was not tgs"),
  (utf8 "STICKER_VIDEO_NOWEBM", utf8 "Stickers must be a webm file but the used file was not webm"),
  (utf8 "STICKER_VIDEO_BIG", utf8 "The provided sticker video is too big"),
  (utf8 "STORAGE_CHECK_FAILED", utf8 "Server storage check failed"),
  (utf8 "STORE_INVALID_SCALAR_TYPE", utf8 "Invalid scalar type"),
  (utf8 "TAKEOUT_INVALID", utf8 "The takeout session has been invalidated by another data export session"),
  (utf8 "TAKEOUT_REQUIRED", utf8 "You must initialize a takeout request first"),
  (utf8 "TEMP_AUTH_KEY_EMPTY", utf8 "No temporary auth key provided"),
  (utf8 "TIMEOUT", utf8 "A timeout occurred while fetching data from the worker"),
  (utf8 "TITLE_INVALID", utf8 "The sticker set title is invalid"),
  (utf8 "THEME_INVALID", utf8 "Theme invalid"),
  (utf8 "THEME_MIME_INVALID", utf8 "You cannot create this theme, the mime-type is invalid"),
  (utf8 "TMP_PASSWORD_DISABLED", utf8 "The temporary password is disabled"),
  (utf8 "TMP_PASSWORD_INVALID", utf8 "Password auth needs to be regenerated"),
  (utf8 "TOKEN_INVALID", utf8 "The provided token is invalid"),
  (utf8 "TTL_DAYS_INVALID", utf8 "The provided TTL is invalid"),
  (utf8 "TTL_MEDIA_INVALID", utf8 "The provided media cannot be used with a TTL"),
  (utf8 "TTL_PERIOD_INVALID", utf8 "The provided TTL Period is invalid"),
  (utf8 "TYPES_EMPTY", utf8 "The types field is empty"),
  (utf8 "TYPE_CONSTRUCTOR_INVALID", utf8 "The type constructor is invalid"),
  (utf8 "UNKNOWN_ERROR", utf8 "The server has returned an unknown error"),
  (utf8 "UNKNOWN_METHOD", utf8 "The method you tried to call cannot be called on non-CDN DCs"),
  (utf8 "UNTIL_DATE_INVALID", utf8 "That date cannot be specified in this request (try using None)"),
  (utf8 "UPDATE_APP_TO_LOGIN", utf8 "This layer no longer supports logging in, please update your app"),
  (utf8 "URL_INVALID", utf8 "The URL used was invalid (e.g. when answering a callback with a URL that's not t.me/yourbot or your game's URL)"),
  (utf8 "USAGE_LIMIT_INVALID", utf8 "The invite link usage limit is invalid"),
  (utf8 "USER_VOLUME_INVALID", utf8 "The provided volume is invalid"),
  (utf8 "USERNAME_INVALID", utf8 "Nobody is using this username, or the username is unacceptable. If the latter, it must match r\"[a-zA-Z][\\w\\d]\x7b3,30\x7d[a-zA-Z\\d]\""),
  (utf8 "USERNAME_NOT_MODIFIED", utf8 "The username is not different from the current username"),
  (utf8 "USERNAME_NOT_OCCUPIED", utf8 "The username is not in use by anyone else yet"),
  (utf8 "USERNAME_OCCUPIED", utf8 "The username is already taken"),
  (utf8 "USERS_TOO_FEW", utf8 "Not enough users (to create a chat, for example)"),
  (utf8 "USERS_TOO_MUCH", utf8 "The maximum number of users has been exceeded (to create a chat, for example)"),
  (utf8 "USER_ADMIN_INVALID", utf8 "Either you're not an admin or you tried to ban an admin that you didn't promote"),
  (utf8 "USER_ALREADY_INVITED", utf8 "The user has already been invited to the group call"),
  (utf8 "USER_ALREADY_PARTICIPANT", utf8 "The authenticated user is already a participant of the chat"),
  (utf8 "USER_BANNED_IN_CHANNEL", utf8 "You're banned from sending messages in supergroups/channels"),
  (utf8 "USER_BLOCKED", utf8 "User blocked"),
  (utf8 "USER_BOT", utf8 "Bots can only be admins in channels."),
  (utf8 "USER_BOT_INVALID", utf8 "This method can only be called by a bot"),
  (utf8 "USER_BOT_REQUIRED", utf8 "This method can only be called by a bot"),
  (utf8 "USER_CHANNELS_TOO_MUCH", utf8 "One of the users you tried to add is already in too many channels/supergroups"),
  (utf8 "USER_CREATOR", utf8 "You can't leave this channel, because you're its creator"),
  (utf8 "USER_DEACTIVATED", utf8 "The user has been deleted/deactivated"),
  (utf8 "USER_DEACTIVATED_BAN", utf8 "The user has been deleted/deactivated"),
  (utf8 "USER_ID_INVALID", utf8 "Invalid object ID for a user. Make sure to pass the right types, for instance making sure that the request is designed for users or otherwise look for a different one more suited"),
  (utf8 "USER_INVALID", utf8 "The given user was invalid"),
  (utf8 "USER_IS_BLOCKED", utf8 "User is blocked"),
  (utf8 "USER_IS_BOT", utf8 "Bots can't send messages to other bots"),
  (utf8 "USER_KICKED", utf8 "This user was kicked from this supergroup/channel"),
  (utf8 "USER_NOT_MUTUAL_CONTACT", utf8 "The provided user is not a mutual contact"),
  (utf8 "USER_NOT_PARTICIPANT", utf8 "The target user is not a member of the specified megagroup or channel"),
  (utf8 "USER_PRIVACY_RESTRICTED", utf8 "The user's privacy settings do not allow you to do this"),
  (utf8 "USER_RESTRICTED", utf8 "You're spamreported, you can't create channels or chats."),
  (utf8 "USERPIC_UPLOAD_REQUIRED", utf8 "You must have a profile picture before using this method"),
  (utf8 "VIDEO_CONTENT_TYPE_INVALID", utf8 "The video content type is not supported with the given parameters (i.e. supports_streaming)"),
  (utf8 "VIDEO_FILE_INVALID", utf8 "The given video cannot be used"),
  (utf8 "VIDEO_TITLE_EMPTY", utf8 "The video title of inline result is empty"),
  (utf8 "WALLPAPER_FILE_INVALID", utf8 "The given file cannot be used as a wallpaper"),
  (utf8 "WALLPAPER_INVALID", utf8 "The input wallpaper was not valid"),
  (utf8 "WALLPAPER_MIME_INVALID", utf8 "The MimeType of the wallpaper is Invalid"),
  (utf8 "WC_CONVERT_URL_INVALID", utf8 "WC convert URL invalid"),
  (utf8 "WEBDOCUMENT_MIME_INVALID", utf8 "The MimeType of the URL is Invalid"),
  (utf8 "WEBDOCUMENT_URL_INVALID", utf8 "The given URL cannot be used"),
  (utf8 "WEBPAGE_CURL_FAILED", utf8 "Failure while fetching the webpage with cURL"),
  (utf8 "WEBPAGE_MEDIA_EMPTY", utf8 "Webpage media empty"),
  (utf8 "WORKER_BUSY_TOO_LONG_RETRY", utf8 "Telegram workers are too busy to respond immediately"),
  (utf8 "YOU_BLOCKED_USER", utf8 "You blocked this user"),
  -- errors with additional data
  (utf8 "2FA_CONFIRM_WAIT_X", utf8 "You'll be able to reset your account in X seconds. If not, account will be deleted in 1 week for security reasons"),
  (utf8 "EMAIL_UNCONFIRMED_X", utf8 "Email unconfirmed, the length of the code must be %v"),
  (utf8 "FILE_MIGRATE_X", utf8 "The file to be accessed is currently stored in DC %v"),
  (utf8 "FILE_PART_X_MISSING", utf8 "Part %v of the file is missing from storage"),
  (utf8 "FLOOD_TEST_PHONE_WAIT_X", utf8 "A wait of %v seconds is required in the test servers"),
  (utf8 "FLOOD_WAIT_X", utf8 "A wait of %v seconds is required"),
  (utf8 "INTERDC_X_CALL_ERROR", utf8 "An error occurred while communicating with DC %v"),
  (utf8 "INTERDC_X_CALL_RICH_ERROR", utf8 "A rich error occurred while communicating with DC %v"),
  (utf8 "NETWORK_MIGRATE_X", utf8 "The source IP address is associated with DC %v"),
  (utf8 "PASSWORD_TOO_FRESH_X", utf8 "The password was added too recently and %v seconds must pass before using the method"),
  (utf8 "PHONE_MIGRATE_X", utf8 "The phone number a user is trying to use for authorization is associated with DC %v"),
  (utf8 "SESSION_TOO_FRESH_X", utf8 "The session logged in too recently and %v seconds must pass before calling the method"),
  (utf8 "SLOWMODE_WAIT_X", utf8 "A wait of %v seconds is required before sending another message in this chat"),
  (utf8 "STATS_MIGRATE_X", utf8 "The channel statistics must be fetched from DC %v"),
  (utf8 "TAKEOUT_INIT_DELAY_X", utf8 "A wait of %v seconds is required before being able to initiate the takeout"),
  (utf8 "USER_MIGRATE_X", utf8 "The user whose identity is being used to execute queries is associated with DC %v"),
  (utf8 "PREVIOUS_CHAT_IMPORT_ACTIVE_WAIT_XMIN", utf8 "Similar to a flood wait, must wait %v minutes")
  ]

/-- The map index expression `desc, ok := errorMessages[name]`. -/
def errorMessagesGet (name : GoString) : Option GoString :=
  List.lookup name errorMessages

/-- Go `RpcErrorToNative`. -/
def RpcErrorToNative (r : RpcError) : Outcome ErrResponseCode :=
  match TryExpandError r.ErrorMessage with
  | Outcome.panic msg => Outcome.panic msg
  | Outcome.unmodelled => Outcome.unmodelled
  | Outcome.ok (nativeErrorName, additionalData) =>
    let desc : GoString :=
      match errorMessagesGet nativeErrorName with
      | some d => d
      | none => nativeErrorName
    match additionalData with
    | none =>
      Outcome.ok
        { Code := r.ErrorCode, Message := nativeErrorName, Description := desc,
          AdditionalInfo := none }
    | some data =>
      match Sprintf desc data with
      | none => Outcome.unmodelled
      | some formatted =>
        Outcome.ok
          { Code := r.ErrorCode, Message := nativeErrorName, Description := formatted,
            AdditionalInfo := some data }

/-! ## Notions used to state the properties -/

/-- The rule `r` stands at index `i` of the table, its prefix is a prefix of `s` and
its suffix a suffix of `s`, and this holds of no rule before it: `r` is the rule that
classifies `s`. -/
def firstMatchAt (rules : List prefixSuffix) (s : GoString) (i : Nat) (r : prefixSuffix) : Prop :=
  rules[i]? = some r ∧ (r.prefix_ <+: s ∧ r.suffix_ <:+ s) ∧
    ∀ r1 ∈ rules.take i, ¬ (r1.prefix_ <+: s ∧ r1.suffix_ <:+ s)

instance (rules : List prefixSuffix) (s : GoString) (i : Nat) (r : prefixSuffix) :
    Decidable (firstMatchAt rules s i r) := by
  unfold firstMatchAt
  exact inferInstance

/-- Two rules that no string can pass together: neither prefix is a prefix of the
other, or neither suffix is a suffix of the other. -/
def exclusive (a b : prefixSuffix) : Bool :=
  (!HasPrefix a.prefix_ b.prefix_ && !HasPrefix b.prefix_ a.prefix_) ||
    (!HasSuffix a.suffix_ b.suffix_ && !HasSuffix b.suffix_ a.suffix_)

/-- The text before and after the placeholder of a template that is plain text
around one `%v` and has no other `%`. -/
def templateParts (t : GoString) : Option (GoString × GoString) :=
  match t.dropWhile (fun c => c != 37) with
  | _ :: verb :: post =>
    if verb = 118 ∧ post.all (fun c => c != 37) = true then
      some (t.takeWhile (fun c => c != 37), post)
    else none
  | _ => none

/-- Every rule of the table has kind `Int` and a template in `errorMessages`, under its
native error name, that is plain text around one `%v`. -/
def rulesHaveTemplates : Bool :=
  specificErrors.all (fun r =>
    decide (r.kind = Kind.Int) &&
      ((errorMessagesGet (nativeName r)).bind templateParts).isSome)

/-! ## errors.go: bad message notifications -/

/-- Modelled from the spec: the record `objects.BadMsgNotification` is declared outside
the sources at hand; it carries the message id (`int64`), the sequence number (`int32`)
and the code of the notification.  The source reads the code through the conversion
`uint8(in.Code)`, so the field is wider than the 8-bit key of `badMsgErrorCodes`
(`BadSystemMessageCode`, which names the same codes in the file, is an `int32`); it is
an integer here. -/
structure BadMsgNotification where
  BadMsgID : Int
  BadMsgSeqNo : Int
  Code : Int
  deriving DecidableEq, Repr

/-- Go `BadMsgError`: the embedded notification and its description. -/
structure BadMsgError where
  BadMsgNotification : BadMsgNotification
  Description : GoString
  deriving DecidableEq, Repr

/-- The conversion `uint8(x)` of an integer: its low 8 bits, a value in `[0, 256)`. -/
def toUint8 (x : Int) : Nat := (x % 256).toNat

/-- Go `badMsgErrorCodes`: the map from the 8-bit code to its description. -/
def badMsgErrorCodes : List (Nat × GoString) := [
  (16, utf8 "msg_id too low (most likely, client time is wrong; it would be worthwhile to synchronize it using msg_id notifications and re-send the original message with the “correct” msg_id or wrap it in a container with a new msg_id if the original message had waited too long on the client to be transmitted)"),
  (17, utf8 "msg_id too high (similar to the previous case, the client time has to be synchronized, and the message re-sent with the correct msg_id"),
  (18, utf8 "incorrect two lower order msg_id bits (the server expects client message msg_id to be divisible by 4)"),
  (19, utf8 "container msg_id is the same as msg_id of a previously received message (this must never happen)"),
  (20, utf8 "message too old, and it cannot be verified whether the server has received a message with this msg_id or not"),
  (32, utf8 "msg_seqno too low (the server has already received a message with a lower msg_id but with either a higher or an equal and odd seqno)"),
  (33, utf8 "msg_seqno too high (similarly, there is a message with a higher msg_id but with either a lower or an equal and odd seqno)"),
  (34, utf8 "an even msg_seqno expected (irrelevant message), but odd received"),
  (35, utf8 "odd msg_seqno expected (relevant message), but even received"),
  (48, utf8 "incorrect server salt (in this case, the bad_server_salt response is received with the correct salt, and the message is to be re-sent with it)"),
  (64, utf8 "invalid container")
  ]

/-- The map index expression `badMsgErrorCodes[k]`: the entry stored under `k`, or the
zero value `""` when `k` is not a key. -/
def badMsgErrorCodesGet (k : Nat) : GoString :=
  (List.lookup k badMsgErrorCodes).getD []

/-- Go `BadMsgErrorFromNative`, on a notification that is not the nil pointer. -/
def BadMsgErrorFromNative (notification : BadMsgNotification) : BadMsgError :=
  { BadMsgNotification := notification,
    Description := badMsgErrorCodesGet (toUint8 notification.Code) }

/-- The keys of `badMsgErrorCodes` that the specification lists. -/
def badMsgKeys : List Nat := [16, 17, 18, 19, 20, 32, 33, 34, 35, 48, 64]

/-- A template without any `%`, or plain text around a single `%v`. -/
def templateOk (t : GoString) : Bool :=
  t.all (fun c => c != 37) || (templateParts t).isSome

/-! ## Text that is not a decimal integer -/

/-- A byte that is a decimal digit, `'0'` to `'9'`. -/
def isDigit (c : UInt8) : Bool :=
  decide (48 ≤ c.toNat) && decide (c.toNat ≤ 57)

/-- A text without its optional leading sign `+` or `-`. -/
def unsigned (s : GoString) : GoString :=
  match s with
  | [] => []
  | c :: rest => if c == 43 then rest else if c == 45 then rest else s

/-- A text that is syntactically not a base-10 integer: after the optional sign it is
empty or it has a byte that is not a digit. -/
def notDecimal (s : GoString) : Bool :=
  (unsigned s).isEmpty || (unsigned s).any (fun c => !isDigit c)

/-- The number that the digits of a text spell, after its optional sign, up to the first
byte that is not a digit. -/
def leadingValue (s : GoString) : Nat :=
  (((unsigned s).takeWhile isDigit).map (fun c => c.toNat - 48)).foldl
    (fun a d => a * 10 + d) 0

/-! ## fmt with several operands, and `ErrResponseCode.Error` -/

/-- The text `fmt` prints for a verb that does not fit the operand:
`%!verb(type=value)`. -/
def badVerb (verb : UInt8) (a : Any) : GoString :=
  utf8 "%!" ++ [verb] ++ utf8 "(" ++ typeName a ++ utf8 "=" ++ printArg a ++ utf8 ")"

/-- The text `fmt` prints for an operand under one of the verbs `v`, `s`, `d`, without
flags: `%v` prints any operand, `%s` a string, `%d` an integer in decimal; `%s` on an
integer and `%d` on a string are reported as a bad verb. -/
def printVerb (verb : UInt8) (a : Any) : GoString :=
  if verb = 118 then printArg a
  else
    match a with
    | Any.int v => if verb = 100 then fmtInteger v else badVerb verb a
    | Any.string s => if verb = 115 then s else badVerb verb a

/-- The text `fmt` appends for the operands that no verb consumed:
`%!(EXTRA type=value, type=value)`. -/
def extraOperands : List Any → GoString
  | [] => []
  | a :: rest =>
    utf8 "%!(EXTRA " ++ typeName a ++ utf8 "=" ++ printArg a ++
      (rest.map (fun b => utf8 ", " ++ typeName b ++ utf8 "=" ++ printArg b)).flatten ++ utf8 ")"

/-- The loop of `fmt.(*pp).doPrintf` over a list of operands, those not yet consumed
being `args`.  Bytes other than `%` are copied; `%%` writes `%`; `%v`, `%s` and `%d`
print the next operand, or `%!verb(MISSING)` when none is left; a final lone `%` writes
`%!(NOVERB)`; at the end the operands left over are reported.  Every other directive is
outside this embedding and gives `none`. -/
def doPrintfArgs : GoString → List Any → Option GoString
  | [], args => some (extraOperands args)
  | c :: rest, args =>
    if c ≠ 37 then (doPrintfArgs rest args).map (fun out => c :: out)
    else
      match rest with
      | [] => some (utf8 "%!(NOVERB)" ++ extraOperands args)
      | verb :: rest1 =>
        if verb = 37 then (doPrintfArgs rest1 args).map (fun out => 37 :: out)
        else if verb = 118 ∨ verb = 115 ∨ verb = 100 then
          match args with
          | [] =>
            (doPrintfArgs rest1 []).map
              (fun out => utf8 "%!" ++ [verb] ++ utf8 "(MISSING)" ++ out)
          | a :: args1 => (doPrintfArgs rest1 args1).map (fun out => printVerb verb a ++ out)
        else none

/-- Go `fmt.Sprintf(format, a...)` with a list of operands. -/
def SprintfArgs (format : GoString) (a : List Any) : Option GoString :=
  doPrintfArgs format a

/-- Go `(*ErrResponseCode).Error`, on a receiver that is not the nil pointer:
`fmt.Sprintf("[%s] %s (code %d)", e.Message, e.Description, e.Code)`. -/
def ErrResponseCode.Error (e : ErrResponseCode) : Option GoString :=
  SprintfArgs (utf8 "[%s] %s (code %d)")
    [Any.string e.Message, Any.string e.Description, Any.int e.Code]

/-! ## telegram/cache.go -/

/-- Modelled from the spec: the TL object `UserObj` is declared outside the sources at
hand, and the specification leaves the peer cache and the TL objects to their interface.
Of its fields `cache.go` reads `ID` and `AccessHash` (both `int64`); `Other` stands for
the fields that it does not read. -/
structure UserObj where
  ID : Int
  AccessHash : Int
  Other : GoString
  deriving DecidableEq, Repr

/-- Modelled from the spec: the TL object `ChatObj`, declared outside the sources at
hand.  `cache.go` reads its `ID` (`int64`); `Other` stands for the fields that it does
not read. -/
structure ChatObj where
  ID : Int
  Other : GoString
  deriving DecidableEq, Repr

/-- Modelled from the spec: the TL object `Channel`, declared outside the sources at
hand.  `cache.go` reads its `ID` and `AccessHash` (both `int64`); `Other` stands for the
fields that it does not read. -/
structure Channel where
  ID : Int
  AccessHash : Int
  Other : GoString
  deriving DecidableEq, Repr

/-- Modelled from the spec: the interface `User`, declared outside the sources at hand.
An element of a `[]User` holds a `*UserObj` or a value of another concrete type, told
apart here by a tag.  Pointers are not nil. -/
inductive User where
  | UserObj (user : UserObj)
  | other (tag : Nat)
  deriving DecidableEq, Repr

/-- Modelled from the spec: the interface `Chat`, declared outside the sources at hand.
An element of a `[]Chat` holds a `*ChatObj`, a `*Channel` or a value of another concrete
type, told apart here by a tag.  Pointers are not nil. -/
inductive Chat where
  | ChatObj (chat : ChatObj)
  | Channel (channel : Channel)
  | other (tag : Nat)
  deriving DecidableEq, Repr

/-- Modelled from the spec: the interface `InputPeer` with the three struct types that
`GetInputPeer` builds, declared outside the sources at hand: `InputPeerChat{ChatID}`,
`InputPeerUser{UserID, AccessHash}` and `InputPeerChannel{ChannelID, AccessHash}`.  The
nil interface is `none : Option InputPeer`. -/
inductive InputPeer where
  | InputPeerChat (ChatID : Int)
  | InputPeerUser (UserID : Int) (AccessHash : Int)
  | InputPeerChannel (ChannelID : Int) (AccessHash : Int)
  deriving DecidableEq, Repr

/-- Go `CACHE`: three maps from an `int64` id to a chat, a user, a channel.  A map is the
function from a key to the value stored under it, `none` for a key that is absent.  The
mutex is held for the whole of every method and is left out. -/
structure CACHE where
  chats : Int → Option ChatObj
  users : Int → Option UserObj
  channels : Int → Option Channel

/-- The map assignment `m[k] = v`. -/
def mapSet {α : Type} (m : Int → Option α) (k : Int) (v : α) : Int → Option α :=
  fun id => if id = k then some v else m id

/-- Go `NewCache`: three empty maps. -/
def NewCache : CACHE :=
  { chats := fun _ => none, users := fun _ => none, channels := fun _ => none }

/-- Go `(*CACHE).GetChat`: the chat and a nil error, or the error
`fmt.Errorf("no chat with id %d", chat_id)`. -/
def CACHE.GetChat (c : CACHE) (chat_id : Int) : Except GoString ChatObj :=
  match c.chats chat_id with
  | some chat => Except.ok chat
  | none => Except.error (utf8 "no chat with id " ++ fmtInteger chat_id)

/-- Go `(*CACHE).GetUser`: the user and a nil error, or the error
`fmt.Errorf("no user with id %d", user_id)`. -/
def CACHE.GetUser (c : CACHE) (user_id : Int) : Except GoString UserObj :=
  match c.users user_id with
  | some user => Except.ok user
  | none => Except.error (utf8 "no user with id " ++ fmtInteger user_id)

/-- Go `(*CACHE).GetChannel`: the channel and a nil error, or the error
`fmt.Errorf("no channel with id %d", channel_id)`. -/
def CACHE.GetChannel (c : CACHE) (channel_id : Int) : Except GoString Channel :=
  match c.channels channel_id with
  | some channel => Except.ok channel
  | none => Except.error (utf8 "no channel with id " ++ fmtInteger channel_id)

/-- Go `(*CACHE).UpdateUser`: `c.users[user.ID] = user`. -/
def CACHE.UpdateUser (c : CACHE) (user : UserObj) : CACHE :=
  { c with users := mapSet c.users user.ID user }

/-- Go `(*CACHE).UpdateChat`: `c.chats[chat.ID] = chat`. -/
def CACHE.UpdateChat (c : CACHE) (chat : ChatObj) : CACHE :=
  { c with chats := mapSet c.chats chat.ID chat }

/-- The first loop of `UpdatePeersToCache`: an element that is a `*UserObj` is stored
under its ID, any other element is skipped. -/
def updateUsers : List User → CACHE → CACHE
  | [], cache => cache
  | user :: rest, cache =>
    match user with
    | User.UserObj us => updateUsers rest { cache with users := mapSet cache.users us.ID us }
    | User.other _ => updateUsers rest cache

/-- The second loop of `UpdatePeersToCache`: an element that is a `*ChatObj` is stored in
`chats` under its ID, else one that is a `*Channel` is stored in `channels` under its ID,
any other element is skipped. -/
def updateChats : List Chat → CACHE → CACHE
  | [], cache => cache
  | chat :: rest, cache =>
    match chat with
    | Chat.ChatObj ch => updateChats rest { cache with chats := mapSet cache.chats ch.ID ch }
    | Chat.Channel channel =>
      updateChats rest { cache with channels := mapSet cache.channels channel.ID channel }
    | Chat.other _ => updateChats rest cache

/-- Go `(*CACHE).UpdatePeersToCache`. -/
def CACHE.UpdatePeersToCache (cache : CACHE) (u : List User) (c : List Chat) : CACHE :=
  updateChats c (updateUsers u cache)

/-- The first loop of `GetPeersFromCache`: the user cached under an id is appended to
`users`, an id that is absent is skipped. -/
def collectUsers (cache : CACHE) : List Int → List User → List User
  | [], users => users
  | user :: rest, users =>
    match cache.users user with
    | some found => collectUsers cache rest (users ++ [User.UserObj found])
    | none => collectUsers cache rest users

/-- The second loop of `GetPeersFromCache`: the chat cached in `chats` under an id is
appended to `chats`, an id that is absent is skipped. -/
def collectChats (cache : CACHE) : List Int → List Chat → List Chat
  | [], chats => chats
  | chat :: rest, chats =>
    match cache.chats chat with
    | some found => collectChats cache rest (chats ++ [Chat.ChatObj found])
    | none => collectChats cache rest chats

/-- Go `(*CACHE).GetPeersFromCache`: the two slices, and the cache as the call leaves it
(the method assigns to none of the maps). -/
def CACHE.GetPeersFromCache (cache : CACHE) (u : List Int) (c : List Int) :
    (List User × List Chat) × CACHE :=
  ((collectUsers cache u [], collectChats cache c []), cache)

/-- Go `Client`, as far as `GetInputPeer` reads it: the field `Cache`. -/
structure Client where
  Cache : CACHE

/-- Go `(*Client).GetInputPeer`. -/
def Client.GetInputPeer (client : Client) (peer_id : Int) : Option InputPeer :=
  match client.Cache.GetChat peer_id with
  | Except.ok chat => some (InputPeer.InputPeerChat chat.ID)
  | Except.error _ =>
    match client.Cache.GetUser peer_id with
    | Except.ok user => some (InputPeer.InputPeerUser user.ID user.AccessHash)
    | Except.error _ =>
      match client.Cache.GetChannel peer_id with
      | Except.ok channel => some (InputPeer.InputPeerChannel channel.ID channel.AccessHash)
      | Except.error _ => none

/-- Every chat of the cache is stored under its own ID, as the update operations store
it. -/
def CACHE.chatsKeyed (c : CACHE) : Prop :=
  ∀ (id : Int) (chat : ChatObj), c.chats id = some chat → chat.ID = id

set_option maxRecDepth 100000

/-! ## Facts about the string functions -/

theorem HasPrefix_iff (s pre : GoString) : HasPrefix s pre = true ↔ pre <+: s := by
  unfold HasPrefix
  rw [Bool.and_eq_true, decide_eq_true_iff, beq_iff_eq]
  constructor
  · rintro ⟨_, h⟩
    exact List.prefix_iff_eq_take.mpr h.symm
  · intro h
    exact ⟨h.length_le, (List.prefix_iff_eq_take.mp h).symm⟩

theorem HasSuffix_iff (s suf : GoString) : HasSuffix s suf = true ↔ suf <:+ s := by
  unfold HasSuffix
  rw [Bool.and_eq_true, decide_eq_true_iff, beq_iff_eq]
  constructor
  · rintro ⟨_, h⟩
    exact List.suffix_iff_eq_drop.mpr h.symm
  · intro h
    exact ⟨h.length_le, (List.suffix_iff_eq_drop.mp h).symm⟩

theorem TrimPrefix_append (pre t : GoString) : TrimPrefix (pre ++ t) pre = t := by
  have h : HasPrefix (pre ++ t) pre = true := (HasPrefix_iff _ _).mpr (List.prefix_append _ _)
  simp [TrimPrefix, h]

theorem TrimSuffix_append (t suf : GoString) : TrimSuffix (t ++ suf) suf = t := by
  have h : HasSuffix (t ++ suf) suf = true := (HasSuffix_iff _ _).mpr (List.suffix_append _ _)
  simp [TrimSuffix, h]

theorem ruleMatches_iff (s : GoString) (r : prefixSuffix) :
    ruleMatches s r = true ↔ r.prefix_ <+: s ∧ r.suffix_ <:+ s := by
  simp [ruleMatches, HasPrefix_iff, HasSuffix_iff]

theorem ruleMatches_build (r : prefixSuffix) (x : GoString) :
    ruleMatches (r.prefix_ ++ x ++ r.suffix_) r = true := by
  rw [ruleMatches_iff]
  refine ⟨?_, List.suffix_append _ _⟩
  rw [List.append_assoc]
  exact List.prefix_append _ _

theorem trimmedData_build (r : prefixSuffix) (x : GoString) :
    trimmedData (r.prefix_ ++ x ++ r.suffix_) r = x := by
  unfold trimmedData
  rw [List.append_assoc, TrimPrefix_append, TrimSuffix_append]

/-! ## Facts about the loop over the rule table -/

theorem choose_eq_none_iff (rules : List prefixSuffix) (s : GoString) :
    choosePrefixSuffix rules s = none ↔ ∀ r ∈ rules, ruleMatches s r = false := by
  induction rules with
  | nil => simp [choosePrefixSuffix]
  | cons a rest ih =>
    by_cases h : ruleMatches s a = true
    · simp [choosePrefixSuffix, h]
    · simp [choosePrefixSuffix, h, ih]

theorem choose_some_mem (rules : List prefixSuffix) (s : GoString) (r : prefixSuffix)
    (h : choosePrefixSuffix rules s = some r) : r ∈ rules ∧ ruleMatches s r = true := by
  induction rules with
  | nil => simp [choosePrefixSuffix] at h
  | cons a rest ih =>
    by_cases hm : ruleMatches s a = true
    · simp [choosePrefixSuffix, hm] at h
      subst h
      exact ⟨List.mem_cons_self _ _, hm⟩
    · simp [choosePrefixSuffix, hm] at h
      exact ⟨List.mem_cons_of_mem _ (ih h).1, (ih h).2⟩

theorem choose_of_firstMatchAt (rules : List prefixSuffix) (s : GoString) (i : Nat)
    (r : prefixSuffix) (h : firstMatchAt rules s i r) : choosePrefixSuffix rules s = some r := by
  induction rules generalizing i with
  | nil => simp [firstMatchAt] at h
  | cons a rest ih =>
    obtain ⟨hi, hm, hlt⟩ := h
    cases i with
    | zero =>
      simp at hi
      subst hi
      simp [choosePrefixSuffix, (ruleMatches_iff s a).mpr hm]
    | succ k =>
      have ha : ruleMatches s a = false := by
        have := hlt a (by simp)
        rw [← ruleMatches_iff] at this
        simpa using this
      simp only [choosePrefixSuffix, ha, Bool.false_eq_true, if_false]
      apply ih k
      refine ⟨by simpa using hi, hm, ?_⟩
      intro r1 hr1
      exact hlt r1 (by simp [hr1])

theorem firstMatchAt_mem (rules : List prefixSuffix) (s : GoString) (i : Nat)
    (r : prefixSuffix) (h : firstMatchAt rules s i r) : r ∈ rules :=
  List.getElem?_mem h.1

/-! ## Decimal text: printing and reading back -/

theorem digitByte_toNat (d : Nat) (h : d < 10) : (UInt8.ofNat (48 + d)).toNat = 48 + d := by
  interval_cases d <;> rfl

theorem digitByte_ne_sign (d : Nat) (h : d < 10) :
    (UInt8.ofNat (48 + d) == 43) = false ∧ (UInt8.ofNat (48 + d) == 45) = false := by
  interval_cases d <;> exact ⟨rfl, rfl⟩

theorem fmtDigits_spec (fuel : Nat) : ∀ (u : Nat) (buf : GoString), u < fuel →
    ∃ L : List Nat, (∀ d ∈ L, d < 10) ∧ L ≠ [] ∧
      fmtDigits fuel u buf = L.map (fun d => UInt8.ofNat (48 + d)) ++ buf ∧
      L.foldl (fun a d => a * 10 + d) 0 = u := by
  induction fuel with
  | zero => intro u buf h; omega
  | succ f ih =>
    intro u buf h
    by_cases hu : 10 ≤ u
    · obtain ⟨L, hL, _, hfmt, hval⟩ :=
        ih (u / 10) (UInt8.ofNat (48 + (u - u / 10 * 10)) :: buf) (by omega)
      refine ⟨L ++ [u - u / 10 * 10], ?_, by simp, ?_, ?_⟩
      · intro d hd
        rcases List.mem_append.mp hd with h1 | h1
        · exact hL d h1
        · simp at h1; omega
      · simp [fmtDigits, hu, hfmt]
      · rw [List.foldl_append, hval]
        simp only [List.foldl_cons, List.foldl_nil]
        omega
    · refine ⟨[u], ?_, by simp, ?_, by simp⟩
      · intro d hd
        simp at hd; omega
      · simp [fmtDigits, hu]

theorem foldl_digits_ge (L : List Nat) : ∀ acc : Nat, acc ≤ L.foldl (fun a d => a * 10 + d) acc := by
  induction L with
  | nil => intro acc; simp
  | cons d ds ih =>
    intro acc
    simp only [List.foldl_cons]
    exact le_trans (by omega) (ih (acc * 10 + d))

theorem parseUintLoop_digits (L : List Nat) : ∀ (acc : Nat) (rest : GoString),
    (∀ d ∈ L, d < 10) → L.foldl (fun a d => a * 10 + d) acc ≤ maxUint64 →
    parseUintLoop (L.map (fun d => UInt8.ofNat (48 + d)) ++ rest) acc =
      parseUintLoop rest (L.foldl (fun a d => a * 10 + d) acc) := by
  induction L with
  | nil => intro acc rest _ _; simp
  | cons d ds ih =>
    intro acc rest hL hmax
    have hd : d < 10 := hL d (List.mem_cons_self _ _)
    have hds : ∀ x ∈ ds, x < 10 := fun x hx => hL x (List.mem_cons_of_mem _ hx)
    simp only [List.foldl_cons] at hmax
    have hge := foldl_digits_ge ds (acc * 10 + d)
    have hstep : acc * 10 + d ≤ maxUint64 := le_trans hge hmax
    have hmaxv : maxUint64 = 18446744073709551615 := by decide
    have hb := digitByte_toNat d hd
    simp only [List.map_cons, List.cons_append, List.foldl_cons]
    rw [parseUintLoop]
    simp only [hb]
    have h1 : (48 ≤ 48 + d ∧ 48 + d ≤ 57) := by omega
    have h2 : 48 + d - 48 = d := by omega
    have h3 : ¬ (10 ≤ d) := by omega
    have h4 : ¬ (maxUint64 / 10 + 1 ≤ acc) := by rw [hmaxv]; rw [hmaxv] at hstep; omega
    have h5 : (acc * 10 + d) % 2 ^ 64 = acc * 10 + d := by
      apply Nat.mod_eq_of_lt; rw [hmaxv] at hstep; omega
    have h6 : ¬ (acc * 10 + d < acc * 10 ∨ maxUint64 < acc * 10 + d) := by omega
    simp only [h1, and_self, if_true, h2, h3, if_false, h4, h5, h6]
    exact ih (acc * 10 + d) rest hds hmax

theorem ParseUint_digits (L : List Nat) (hL : ∀ d ∈ L, d < 10) (hne : L ≠ [])
    (hmax : L.foldl (fun a d => a * 10 + d) 0 ≤ maxUint64) :
    ParseUint (L.map (fun d => UInt8.ofNat (48 + d))) =
      (L.foldl (fun a d => a * 10 + d) 0, none) := by
  have h := parseUintLoop_digits L 0 [] hL hmax
  simp only [List.append_nil] at h
  cases L with
  | nil => exact absurd rfl hne
  | cons d ds =>
    simp only [List.map_cons, ParseUint]
    simp only [List.map_cons] at h
    rw [h]
    simp [parseUintLoop]

theorem toInt64_of_lt (u : Nat) (h : u < 2 ^ 63) : toInt64 u = (u : Int) := by
  unfold toInt64
  have h1 : u % 2 ^ 64 = u := Nat.mod_eq_of_lt (by omega)
  rw [h1, if_pos h]

theorem negInt64_toInt64 (m : Nat) (h : m ≤ 2 ^ 63) : negInt64 (toInt64 m) = -(m : Int) := by
  unfold negInt64 toInt64
  have h1 : m % 2 ^ 64 = m := Nat.mod_eq_of_lt (by omega)
  rw [h1]
  by_cases hm : m < 2 ^ 63
  · rw [if_pos hm]
    by_cases h0 : m = 0
    · subst h0; decide
    · have e : ((-(m : Int)) % 2 ^ 64).toNat = 2 ^ 64 - m := by omega
      rw [e]
      have e2 : (2 ^ 64 - m) % 2 ^ 64 = 2 ^ 64 - m := Nat.mod_eq_of_lt (by omega)
      rw [e2, if_neg (by omega)]
      omega
  · have e : m = 2 ^ 63 := by omega
    subst e
    decide

/-- The decimal text that `fmtInteger` prints, on some values. -/
theorem fmtInteger_examples :
    fmtInteger 0 = utf8 "0" ∧ fmtInteger 7 = utf8 "7" ∧ fmtInteger 30 = utf8 "30" ∧
    fmtInteger (-305) = utf8 "-305" ∧
    fmtInteger 9223372036854775807 = utf8 "9223372036854775807" ∧
    fmtInteger (-9223372036854775808) = utf8 "-9223372036854775808" := by
  decide

/-- Reading back the decimal text of an `int`: `Atoi` returns the value and no error. -/
theorem Atoi_fmtInteger (n : Int) (hlo : minInt ≤ n) (hhi : n ≤ maxInt) :
    Atoi (fmtInteger n) = (n, none) := by
  have hmin : minInt = -9223372036854775808 := by decide
  have hmaxi : maxInt = 9223372036854775807 := by decide
  have hmaxv : maxUint64 = 18446744073709551615 := by decide
  rw [hmin] at hlo
  rw [hmaxi] at hhi
  obtain ⟨L, hL, hne, hfmt, hval⟩ := fmtDigits_spec (n.natAbs + 1) n.natAbs [] (by omega)
  simp only [List.append_nil] at hfmt
  have hpu := ParseUint_digits L hL hne (by rw [hval, hmaxv]; omega)
  rw [hval] at hpu
  obtain ⟨d, ds, rfl⟩ : ∃ d ds, L = d :: ds := by
    cases L with
    | nil => exact absurd rfl hne
    | cons d ds => exact ⟨d, ds, rfl⟩
  have hd : d < 10 := hL d (List.mem_cons_self _ _)
  obtain ⟨hs1, hs2⟩ := digitByte_ne_sign d hd
  simp only [List.map_cons] at hpu hfmt
  unfold Atoi fmtInteger
  by_cases hneg : n < 0
  · have e43 : ((45 : UInt8) == 43) = false := by decide
    have hc : ¬ ((2 : Nat) ^ 63 < n.natAbs) := by omega
    have hr := negInt64_toInt64 n.natAbs (by omega)
    simp only [hneg, if_true, hfmt, ParseInt, beq_self_eq_true, e43, Bool.false_eq_true,
      if_false, hpu, hc, decide_False, Bool.and_false, Bool.not_true, Bool.false_and]
    rw [if_neg (by simp), hr, Prod.mk.injEq]
    exact ⟨by omega, rfl⟩
  · have hc : ¬ ((2 : Nat) ^ 63 ≤ n.natAbs) := by omega
    have hr := toInt64_of_lt n.natAbs (by omega)
    simp only [hneg, if_false, hfmt, ParseInt, hs1, hs2, Bool.false_eq_true, hpu, hc,
      decide_False, Bool.and_false, Bool.not_false, Bool.true_and, Bool.false_and]
    rw [if_neg (by simp), hr, Prod.mk.injEq]
    exact ⟨by omega, rfl⟩

/-! ## Facts about the two tables -/

theorem exclusive_no_common (a b : prefixSuffix) (h : exclusive a b = true) (s : GoString)
    (ha : ruleMatches s a = true) (hb : ruleMatches s b = true) : False := by
  rw [ruleMatches_iff] at ha hb
  unfold exclusive at h
  rw [Bool.or_eq_true] at h
  rcases h with h | h
  · rw [Bool.and_eq_true] at h
    rcases List.prefix_or_prefix_of_prefix ha.1 hb.1 with h1 | h1
    · have := (HasPrefix_iff _ _).mpr h1
      simp [this] at h
    · have := (HasPrefix_iff _ _).mpr h1
      simp [this] at h
  · rw [Bool.and_eq_true] at h
    rcases List.suffix_or_suffix_of_suffix ha.2 hb.2 with h1 | h1
    · have := (HasSuffix_iff _ _).mpr h1
      simp [this] at h
    · have := (HasSuffix_iff _ _).mpr h1
      simp [this] at h

theorem exclusive_symm (a b : prefixSuffix) (h : exclusive a b = true) : exclusive b a = true := by
  unfold exclusive at h ⊢
  rw [Bool.or_eq_true, Bool.and_eq_true, Bool.and_eq_true] at h ⊢
  tauto

theorem specificErrors_exclusive :
    specificErrors.Pairwise (fun a b => exclusive a b = true) := by
  decide

/-- A string passes the test of at most one rule of `specificErrors`. -/
theorem match_unique (s : GoString) (a b : prefixSuffix) (ha : a ∈ specificErrors)
    (hb : b ∈ specificErrors) (hma : ruleMatches s a = true) (hmb : ruleMatches s b = true) :
    a = b := by
  have hp : specificErrors.Pairwise (fun a b => a = b ∨ exclusive a b = true) :=
    specificErrors_exclusive.imp (fun h => Or.inr h)
  have hsymm : Symmetric (fun a b : prefixSuffix => a = b ∨ exclusive a b = true) := by
    intro x y hxy
    rcases hxy with h | h
    · exact Or.inl h.symm
    · exact Or.inr (exclusive_symm _ _ h)
  rcases hp.forall_of_forall hsymm (fun x _ => Or.inl rfl) ha hb with h | h
  · exact h
  · exact (exclusive_no_common a b h s hma hmb).elim

theorem choose_build (r : prefixSuffix) (hr : r ∈ specificErrors) (x : GoString) :
    choosePrefixSuffix specificErrors (r.prefix_ ++ x ++ r.suffix_) = some r := by
  cases hc : choosePrefixSuffix specificErrors (r.prefix_ ++ x ++ r.suffix_) with
  | none =>
    have := (choose_eq_none_iff _ _).mp hc r hr
    rw [ruleMatches_build] at this
    exact absurd this (by simp)
  | some r1 =>
    obtain ⟨hmem, hm⟩ := choose_some_mem _ _ _ hc
    rw [match_unique _ r1 r hmem hr hm (ruleMatches_build r x)]

theorem templateParts_spec (t pre post : GoString) (h : templateParts t = some (pre, post)) :
    t = pre ++ utf8 "%v" ++ post ∧ (37 : UInt8) ∉ pre ∧ (37 : UInt8) ∉ post := by
  unfold templateParts at h
  have hsplit := List.takeWhile_append_dropWhile (fun c : UInt8 => c != 37) t
  cases hd : t.dropWhile (fun c => c != 37) with
  | nil => rw [hd] at h; simp at h
  | cons c rest =>
    cases rest with
    | nil => rw [hd] at h; simp at h
    | cons verb post1 =>
      rw [hd] at h
      simp only at h
      split_ifs at h with hv
      simp only [Option.some.injEq, Prod.mk.injEq] at h
      obtain ⟨hpre, hpost⟩ := h
      have hc : c = 37 := by
        have := List.head_dropWhile_not (fun c : UInt8 => c != 37) t (by rw [hd]; simp)
        simp only [hd, List.head_cons] at this
        simpa using this
      have e : utf8 "%v" = [37, 118] := by decide
      refine ⟨?_, ?_, ?_⟩
      · rw [← hsplit, hd, hpre, hc, hv.1, ← hpost, e]
        simp
      · intro hmem
        rw [← hpre] at hmem
        have := List.mem_takeWhile_imp hmem
        simp at this
      · intro hmem
        rw [← hpost] at hmem
        have := List.all_eq_true.mp hv.2 _ hmem
        simp at this

theorem rulesHaveTemplates_true : rulesHaveTemplates = true := by
  decide

theorem rule_template (r : prefixSuffix) (hr : r ∈ specificErrors) :
    r.kind = Kind.Int ∧ ∃ pre post : GoString,
      errorMessagesGet (nativeName r) = some (pre ++ utf8 "%v" ++ post) ∧
        (37 : UInt8) ∉ pre ∧ (37 : UInt8) ∉ post := by
  have h := List.all_eq_true.mp rulesHaveTemplates_true r hr
  rw [Bool.and_eq_true, decide_eq_true_iff] at h
  refine ⟨h.1, ?_⟩
  cases hg : errorMessagesGet (nativeName r) with
  | none => rw [hg] at h; simp at h
  | some t =>
    cases hp : templateParts t with
    | none => rw [hg] at h; simp [hp] at h
    | some pp =>
      obtain ⟨pre, post⟩ := pp
      obtain ⟨h1, h2, h3⟩ := templateParts_spec t pre post hp
      exact ⟨pre, post, by rw [h1], h2, h3⟩

/-! ## Facts about `Atoi` on text it rejects, and about `Sprintf` -/

theorem Atoi_error_value (s : GoString) :
    ((Atoi s).2 = some NumError.ErrSyntax → (Atoi s).1 = 0) ∧
      ((Atoi s).2 = some NumError.ErrRange → (Atoi s).1 = maxInt ∨ (Atoi s).1 = minInt) := by
  have hmin : minInt = -9223372036854775808 := by decide
  have hmaxi : maxInt = 9223372036854775807 := by decide
  unfold Atoi ParseInt
  cases s with
  | nil => simp
  | cons c rest =>
    simp only
    split_ifs <;> simp_all

theorem doPrintf_plain (pre : GoString) (h : (37 : UInt8) ∉ pre) (rest : GoString) (a : Any)
    (used : Bool) :
    doPrintf (pre ++ rest) a used = (doPrintf rest a used).map (fun out => pre ++ out) := by
  induction pre with
  | nil => simp
  | cons c cs ih =>
    have hc : c ≠ 37 := fun e => h (by simp [e])
    have hcs : (37 : UInt8) ∉ cs := fun e => h (List.mem_cons_of_mem _ e)
    rw [List.cons_append, doPrintf.eq_def]
    simp only [ne_eq, hc, not_false_eq_true, if_true, ih hcs]
    cases doPrintf rest a used <;> rfl

theorem doPrintf_plain_end (post : GoString) (h : (37 : UInt8) ∉ post) (a : Any) :
    doPrintf post a true = some post := by
  have := doPrintf_plain post h [] a true
  simpa [doPrintf] using this

/-- A template that is plain text around one `%v` is printed as the text with the
operand in the place of the `%v`. -/
theorem Sprintf_one_verb (pre post : GoString) (hpre : (37 : UInt8) ∉ pre)
    (hpost : (37 : UInt8) ∉ post) (a : Any) :
    Sprintf (pre ++ utf8 "%v" ++ post) a = some (pre ++ printArg a ++ post) := by
  have e : utf8 "%v" = [37, 118] := by decide
  unfold Sprintf
  rw [List.append_assoc, doPrintf_plain pre hpre, e]
  simp [doPrintf, doPrintf_plain_end post hpost]

/-! ## What the two functions return, by the outcome of the loop -/

theorem TryExpandError_unmatched (s : GoString)
    (h : choosePrefixSuffix specificErrors s = none) :
    TryExpandError s = Outcome.ok (s, none) := by
  simp [TryExpandError, TryExpandErrorIn, h]

theorem TryExpandError_matched (s : GoString) (r : prefixSuffix)
    (h : choosePrefixSuffix specificErrors s = some r) :
    TryExpandError s =
      Outcome.ok (nativeName r, some (Any.int (Atoi (trimmedData s r)).1)) := by
  have hk := (rule_template r (choose_some_mem _ _ _ h).1).1
  simp [TryExpandError, TryExpandErrorIn, h, hk]

theorem RpcErrorToNative_unmatched (c : Int) (s : GoString)
    (h : choosePrefixSuffix specificErrors s = none) :
    RpcErrorToNative ⟨c, s⟩ = Outcome.ok ⟨c, s, (errorMessagesGet s).getD s, none⟩ := by
  unfold RpcErrorToNative
  rw [TryExpandError_unmatched s h]
  cases hg : errorMessagesGet s <;> simp [hg]

theorem RpcErrorToNative_matched (s : GoString) (r : prefixSuffix)
    (h : choosePrefixSuffix specificErrors s = some r) :
    ∃ pre post : GoString,
      errorMessagesGet (nativeName r) = some (pre ++ utf8 "%v" ++ post) ∧
      (37 : UInt8) ∉ pre ∧ (37 : UInt8) ∉ post ∧
      ∀ c : Int, RpcErrorToNative ⟨c, s⟩ =
        Outcome.ok ⟨c, nativeName r,
          pre ++ fmtInteger (Atoi (trimmedData s r)).1 ++ post,
          some (Any.int (Atoi (trimmedData s r)).1)⟩ := by
  obtain ⟨_, pre, post, hget, hpre, hpost⟩ := rule_template r (choose_some_mem _ _ _ h).1
  refine ⟨pre, post, hget, hpre, hpost, ?_⟩
  intro c
  unfold RpcErrorToNative
  rw [TryExpandError_matched s r h]
  simp only [hget, Sprintf_one_verb pre post hpre hpost, printArg]

theorem Atoi_rejected (s : GoString) (h : (Atoi s).2 ≠ none) :
    ∃ e : NumError, Atoi s = ((Atoi s).1, some e) ∧
      (e = NumError.ErrSyntax → (Atoi s).1 = 0) ∧
      (e = NumError.ErrRange → (Atoi s).1 = maxInt ∨ (Atoi s).1 = minInt) := by
  cases he : (Atoi s).2 with
  | none => exact absurd he h
  | some e =>
    refine ⟨e, ?_, ?_, ?_⟩
    · rw [← he]
    · intro hs
      exact (Atoi_error_value s).1 (by rw [he, hs])
    · intro hs
      exact (Atoi_error_value s).2 (by rw [he, hs])

/-! ## The claims -/

/-- C1: a raw error string that matches no rule of `specificErrors` (for no rule does the
string both start with the prefix and end with the suffix) is returned unchanged as the
native error name, together with nil additional data. -/
theorem TryExpandError_no_rule (errStr : GoString)
    (h : ∀ r ∈ specificErrors, ¬ (r.prefix_ <+: errStr ∧ r.suffix_ <:+ errStr)) :
    TryExpandError errStr = Outcome.ok (errStr, none) := by
  apply TryExpandError_unmatched
  rw [choose_eq_none_iff]
  intro r hr
  have := h r hr
  rw [← ruleMatches_iff] at this
  simpa using this

theorem TryExpandError_no_rule_witness :
    (∀ r ∈ specificErrors,
      ¬ (r.prefix_ <+: utf8 "USER_DEACTIVATED" ∧ r.suffix_ <:+ utf8 "USER_DEACTIVATED")) ∧
    TryExpandError (utf8 "USER_DEACTIVATED") = Outcome.ok (utf8 "USER_DEACTIVATED", none) :=
  ⟨by decide, TryExpandError_no_rule (utf8 "USER_DEACTIVATED") (by decide)⟩

/-- C2: when `r` is the rule of `specificErrors` that classifies a raw string (the first
rule whose prefix is a prefix of the string and whose suffix is a suffix of it), the
native error name that `TryExpandError` returns is `r.prefix + "X" + r.suffix`. -/
theorem TryExpandError_name (errStr : GoString) (i : Nat) (r : prefixSuffix)
    (h : firstMatchAt specificErrors errStr i r) :
    ∃ data, TryExpandError errStr = Outcome.ok (r.prefix_ ++ utf8 "X" ++ r.suffix_, data) :=
  ⟨_, TryExpandError_matched errStr r (choose_of_firstMatchAt _ _ _ _ h)⟩

theorem TryExpandError_name_witness :
    firstMatchAt specificErrors (utf8 "INTERDC_2_CALL_RICH_ERROR") 6
      ⟨utf8 "INTERDC_", utf8 "_CALL_RICH_ERROR", Kind.Int⟩ ∧
    ∃ data, TryExpandError (utf8 "INTERDC_2_CALL_RICH_ERROR") =
      Outcome.ok (utf8 "INTERDC_" ++ utf8 "X" ++ utf8 "_CALL_RICH_ERROR", data) :=
  ⟨by decide, TryExpandError_name (utf8 "INTERDC_2_CALL_RICH_ERROR") 6
    ⟨utf8 "INTERDC_", utf8 "_CALL_RICH_ERROR", Kind.Int⟩ (by decide)⟩

/-- C3: round trip of the payload: for every rule `r` of `specificErrors` and every
integer `n` of the 64-bit `int`, `TryExpandError` on `r.prefix + decimal(n) + r.suffix`
returns the name `r.prefix + "X" + r.suffix` and the integer `n` as additional data. -/
theorem TryExpandError_roundtrip (r : prefixSuffix) (hr : r ∈ specificErrors) (n : Int)
    (hlo : minInt ≤ n) (hhi : n ≤ maxInt) :
    TryExpandError (r.prefix_ ++ fmtInteger n ++ r.suffix_) =
      Outcome.ok (r.prefix_ ++ utf8 "X" ++ r.suffix_, some (Any.int n)) := by
  rw [TryExpandError_matched _ r (choose_build r hr _), trimmedData_build,
    Atoi_fmtInteger n hlo hhi]
  rfl

theorem TryExpandError_roundtrip_witness :
    ((⟨utf8 "FILE_PART_", utf8 "_MISSING", Kind.Int⟩ : prefixSuffix) ∈ specificErrors ∧
      minInt ≤ 5 ∧ (5 : Int) ≤ maxInt ∧
      utf8 "FILE_PART_" ++ fmtInteger 5 ++ utf8 "_MISSING" = utf8 "FILE_PART_5_MISSING" ∧
      TryExpandError (utf8 "FILE_PART_" ++ fmtInteger 5 ++ utf8 "_MISSING") =
        Outcome.ok (utf8 "FILE_PART_" ++ utf8 "X" ++ utf8 "_MISSING", some (Any.int 5))) ∧
    ((⟨utf8 "PREVIOUS_CHAT_IMPORT_ACTIVE_WAIT_", utf8 "MIN", Kind.Int⟩ : prefixSuffix)
        ∈ specificErrors ∧
      minInt ≤ 12 ∧ (12 : Int) ≤ maxInt ∧
      utf8 "PREVIOUS_CHAT_IMPORT_ACTIVE_WAIT_" ++ fmtInteger 12 ++ utf8 "MIN" =
        utf8 "PREVIOUS_CHAT_IMPORT_ACTIVE_WAIT_12MIN" ∧
      TryExpandError (utf8 "PREVIOUS_CHAT_IMPORT_ACTIVE_WAIT_" ++ fmtInteger 12 ++ utf8 "MIN") =
        Outcome.ok (utf8 "PREVIOUS_CHAT_IMPORT_ACTIVE_WAIT_" ++ utf8 "X" ++ utf8 "MIN",
          some (Any.int 12))) :=
  ⟨⟨by decide, by decide, by decide, by decide,
      TryExpandError_roundtrip ⟨utf8 "FILE_PART_", utf8 "_MISSING", Kind.Int⟩ (by decide) 5
        (by decide) (by decide)⟩,
    ⟨by decide, by decide, by decide, by decide,
      TryExpandError_roundtrip ⟨utf8 "PREVIOUS_CHAT_IMPORT_ACTIVE_WAIT_", utf8 "MIN", Kind.Int⟩
        (by decide) 12 (by decide) (by decide)⟩⟩

/-- C4: for every rule `r` of `specificErrors`, every error code and every integer `n`
of the 64-bit `int`, `RpcErrorToNative` on the message `r.prefix + decimal(n) + r.suffix`
returns as Description the template that `errorMessages` stores under
`r.prefix + "X" + r.suffix`, a text with a single `%v` and no other `%`, with that
placeholder replaced by the decimal text of `n`; nothing is appended and nothing is left
unformatted. -/
theorem RpcErrorToNative_description (r : prefixSuffix) (hr : r ∈ specificErrors) (c n : Int)
    (hlo : minInt ≤ n) (hhi : n ≤ maxInt) :
    ∃ pre post : GoString,
      errorMessagesGet (r.prefix_ ++ utf8 "X" ++ r.suffix_) = some (pre ++ utf8 "%v" ++ post) ∧
      (37 : UInt8) ∉ pre ∧ (37 : UInt8) ∉ post ∧
      RpcErrorToNative ⟨c, r.prefix_ ++ fmtInteger n ++ r.suffix_⟩ =
        Outcome.ok ⟨c, r.prefix_ ++ utf8 "X" ++ r.suffix_, pre ++ fmtInteger n ++ post,
          some (Any.int n)⟩ := by
  obtain ⟨pre, post, hget, hpre, hpost, hres⟩ :=
    RpcErrorToNative_matched _ r (choose_build r hr (fmtInteger n))
  have h := hres c
  rw [trimmedData_build, Atoi_fmtInteger n hlo hhi] at h
  exact ⟨pre, post, hget, hpre, hpost, h⟩

theorem RpcErrorToNative_description_witness :
    (⟨utf8 "FLOOD_WAIT_", utf8 "", Kind.Int⟩ : prefixSuffix) ∈ specificErrors ∧
    minInt ≤ 30 ∧ (30 : Int) ≤ maxInt ∧
    ∃ pre post : GoString,
      errorMessagesGet (utf8 "FLOOD_WAIT_" ++ utf8 "X" ++ utf8 "") =
        some (pre ++ utf8 "%v" ++ post) ∧
      (37 : UInt8) ∉ pre ∧ (37 : UInt8) ∉ post ∧
      RpcErrorToNative ⟨420, utf8 "FLOOD_WAIT_" ++ fmtInteger 30 ++ utf8 ""⟩ =
        Outcome.ok ⟨420, utf8 "FLOOD_WAIT_" ++ utf8 "X" ++ utf8 "", pre ++ fmtInteger 30 ++ post,
          some (Any.int 30)⟩ :=
  ⟨by decide, by decide, by decide,
    RpcErrorToNative_description ⟨utf8 "FLOOD_WAIT_", utf8 "", Kind.Int⟩ (by decide) 420 30
      (by decide) (by decide)⟩

/-- The scenarios of the specification for messages with a payload, evaluated. -/
theorem RpcErrorToNative_scenarios :
    RpcErrorToNative ⟨420, utf8 "FLOOD_WAIT_30"⟩ =
      Outcome.ok ⟨420, utf8 "FLOOD_WAIT_X", utf8 "A wait of 30 seconds is required",
        some (Any.int 30)⟩ ∧
    RpcErrorToNative ⟨400, utf8 "FILE_PART_5_MISSING"⟩ =
      Outcome.ok ⟨400, utf8 "FILE_PART_X_MISSING",
        utf8 "Part 5 of the file is missing from storage", some (Any.int 5)⟩ ∧
    RpcErrorToNative ⟨420, utf8 "PREVIOUS_CHAT_IMPORT_ACTIVE_WAIT_12MIN"⟩ =
      Outcome.ok ⟨420, utf8 "PREVIOUS_CHAT_IMPORT_ACTIVE_WAIT_XMIN",
        utf8 "Similar to a flood wait, must wait 12 minutes", some (Any.int 12)⟩ := by
  decide

/-- C5: for every error code and every raw message whose native error name, as returned
by `TryExpandError`, is not a key of `errorMessages`, `RpcErrorToNative` returns a
Description (and a Message) equal to that native error name. -/
theorem RpcErrorToNative_unknown_name (c : Int) (m name : GoString) (data : Option Any)
    (hname : TryExpandError m = Outcome.ok (name, data))
    (hkey : errorMessagesGet name = none) :
    RpcErrorToNative ⟨c, m⟩ = Outcome.ok ⟨c, name, name, data⟩ := by
  cases hc : choosePrefixSuffix specificErrors m with
  | none =>
    rw [TryExpandError_unmatched m hc] at hname
    simp only [Outcome.ok.injEq, Prod.mk.injEq] at hname
    obtain ⟨h1, h2⟩ := hname
    subst h1
    subst h2
    rw [RpcErrorToNative_unmatched c m hc, hkey]
    rfl
  | some r =>
    rw [TryExpandError_matched m r hc] at hname
    simp only [Outcome.ok.injEq, Prod.mk.injEq] at hname
    obtain ⟨_, _, _, hget, _⟩ := rule_template r (choose_some_mem _ _ _ hc).1
    rw [hname.1, hkey] at hget
    exact absurd hget (by simp)

theorem RpcErrorToNative_unknown_name_witness :
    TryExpandError (utf8 "TOTALLY_UNKNOWN_CODE") =
      Outcome.ok (utf8 "TOTALLY_UNKNOWN_CODE", none) ∧
    errorMessagesGet (utf8 "TOTALLY_UNKNOWN_CODE") = none ∧
    RpcErrorToNative ⟨500, utf8 "TOTALLY_UNKNOWN_CODE"⟩ =
      Outcome.ok ⟨500, utf8 "TOTALLY_UNKNOWN_CODE", utf8 "TOTALLY_UNKNOWN_CODE", none⟩ :=
  ⟨by decide, by decide,
    RpcErrorToNative_unknown_name 500 (utf8 "TOTALLY_UNKNOWN_CODE")
      (utf8 "TOTALLY_UNKNOWN_CODE") none (by decide) (by decide)⟩

/-- C6: for every raw message that matches no rule: when it is, byte for byte, a key of
`errorMessages`, `RpcErrorToNative` returns the raw message as Message, the table entry
verbatim as Description and nil AdditionalInfo; when it differs from every key it is not
resolved through the table, its Description is the raw message itself. -/
theorem RpcErrorToNative_exact_key (c : Int) (m : GoString)
    (h : ∀ r ∈ specificErrors, ¬ (r.prefix_ <+: m ∧ r.suffix_ <:+ m)) :
    (∀ d, errorMessagesGet m = some d → RpcErrorToNative ⟨c, m⟩ = Outcome.ok ⟨c, m, d, none⟩) ∧
    (errorMessagesGet m = none → RpcErrorToNative ⟨c, m⟩ = Outcome.ok ⟨c, m, m, none⟩) := by
  have hc : choosePrefixSuffix specificErrors m = none := by
    rw [choose_eq_none_iff]
    intro r hr
    have := h r hr
    rw [← ruleMatches_iff] at this
    simpa using this
  rw [RpcErrorToNative_unmatched c m hc]
  constructor
  · intro d hd
    rw [hd]
    rfl
  · intro hd
    rw [hd]
    rfl

theorem RpcErrorToNative_exact_key_witness :
    ((∀ r ∈ specificErrors,
        ¬ (r.prefix_ <+: utf8 "USER_DEACTIVATED" ∧ r.suffix_ <:+ utf8 "USER_DEACTIVATED")) ∧
      errorMessagesGet (utf8 "USER_DEACTIVATED") =
        some (utf8 "The user has been deleted/deactivated") ∧
      RpcErrorToNative ⟨400, utf8 "USER_DEACTIVATED"⟩ =
        Outcome.ok ⟨400, utf8 "USER_DEACTIVATED", utf8 "The user has been deleted/deactivated",
          none⟩) ∧
    ((∀ r ∈ specificErrors,
        ¬ (r.prefix_ <+: utf8 "user_deactivated" ∧ r.suffix_ <:+ utf8 "user_deactivated")) ∧
      errorMessagesGet (utf8 "user_deactivated") = none ∧
      RpcErrorToNative ⟨400, utf8 "user_deactivated"⟩ =
        Outcome.ok ⟨400, utf8 "user_deactivated", utf8 "user_deactivated", none⟩) :=
  ⟨⟨by decide, by decide,
      (RpcErrorToNative_exact_key 400 (utf8 "USER_DEACTIVATED") (by decide)).1 _ (by decide)⟩,
    ⟨by decide, by decide,
      (RpcErrorToNative_exact_key 400 (utf8 "user_deactivated") (by decide)).2 (by decide)⟩⟩

/-- C7, the claim as stated fails: `"FLOOD_WAIT_abc"` and `"FLOOD_WAIT_"` are classified
by the rule `FLOOD_WAIT_`, `Atoi` rejects their payloads `"abc"` and `""`, and the
additional data returned is the integer 0, not nil. -/
theorem TryExpandError_failed_decode_counterexample :
    (firstMatchAt specificErrors (utf8 "FLOOD_WAIT_abc") 4
        ⟨utf8 "FLOOD_WAIT_", utf8 "", Kind.Int⟩ ∧
      trimmedData (utf8 "FLOOD_WAIT_abc") ⟨utf8 "FLOOD_WAIT_", utf8 "", Kind.Int⟩ = utf8 "abc" ∧
      Atoi (utf8 "abc") = (0, some NumError.ErrSyntax) ∧
      TryExpandError (utf8 "FLOOD_WAIT_abc") =
        Outcome.ok (utf8 "FLOOD_WAIT_X", some (Any.int 0)) ∧
      TryExpandError (utf8 "FLOOD_WAIT_abc") ≠ Outcome.ok (utf8 "FLOOD_WAIT_X", none)) ∧
    (firstMatchAt specificErrors (utf8 "FLOOD_WAIT_") 4
        ⟨utf8 "FLOOD_WAIT_", utf8 "", Kind.Int⟩ ∧
      trimmedData (utf8 "FLOOD_WAIT_") ⟨utf8 "FLOOD_WAIT_", utf8 "", Kind.Int⟩ = utf8 "" ∧
      Atoi (utf8 "") = (0, some NumError.ErrSyntax) ∧
      TryExpandError (utf8 "FLOOD_WAIT_") =
        Outcome.ok (utf8 "FLOOD_WAIT_X", some (Any.int 0)) ∧
      TryExpandError (utf8 "FLOOD_WAIT_") ≠ Outcome.ok (utf8 "FLOOD_WAIT_X", none)) := by
  decide

/-- C7, amended: when `r` is the rule of `specificErrors` that classifies a raw string and
`Atoi` rejects the payload, `TryExpandError` still returns the native error name
`r.prefix + "X" + r.suffix`, and the additional data is not nil: it is the integer that
`Atoi` returned beside its error, 0 on a syntax error and the largest or the smallest
`int` on a range error. -/
theorem TryExpandError_failed_decode (errStr : GoString) (i : Nat) (r : prefixSuffix)
    (h : firstMatchAt specificErrors errStr i r)
    (herr : (Atoi (trimmedData errStr r)).2 ≠ none) :
    ∃ (v : Int) (e : NumError),
      Atoi (trimmedData errStr r) = (v, some e) ∧
      TryExpandError errStr =
        Outcome.ok (r.prefix_ ++ utf8 "X" ++ r.suffix_, some (Any.int v)) ∧
      (e = NumError.ErrSyntax → v = 0) ∧
      (e = NumError.ErrRange → v = maxInt ∨ v = minInt) := by
  obtain ⟨e, h1, h2, h3⟩ := Atoi_rejected _ herr
  exact ⟨_, e, h1, TryExpandError_matched errStr r (choose_of_firstMatchAt _ _ _ _ h), h2, h3⟩

theorem TryExpandError_failed_decode_witness :
    firstMatchAt specificErrors (utf8 "FLOOD_WAIT_99999999999999999999") 4
      ⟨utf8 "FLOOD_WAIT_", utf8 "", Kind.Int⟩ ∧
    (Atoi (trimmedData (utf8 "FLOOD_WAIT_99999999999999999999")
      ⟨utf8 "FLOOD_WAIT_", utf8 "", Kind.Int⟩)).2 ≠ none ∧
    ∃ (v : Int) (e : NumError),
      Atoi (trimmedData (utf8 "FLOOD_WAIT_99999999999999999999")
        ⟨utf8 "FLOOD_WAIT_", utf8 "", Kind.Int⟩) = (v, some e) ∧
      TryExpandError (utf8 "FLOOD_WAIT_99999999999999999999") =
        Outcome.ok (utf8 "FLOOD_WAIT_" ++ utf8 "X" ++ utf8 "", some (Any.int v)) ∧
      (e = NumError.ErrSyntax → v = 0) ∧
      (e = NumError.ErrRange → v = maxInt ∨ v = minInt) :=
  ⟨by decide, by decide,
    TryExpandError_failed_decode (utf8 "FLOOD_WAIT_99999999999999999999") 4
      ⟨utf8 "FLOOD_WAIT_", utf8 "", Kind.Int⟩ (by decide) (by decide)⟩

/-- C8, the claim as stated fails: for `"FLOOD_WAIT_abc"` the Description is not the
template `"A wait of %v seconds is required"` left as it is, the placeholder is replaced
by `0`. -/
theorem RpcErrorToNative_failed_decode_counterexample :
    firstMatchAt specificErrors (utf8 "FLOOD_WAIT_abc") 4
      ⟨utf8 "FLOOD_WAIT_", utf8 "", Kind.Int⟩ ∧
    Atoi (trimmedData (utf8 "FLOOD_WAIT_abc") ⟨utf8 "FLOOD_WAIT_", utf8 "", Kind.Int⟩) =
      (0, some NumError.ErrSyntax) ∧
    errorMessagesGet (utf8 "FLOOD_WAIT_X") = some (utf8 "A wait of %v seconds is required") ∧
    RpcErrorToNative ⟨420, utf8 "FLOOD_WAIT_abc"⟩ =
      Outcome.ok ⟨420, utf8 "FLOOD_WAIT_X", utf8 "A wait of 0 seconds is required",
        some (Any.int 0)⟩ ∧
    RpcErrorToNative ⟨420, utf8 "FLOOD_WAIT_abc"⟩ ≠
      Outcome.ok ⟨420, utf8 "FLOOD_WAIT_X", utf8 "A wait of %v seconds is required", none⟩ := by
  decide

/-- C8, amended: when `r` is the rule of `specificErrors` that classifies a raw message
and `Atoi` rejects the payload, `RpcErrorToNative` returns as Description the template of
the native error name with its placeholder `%v` replaced by the decimal text of the
integer that `Atoi` returned beside its error (0 on a syntax error, the largest or the
smallest `int` on a range error), and that integer as AdditionalInfo. -/
theorem RpcErrorToNative_failed_decode (c : Int) (m : GoString) (i : Nat) (r : prefixSuffix)
    (h : firstMatchAt specificErrors m i r)
    (herr : (Atoi (trimmedData m r)).2 ≠ none) :
    ∃ (pre post : GoString) (v : Int) (e : NumError),
      Atoi (trimmedData m r) = (v, some e) ∧
      errorMessagesGet (r.prefix_ ++ utf8 "X" ++ r.suffix_) = some (pre ++ utf8 "%v" ++ post) ∧
      (37 : UInt8) ∉ pre ∧ (37 : UInt8) ∉ post ∧
      RpcErrorToNative ⟨c, m⟩ =
        Outcome.ok ⟨c, r.prefix_ ++ utf8 "X" ++ r.suffix_, pre ++ fmtInteger v ++ post,
          some (Any.int v)⟩ ∧
      (e = NumError.ErrSyntax → v = 0) ∧
      (e = NumError.ErrRange → v = maxInt ∨ v = minInt) := by
  obtain ⟨pre, post, hget, hpre, hpost, hres⟩ :=
    RpcErrorToNative_matched m r (choose_of_firstMatchAt _ _ _ _ h)
  obtain ⟨e, h1, h2, h3⟩ := Atoi_rejected _ herr
  exact ⟨pre, post, _, e, h1, hget, hpre, hpost, hres c, h2, h3⟩

theorem RpcErrorToNative_failed_decode_witness :
    firstMatchAt specificErrors (utf8 "FILE_PART_x_MISSING") 2
      ⟨utf8 "FILE_PART_", utf8 "_MISSING", Kind.Int⟩ ∧
    (Atoi (trimmedData (utf8 "FILE_PART_x_MISSING")
      ⟨utf8 "FILE_PART_", utf8 "_MISSING", Kind.Int⟩)).2 ≠ none ∧
    ∃ (pre post : GoString) (v : Int) (e : NumError),
      Atoi (trimmedData (utf8 "FILE_PART_x_MISSING")
        ⟨utf8 "FILE_PART_", utf8 "_MISSING", Kind.Int⟩) = (v, some e) ∧
      errorMessagesGet (utf8 "FILE_PART_" ++ utf8 "X" ++ utf8 "_MISSING") =
        some (pre ++ utf8 "%v" ++ post) ∧
      (37 : UInt8) ∉ pre ∧ (37 : UInt8) ∉ post ∧
      RpcErrorToNative ⟨400, utf8 "FILE_PART_x_MISSING"⟩ =
        Outcome.ok ⟨400, utf8 "FILE_PART_" ++ utf8 "X" ++ utf8 "_MISSING",
          pre ++ fmtInteger v ++ post, some (Any.int v)⟩ ∧
      (e = NumError.ErrSyntax → v = 0) ∧
      (e = NumError.ErrRange → v = maxInt ∨ v = minInt) :=
  ⟨by decide, by decide,
    RpcErrorToNative_failed_decode 400 (utf8 "FILE_PART_x_MISSING") 2
      ⟨utf8 "FILE_PART_", utf8 "_MISSING", Kind.Int⟩ (by decide) (by decide)⟩

/-- The panic branch of `TryExpandError` is reached on a rule table that holds a rule of
another kind than `Int` and `String`. -/
theorem TryExpandErrorIn_panics :
    TryExpandErrorIn [⟨utf8 "CODE_", utf8 "", Kind.Bool⟩] (utf8 "CODE_1") =
      Outcome.panic (utf8 "couldn't parse this type: bool") := by
  decide

/-- C9: `TryExpandError` and `RpcErrorToNative` are total: for every error code and every
message string they return a value; the panic branch for an unsupported kind is never
reached, every rule of `specificErrors` having a supported kind. -/
theorem RpcErrorToNative_total (c : Int) (m : GoString) :
    (∃ p, TryExpandError m = Outcome.ok p) ∧
    (∃ e, RpcErrorToNative ⟨c, m⟩ = Outcome.ok e) ∧
    (∀ msg, TryExpandError m ≠ Outcome.panic msg) ∧
    (∀ msg, RpcErrorToNative ⟨c, m⟩ ≠ Outcome.panic msg) ∧
    (∀ r ∈ specificErrors, r.kind = Kind.Int ∨ r.kind = Kind.String) := by
  have hk : ∀ r ∈ specificErrors, r.kind = Kind.Int ∨ r.kind = Kind.String :=
    fun r hr => Or.inl (rule_template r hr).1
  cases hc : choosePrefixSuffix specificErrors m with
  | none =>
    rw [TryExpandError_unmatched m hc, RpcErrorToNative_unmatched c m hc]
    exact ⟨⟨_, rfl⟩, ⟨_, rfl⟩, by simp, by simp, hk⟩
  | some r =>
    obtain ⟨pre, post, _, _, _, hres⟩ := RpcErrorToNative_matched m r hc
    rw [TryExpandError_matched m r hc, hres c]
    exact ⟨⟨_, rfl⟩, ⟨_, rfl⟩, by simp, by simp, hk⟩

/-- C10: for every error code `c` and every message `m`, the error that `RpcErrorToNative`
returns has Code `c`, and its Message and AdditionalInfo are the two results of
`TryExpandError m`; with another code the result differs in Code only, so the code has no
influence on the name, the description or the parameter. -/
theorem RpcErrorToNative_frame (c : Int) (m : GoString) :
    ∃ e : ErrResponseCode,
      RpcErrorToNative ⟨c, m⟩ = Outcome.ok e ∧ e.Code = c ∧
      TryExpandError m = Outcome.ok (e.Message, e.AdditionalInfo) ∧
      ∀ c1 : Int,
        RpcErrorToNative ⟨c1, m⟩ =
          Outcome.ok ⟨c1, e.Message, e.Description, e.AdditionalInfo⟩ := by
  cases hc : choosePrefixSuffix specificErrors m with
  | none =>
    refine ⟨_, RpcErrorToNative_unmatched c m hc, rfl, TryExpandError_unmatched m hc, ?_⟩
    intro c1
    exact RpcErrorToNative_unmatched c1 m hc
  | some r =>
    obtain ⟨pre, post, _, _, _, hres⟩ := RpcErrorToNative_matched m r hc
    exact ⟨_, hres c, rfl, TryExpandError_matched m r hc, fun c1 => hres c1⟩

/-! ## First match, for every rule table -/

theorem TryExpandErrorIn_of_choose (rules : List prefixSuffix) (s : GoString) (r : prefixSuffix)
    (h : choosePrefixSuffix rules s = some r) :
    TryExpandErrorIn rules s = TryExpandErrorIn [r] s := by
  have hm : ruleMatches s r = true := (choose_some_mem _ _ _ h).2
  simp [TryExpandErrorIn, h, choosePrefixSuffix, hm]

/-- C11: first match wins, for every rule table and every raw string: when `r` is the
earliest rule of the table whose prefix and suffix fit the string, `TryExpandError` over
that table returns what it returns over the table that holds `r` alone, whatever rules
come later: for a rule of kind `Int` the name `r.prefix + "X" + r.suffix` with the integer
read from the payload of `r`, for a rule of kind `String` that name with the payload. -/
theorem TryExpandErrorIn_first_match (rules : List prefixSuffix) (s : GoString) (i : Nat)
    (r : prefixSuffix) (h : firstMatchAt rules s i r) :
    TryExpandErrorIn rules s = TryExpandErrorIn [r] s ∧
    (r.kind = Kind.Int → TryExpandErrorIn rules s =
      Outcome.ok (r.prefix_ ++ utf8 "X" ++ r.suffix_,
        some (Any.int (Atoi (TrimSuffix (TrimPrefix s r.prefix_) r.suffix_)).1))) ∧
    (r.kind = Kind.String → TryExpandErrorIn rules s =
      Outcome.ok (r.prefix_ ++ utf8 "X" ++ r.suffix_,
        some (Any.string (TrimSuffix (TrimPrefix s r.prefix_) r.suffix_)))) := by
  have hc := choose_of_firstMatchAt rules s i r h
  refine ⟨TryExpandErrorIn_of_choose rules s r hc, ?_, ?_⟩
  · intro hk
    simp [TryExpandErrorIn, hc, hk, nativeName, trimmedData]
  · intro hk
    simp [TryExpandErrorIn, hc, hk, nativeName, trimmedData]

theorem TryExpandErrorIn_first_match_witness :
    firstMatchAt
      [⟨utf8 "A_", utf8 "", Kind.Int⟩, ⟨utf8 "INTERDC_", utf8 "_ERROR", Kind.String⟩,
        ⟨utf8 "INTERDC_", utf8 "_CALL_ERROR", Kind.Int⟩, ⟨utf8 "INTERDC_", utf8 "", Kind.Int⟩]
      (utf8 "INTERDC_2_CALL_ERROR") 1 ⟨utf8 "INTERDC_", utf8 "_ERROR", Kind.String⟩ ∧
    ruleMatches (utf8 "INTERDC_2_CALL_ERROR") ⟨utf8 "INTERDC_", utf8 "_CALL_ERROR", Kind.Int⟩
      = true ∧
    ruleMatches (utf8 "INTERDC_2_CALL_ERROR") ⟨utf8 "INTERDC_", utf8 "", Kind.Int⟩ = true ∧
    TryExpandErrorIn
      [⟨utf8 "A_", utf8 "", Kind.Int⟩, ⟨utf8 "INTERDC_", utf8 "_ERROR", Kind.String⟩,
        ⟨utf8 "INTERDC_", utf8 "_CALL_ERROR", Kind.Int⟩, ⟨utf8 "INTERDC_", utf8 "", Kind.Int⟩]
      (utf8 "INTERDC_2_CALL_ERROR") =
        Outcome.ok (utf8 "INTERDC_X_ERROR", some (Any.string (utf8 "2_CALL"))) := by
  refine ⟨by decide, by decide, by decide, ?_⟩
  have h := (TryExpandErrorIn_first_match
    [⟨utf8 "A_", utf8 "", Kind.Int⟩, ⟨utf8 "INTERDC_", utf8 "_ERROR", Kind.String⟩,
      ⟨utf8 "INTERDC_", utf8 "_CALL_ERROR", Kind.Int⟩, ⟨utf8 "INTERDC_", utf8 "", Kind.Int⟩]
    (utf8 "INTERDC_2_CALL_ERROR") 1 ⟨utf8 "INTERDC_", utf8 "_ERROR", Kind.String⟩
    (by decide)).2.2 rfl
  rw [h]
  decide

/-! ## Bad message notifications -/

theorem lookup_eq_none_of_not_mem (l : List (Nat × GoString)) (k : Nat)
    (h : k ∉ l.map Prod.fst) : List.lookup k l = none := by
  induction l with
  | nil => rfl
  | cons e rest ih =>
    obtain ⟨k1, d⟩ := e
    simp only [List.map_cons, List.mem_cons, not_or] at h
    have hne : (k == k1) = false := by simpa using h.1
    simp only [List.lookup, hne]
    exact ih h.2

theorem badMsgErrorCodes_fst : badMsgErrorCodes.map Prod.fst = badMsgKeys := by
  decide

theorem toUint8_lt (x : Int) : toUint8 x < 256 := by
  unfold toUint8
  omega

theorem toUint8_of_range (x : Int) (h0 : 0 ≤ x) (h1 : x < 256) : toUint8 x = x.toNat := by
  unfold toUint8
  omega

theorem badMsgKeys_entries :
    ∀ k ∈ badMsgKeys, toUint8 (k : Int) = k ∧
      (k, badMsgErrorCodesGet k) ∈ badMsgErrorCodes ∧ badMsgErrorCodesGet k ≠ [] := by
  decide

/-- C12, the claim as stated fails: the code 272 is none of the eleven codes, and the
notification that carries it gets the description of code 16, which is not empty. -/
theorem BadMsgErrorFromNative_unknown_code_counterexample :
    (272 : Int) ∉ ([16, 17, 18, 19, 20, 32, 33, 34, 35, 48, 64] : List Int) ∧
    (BadMsgErrorFromNative ⟨0, 0, 272⟩).Description ≠ [] ∧
    (BadMsgErrorFromNative ⟨0, 0, 272⟩).Description =
      (BadMsgErrorFromNative ⟨0, 0, 16⟩).Description := by
  decide

/-- C12, amended: for every bad-message notification whose code, reduced to its low 8
bits (code mod 256, the key `uint8(in.Code)` of the lookup), is none of 16, 17, 18, 19,
20, 32, 33, 34, 35, 48, 64, `BadMsgErrorFromNative` returns a `BadMsgError` with the
empty Description; this covers every code from 0 to 255 outside the eleven, such as 99. -/
theorem BadMsgErrorFromNative_unknown_code (n : BadMsgNotification)
    (h : n.Code % 256 ∉ ([16, 17, 18, 19, 20, 32, 33, 34, 35, 48, 64] : List Int)) :
    (BadMsgErrorFromNative n).Description = [] := by
  have hk : toUint8 n.Code ∉ badMsgKeys := by
    intro hmem
    apply h
    unfold toUint8 badMsgKeys at hmem
    simp only [List.mem_cons, List.mem_singleton, List.not_mem_nil, or_false] at hmem ⊢
    omega
  have hl := lookup_eq_none_of_not_mem badMsgErrorCodes (toUint8 n.Code)
    (by rw [badMsgErrorCodes_fst]; exact hk)
  simp [BadMsgErrorFromNative, badMsgErrorCodesGet, hl]

theorem BadMsgErrorFromNative_unknown_code_witness :
    (99 : Int) % 256 ∉ ([16, 17, 18, 19, 20, 32, 33, 34, 35, 48, 64] : List Int) ∧
    (BadMsgErrorFromNative ⟨7, 3, 99⟩).Description = [] :=
  ⟨by decide, BadMsgErrorFromNative_unknown_code ⟨7, 3, 99⟩ (by decide)⟩

/-- C13: `badMsgErrorCodes` has exactly the eleven keys 16, 17, 18, 19, 20, 32, 33, 34,
35, 48, 64; for a notification that carries one of them `BadMsgErrorFromNative` returns
the description stored under that code, which is not empty; for code 48 the description
contains "incorrect server salt". -/
theorem BadMsgErrorFromNative_known_code :
    badMsgErrorCodes.map Prod.fst = [16, 17, 18, 19, 20, 32, 33, 34, 35, 48, 64] ∧
    (∀ n : BadMsgNotification,
      n.Code ∈ ([16, 17, 18, 19, 20, 32, 33, 34, 35, 48, 64] : List Int) →
        (n.Code.toNat, (BadMsgErrorFromNative n).Description) ∈ badMsgErrorCodes ∧
        (BadMsgErrorFromNative n).Description ≠ []) ∧
    (∀ n : BadMsgNotification, n.Code = 48 →
      utf8 "incorrect server salt" <:+: (BadMsgErrorFromNative n).Description) := by
  refine ⟨by decide, ?_, ?_⟩
  · intro n hn
    have hk : n.Code.toNat ∈ badMsgKeys ∧ ((n.Code.toNat : Nat) : Int) = n.Code := by
      unfold badMsgKeys
      simp only [List.mem_cons, List.mem_singleton, List.not_mem_nil, or_false] at hn ⊢
      omega
    obtain ⟨h1, h2, h3⟩ := badMsgKeys_entries n.Code.toNat hk.1
    rw [hk.2] at h1
    simp only [BadMsgErrorFromNative, h1]
    exact ⟨h2, h3⟩
  · intro n hn
    have hp : utf8 "incorrect server salt" <+: badMsgErrorCodesGet (toUint8 48) := by decide
    simp only [BadMsgErrorFromNative, hn]
    exact hp.isInfix

/-- C14: the `BadMsgError` that `BadMsgErrorFromNative` returns carries the notification
it was given, unchanged: the message id, the sequence number and the code are those of
the input, and the Description is the only other field. -/
theorem BadMsgErrorFromNative_frame (n : BadMsgNotification) :
    (BadMsgErrorFromNative n).BadMsgNotification = n ∧
    (BadMsgErrorFromNative n).BadMsgNotification.BadMsgID = n.BadMsgID ∧
    (BadMsgErrorFromNative n).BadMsgNotification.BadMsgSeqNo = n.BadMsgSeqNo ∧
    (BadMsgErrorFromNative n).BadMsgNotification.Code = n.Code ∧
    BadMsgErrorFromNative n = ⟨n, (BadMsgErrorFromNative n).Description⟩ :=
  ⟨rfl, rfl, rfl, rfl, rfl⟩

/-! ## The templates of `errorMessages` -/

set_option maxRecDepth 100000000 in
set_option maxHeartbeats 4000000 in
theorem errorMessages_templateOk : errorMessages.all (fun e => templateOk e.2) = true := by
  decide

/-- C15: every template of `errorMessages` has at most one placeholder `%v` and no other
formatting verb: it has no `%` at all, or it is text without `%` around a single `%v`. -/
theorem errorMessages_one_placeholder (k t : GoString) (h : (k, t) ∈ errorMessages) :
    (37 : UInt8) ∉ t ∨
    ∃ pre post : GoString, t = pre ++ utf8 "%v" ++ post ∧ (37 : UInt8) ∉ pre ∧
      (37 : UInt8) ∉ post := by
  have hall := List.all_eq_true.mp errorMessages_templateOk (k, t) h
  simp only [templateOk, Bool.or_eq_true] at hall
  rcases hall with h1 | h1
  · left
    intro hmem
    have := List.all_eq_true.mp h1 _ hmem
    simp at this
  · right
    cases hp : templateParts t with
    | none => simp [hp] at h1
    | some pp =>
      obtain ⟨pre, post⟩ := pp
      exact ⟨pre, post, templateParts_spec t pre post hp⟩

theorem errorMessages_one_placeholder_witness :
    (utf8 "FLOOD_WAIT_X", utf8 "A wait of %v seconds is required") ∈ errorMessages ∧
    ((37 : UInt8) ∉ utf8 "A wait of %v seconds is required" ∨
      ∃ pre post : GoString, utf8 "A wait of %v seconds is required" = pre ++ utf8 "%v" ++ post ∧
        (37 : UInt8) ∉ pre ∧ (37 : UInt8) ∉ post) :=
  ⟨by decide, errorMessages_one_placeholder (utf8 "FLOOD_WAIT_X")
    (utf8 "A wait of %v seconds is required") (by decide)⟩

/-! ## Prefix and suffix that overlap -/

/-- C16, the claim as stated fails: `"FILE_PART_MISSING"` and `"INTERDC_CALL_ERROR"` start
with the prefix of a rule of `specificErrors`, end with its non-empty suffix and are
shorter than the two together; the rule matches, and the payload is `"MISSING"`, and
`"CALL_ERROR"`, not the empty string. -/
theorem overlap_payload_counterexample :
    ((⟨utf8 "FILE_PART_", utf8 "_MISSING", Kind.Int⟩ : prefixSuffix) ∈ specificErrors ∧
      utf8 "_MISSING" ≠ [] ∧
      utf8 "FILE_PART_" <+: utf8 "FILE_PART_MISSING" ∧
      utf8 "_MISSING" <:+ utf8 "FILE_PART_MISSING" ∧
      (utf8 "FILE_PART_MISSING").length < (utf8 "FILE_PART_").length + (utf8 "_MISSING").length ∧
      ruleMatches (utf8 "FILE_PART_MISSING") ⟨utf8 "FILE_PART_", utf8 "_MISSING", Kind.Int⟩
        = true ∧
      TrimSuffix (TrimPrefix (utf8 "FILE_PART_MISSING") (utf8 "FILE_PART_")) (utf8 "_MISSING") =
        utf8 "MISSING" ∧
      TrimSuffix (TrimPrefix (utf8 "FILE_PART_MISSING") (utf8 "FILE_PART_")) (utf8 "_MISSING") ≠
        []) ∧
    ((⟨utf8 "INTERDC_", utf8 "_CALL_ERROR", Kind.Int⟩ : prefixSuffix) ∈ specificErrors ∧
      utf8 "INTERDC_" <+: utf8 "INTERDC_CALL_ERROR" ∧
      utf8 "_CALL_ERROR" <:+ utf8 "INTERDC_CALL_ERROR" ∧
      (utf8 "INTERDC_CALL_ERROR").length <
        (utf8 "INTERDC_").length + (utf8 "_CALL_ERROR").length ∧
      TrimSuffix (TrimPrefix (utf8 "INTERDC_CALL_ERROR") (utf8 "INTERDC_")) (utf8 "_CALL_ERROR") =
        utf8 "CALL_ERROR") := by
  decide

/-- C16, amended: for every rule and every raw string that starts with the prefix of the
rule, ends with its suffix and is shorter than the two together, the rule matches, and
the payload is the raw string with the prefix stripped from the front only: what is left
is shorter than the suffix, so the suffix is not stripped.  The payload is the empty
string exactly when the raw string is the prefix itself. -/
theorem overlap_payload (r : prefixSuffix) (s : GoString) (hp : r.prefix_ <+: s)
    (hs : r.suffix_ <:+ s) (hlen : s.length < r.prefix_.length + r.suffix_.length) :
    ruleMatches s r = true ∧
    TrimSuffix (TrimPrefix s r.prefix_) r.suffix_ = s.drop r.prefix_.length ∧
    (TrimSuffix (TrimPrefix s r.prefix_) r.suffix_ = [] ↔ s = r.prefix_) := by
  have hm : ruleMatches s r = true := (ruleMatches_iff s r).mpr ⟨hp, hs⟩
  have h1 : TrimPrefix s r.prefix_ = s.drop r.prefix_.length := by
    simp [TrimPrefix, (HasPrefix_iff _ _).mpr hp]
  have hple : r.prefix_.length ≤ s.length := hp.length_le
  have h2 : HasSuffix (s.drop r.prefix_.length) r.suffix_ = false := by
    cases hh : HasSuffix (s.drop r.prefix_.length) r.suffix_ with
    | false => rfl
    | true =>
      have := ((HasSuffix_iff _ _).mp hh).length_le
      rw [List.length_drop] at this
      omega
  have h3 : TrimSuffix (TrimPrefix s r.prefix_) r.suffix_ = s.drop r.prefix_.length := by
    rw [h1]
    simp [TrimSuffix, h2]
  refine ⟨hm, h3, ?_⟩
  rw [h3]
  constructor
  · intro hd
    have hl : s.length ≤ r.prefix_.length := List.drop_eq_nil_iff.mp hd
    exact (List.IsPrefix.eq_of_length_le hp hl).symm
  · intro he
    rw [he]
    simp

theorem overlap_payload_witness :
    utf8 "FILE_PART_" <+: utf8 "FILE_PART_MISSING" ∧
    utf8 "_MISSING" <:+ utf8 "FILE_PART_MISSING" ∧
    (utf8 "FILE_PART_MISSING").length < (utf8 "FILE_PART_").length + (utf8 "_MISSING").length ∧
    ruleMatches (utf8 "FILE_PART_MISSING") ⟨utf8 "FILE_PART_", utf8 "_MISSING", Kind.Int⟩
      = true ∧
    TrimSuffix (TrimPrefix (utf8 "FILE_PART_MISSING") (utf8 "FILE_PART_")) (utf8 "_MISSING") =
      (utf8 "FILE_PART_MISSING").drop (utf8 "FILE_PART_").length ∧
    (TrimSuffix (TrimPrefix (utf8 "FILE_PART_MISSING") (utf8 "FILE_PART_")) (utf8 "_MISSING") = []
      ↔ utf8 "FILE_PART_MISSING" = utf8 "FILE_PART_") :=
  ⟨by decide, by decide, by decide,
    overlap_payload ⟨utf8 "FILE_PART_", utf8 "_MISSING", Kind.Int⟩ (utf8 "FILE_PART_MISSING")
      (by decide) (by decide) (by decide)⟩

/-! ## Names with additional data -/

theorem nativeName_matches (r : prefixSuffix) : ruleMatches (nativeName r) r = true := by
  unfold nativeName
  exact ruleMatches_build r (utf8 "X")

/-- C17, the code at the failing input: the last 17 keys of `errorMessages`, those under
the comment "errors with additional data", are `2FA_CONFIRM_WAIT_X` followed by the names
of the 16 rules; no rule of `specificErrors` has the name `2FA_CONFIRM_WAIT_X`, its
template has no placeholder, a message such as `2FA_CONFIRM_WAIT_3600` is passed through
without additional data, and no raw message is classified to `2FA_CONFIRM_WAIT_X` with
additional data. -/
theorem additional_data_2FA :
    (errorMessages.drop 420).map Prod.fst =
      utf8 "2FA_CONFIRM_WAIT_X" :: specificErrors.map nativeName ∧
    (∀ r ∈ specificErrors, r.prefix_ ++ utf8 "X" ++ r.suffix_ ≠ utf8 "2FA_CONFIRM_WAIT_X") ∧
    (∀ t, errorMessagesGet (utf8 "2FA_CONFIRM_WAIT_X") = some t → (37 : UInt8) ∉ t) ∧
    RpcErrorToNative ⟨420, utf8 "2FA_CONFIRM_WAIT_3600"⟩ =
      Outcome.ok ⟨420, utf8 "2FA_CONFIRM_WAIT_3600", utf8 "2FA_CONFIRM_WAIT_3600", none⟩ ∧
    (∀ (s : GoString) (data : Option Any),
      TryExpandError s = Outcome.ok (utf8 "2FA_CONFIRM_WAIT_X", data) → data = none) := by
  have hno : ∀ r ∈ specificErrors, r.prefix_ ++ utf8 "X" ++ r.suffix_ ≠ utf8 "2FA_CONFIRM_WAIT_X" := by
    decide
  refine ⟨by decide, hno, ?_, by decide, ?_⟩
  · have h : ∃ t, errorMessagesGet (utf8 "2FA_CONFIRM_WAIT_X") = some t ∧
        t.all (fun c => c != 37) = true := by decide
    obtain ⟨t0, h1, h2⟩ := h
    intro t ht hmem
    rw [h1] at ht
    cases ht
    have := List.all_eq_true.mp h2 _ hmem
    simp at this
  · intro s data hs
    cases hc : choosePrefixSuffix specificErrors s with
    | none =>
      rw [TryExpandError_unmatched s hc] at hs
      simp only [Outcome.ok.injEq, Prod.mk.injEq] at hs
      exact hs.2.symm
    | some r =>
      rw [TryExpandError_matched s r hc] at hs
      simp only [Outcome.ok.injEq, Prod.mk.injEq] at hs
      exact absurd hs.1 (hno r (choose_some_mem _ _ _ hc).1)

/-- C18, the claim as stated fails: `"CHANNEL_MIGRATE_X"` and `"QUEUE_WAIT_X"` fit no rule,
so they come back as Message, which ends with `MIGRATE_X`, and with `_WAIT_X`, and the
AdditionalInfo is nil. -/
theorem name_implies_parameter_counterexample :
    (RpcErrorToNative ⟨303, utf8 "CHANNEL_MIGRATE_X"⟩ =
        Outcome.ok ⟨303, utf8 "CHANNEL_MIGRATE_X", utf8 "CHANNEL_MIGRATE_X", none⟩ ∧
      utf8 "MIGRATE_X" <:+ utf8 "CHANNEL_MIGRATE_X") ∧
    (RpcErrorToNative ⟨420, utf8 "QUEUE_WAIT_X"⟩ =
        Outcome.ok ⟨420, utf8 "QUEUE_WAIT_X", utf8 "QUEUE_WAIT_X", none⟩ ∧
      utf8 "_WAIT_X" <:+ utf8 "QUEUE_WAIT_X") := by
  decide

/-- C18, amended: for every error code and raw message, if the Message of the error that
`RpcErrorToNative` returns is the canonical name `prefix + "X" + suffix` of a rule of
`specificErrors` (the names of the table that end with `MIGRATE_X` or `_WAIT_X` are
among them), then the raw message fits that rule and the AdditionalInfo is present and is
an integer, the one read from the payload: the value that `Atoi` returns for the raw
message without the prefix and the suffix of the rule, which is `n` when the raw message
is `prefix + decimal(n) + suffix`. -/
theorem name_implies_parameter (c : Int) (m : GoString) (e : ErrResponseCode)
    (r : prefixSuffix) (h : RpcErrorToNative ⟨c, m⟩ = Outcome.ok e) (hr : r ∈ specificErrors)
    (hname : e.Message = r.prefix_ ++ utf8 "X" ++ r.suffix_) :
    (r.prefix_ <+: m ∧ r.suffix_ <:+ m) ∧
    e.AdditionalInfo =
      some (Any.int (Atoi (TrimSuffix (TrimPrefix m r.prefix_) r.suffix_)).1) ∧
    (∀ n : Int, minInt ≤ n → n ≤ maxInt → m = r.prefix_ ++ fmtInteger n ++ r.suffix_ →
      e.AdditionalInfo = some (Any.int n)) := by
  have hinfo : (r.prefix_ <+: m ∧ r.suffix_ <:+ m) ∧ e.AdditionalInfo =
      some (Any.int (Atoi (TrimSuffix (TrimPrefix m r.prefix_) r.suffix_)).1) := by
    cases hc : choosePrefixSuffix specificErrors m with
    | none =>
      rw [RpcErrorToNative_unmatched c m hc] at h
      simp only [Outcome.ok.injEq] at h
      rw [← h] at hname
      simp only at hname
      have hm := nativeName_matches r
      unfold nativeName at hm
      rw [← hname] at hm
      have := (choose_eq_none_iff _ _).mp hc r hr
      rw [hm] at this
      exact absurd this (by simp)
    | some r1 =>
      obtain ⟨hr1, hm1⟩ := choose_some_mem _ _ _ hc
      obtain ⟨_, _, _, _, _, hres⟩ := RpcErrorToNative_matched m r1 hc
      rw [hres c] at h
      simp only [Outcome.ok.injEq] at h
      rw [← h] at hname ⊢
      simp only at hname
      have hsame : ruleMatches (nativeName r1) r = true := by
        rw [hname]
        exact nativeName_matches r
      have heq : r1 = r :=
        match_unique (nativeName r1) r1 r hr1 hr (nativeName_matches r1) hsame
      subst heq
      exact ⟨(ruleMatches_iff m r1).mp hm1, rfl⟩
  refine ⟨hinfo.1, hinfo.2, ?_⟩
  intro n hlo hhi hm
  rw [hinfo.2, hm]
  have ht := trimmedData_build r (fmtInteger n)
  unfold trimmedData at ht
  rw [ht, Atoi_fmtInteger n hlo hhi]

theorem name_implies_parameter_witness :
    RpcErrorToNative ⟨303, utf8 "PHONE_MIGRATE_2"⟩ =
      Outcome.ok ⟨303, utf8 "PHONE_MIGRATE_X",
        utf8 "The phone number a user is trying to use for authorization is associated with DC 2",
        some (Any.int 2)⟩ ∧
    (⟨utf8 "PHONE_MIGRATE_", utf8 "", Kind.Int⟩ : prefixSuffix) ∈ specificErrors ∧
    utf8 "PHONE_MIGRATE_X" = utf8 "PHONE_MIGRATE_" ++ utf8 "X" ++ utf8 "" ∧
    (utf8 "PHONE_MIGRATE_" <+: utf8 "PHONE_MIGRATE_2" ∧ utf8 "" <:+ utf8 "PHONE_MIGRATE_2") ∧
    (some (Any.int 2) : Option Any) =
      some (Any.int (Atoi (TrimSuffix (TrimPrefix (utf8 "PHONE_MIGRATE_2")
        (utf8 "PHONE_MIGRATE_")) (utf8 ""))).1) ∧
    (∀ n : Int, minInt ≤ n → n ≤ maxInt →
      utf8 "PHONE_MIGRATE_2" = utf8 "PHONE_MIGRATE_" ++ fmtInteger n ++ utf8 "" →
      (some (Any.int 2) : Option Any) = some (Any.int n)) :=
  ⟨by decide, by decide, by decide,
    name_implies_parameter 303 (utf8 "PHONE_MIGRATE_2")
      ⟨303, utf8 "PHONE_MIGRATE_X",
        utf8 "The phone number a user is trying to use for authorization is associated with DC 2",
        some (Any.int 2)⟩
      ⟨utf8 "PHONE_MIGRATE_", utf8 "", Kind.Int⟩ (by decide) (by decide) (by decide)⟩

/-! ## One rule per string, and idempotence -/

theorem choose_perm (rules : List prefixSuffix) (hperm : rules.Perm specificErrors)
    (s : GoString) :
    choosePrefixSuffix rules s = choosePrefixSuffix specificErrors s := by
  cases h1 : choosePrefixSuffix rules s with
  | none =>
    symm
    rw [choose_eq_none_iff] at h1 ⊢
    intro r hr
    exact h1 r (hperm.symm.subset hr)
  | some r =>
    obtain ⟨hmem, hm⟩ := choose_some_mem _ _ _ h1
    have hmem1 : r ∈ specificErrors := hperm.subset hmem
    cases h2 : choosePrefixSuffix specificErrors s with
    | none =>
      have := (choose_eq_none_iff _ _).mp h2 r hmem1
      rw [hm] at this
      exact absurd this (by simp)
    | some r1 =>
      obtain ⟨hmem2, hm2⟩ := choose_some_mem _ _ _ h2
      rw [match_unique s r r1 hmem1 hmem2 hm hm2]

/-- C19: with the table `specificErrors` as written, a string matches at most one rule:
two rules that both have their prefix as a prefix and their suffix as a suffix of the same
string are one rule.  Two different prefixes of the table are never a prefix one of the
other, and two different rules with the same prefix (the two `INTERDC_` rules) have
suffixes neither of which is a suffix of the other.  Hence `TryExpandError` returns the
same over every reordering of the table. -/
theorem specificErrors_unique_match (s : GoString) :
    (∀ a ∈ specificErrors, ∀ b ∈ specificErrors,
      (a.prefix_ <+: s ∧ a.suffix_ <:+ s) → (b.prefix_ <+: s ∧ b.suffix_ <:+ s) → a = b) ∧
    (∀ a ∈ specificErrors, ∀ b ∈ specificErrors,
      a.prefix_ ≠ b.prefix_ → ¬ a.prefix_ <+: b.prefix_) ∧
    (∀ a ∈ specificErrors, ∀ b ∈ specificErrors, a.prefix_ = b.prefix_ → a ≠ b →
      a.prefix_ = utf8 "INTERDC_" ∧ ¬ a.suffix_ <:+ b.suffix_ ∧ ¬ b.suffix_ <:+ a.suffix_) ∧
    (∀ rules : List prefixSuffix, rules.Perm specificErrors →
      TryExpandErrorIn rules s = TryExpandError s) := by
  refine ⟨?_, by decide, by decide, ?_⟩
  · intro a ha b hb hma hmb
    exact match_unique s a b ha hb ((ruleMatches_iff s a).mpr hma) ((ruleMatches_iff s b).mpr hmb)
  · intro rules hperm
    simp only [TryExpandError, TryExpandErrorIn, choose_perm rules hperm s]

/-- C20: canonicalisation is idempotent: for every raw string, `TryExpandError` applied to
the native error name that it returned for the string returns that same name. -/
theorem TryExpandError_idempotent (s : GoString) :
    ∃ (name : GoString) (data data1 : Option Any),
      TryExpandError s = Outcome.ok (name, data) ∧
      TryExpandError name = Outcome.ok (name, data1) := by
  cases hc : choosePrefixSuffix specificErrors s with
  | none =>
    exact ⟨s, none, none, TryExpandError_unmatched s hc, TryExpandError_unmatched s hc⟩
  | some r =>
    have hr : r ∈ specificErrors := (choose_some_mem _ _ _ hc).1
    have hc1 : choosePrefixSuffix specificErrors (nativeName r) = some r := by
      unfold nativeName
      exact choose_build r hr (utf8 "X")
    exact ⟨nativeName r, _, _, TryExpandError_matched s r hc,
      TryExpandError_matched (nativeName r) r hc1⟩

/-! ## Payloads that are not decimal integers -/

theorem parseUintLoop_nondigit (c : UInt8) (rest : GoString) (acc : Nat)
    (hc : isDigit c = false) :
    parseUintLoop (c :: rest) acc = (0, some NumError.ErrSyntax) := by
  have h1 : ¬ (48 ≤ c.toNat ∧ c.toNat ≤ 57) := by
    intro h
    simp [isDigit, h.1, h.2] at hc
  rw [parseUintLoop]
  simp only [h1, if_false]
  by_cases h2 : 97 ≤ (c ||| 32).toNat ∧ (c ||| 32).toNat ≤ 122
  · have h3 : 10 ≤ (c ||| 32).toNat - 97 + 10 := by omega
    simp only [h2, and_self, if_true, h3]
  · simp only [h2, if_false]

theorem parseUintLoop_syntax (pre : GoString) : ∀ (acc : Nat) (c : UInt8) (rest : GoString),
    (∀ b ∈ pre, isDigit b = true) →
    (pre.map (fun b => b.toNat - 48)).foldl (fun a d => a * 10 + d) acc ≤ maxUint64 →
    isDigit c = false →
    parseUintLoop (pre ++ c :: rest) acc = (0, some NumError.ErrSyntax) := by
  induction pre with
  | nil =>
    intro acc c rest _ _ hc
    exact parseUintLoop_nondigit c rest acc hc
  | cons b bs ih =>
    intro acc c rest hpre hval hc
    have hb : isDigit b = true := hpre b (List.mem_cons_self _ _)
    have hbs : ∀ x ∈ bs, isDigit x = true := fun x hx => hpre x (List.mem_cons_of_mem _ hx)
    simp only [isDigit, Bool.and_eq_true, decide_eq_true_eq] at hb
    simp only [List.map_cons, List.foldl_cons] at hval
    have hge := foldl_digits_ge (bs.map (fun b => b.toNat - 48)) (acc * 10 + (b.toNat - 48))
    have hstep : acc * 10 + (b.toNat - 48) ≤ maxUint64 := le_trans hge hval
    have hmaxv : maxUint64 = 18446744073709551615 := by decide
    rw [hmaxv] at hstep
    rw [List.cons_append, parseUintLoop]
    have h3 : ¬ (10 ≤ b.toNat - 48) := by omega
    have h4 : ¬ (maxUint64 / 10 + 1 ≤ acc) := by rw [hmaxv]; omega
    have h5 : (acc * 10 + (b.toNat - 48)) % 2 ^ 64 = acc * 10 + (b.toNat - 48) := by
      apply Nat.mod_eq_of_lt; omega
    have h6 : ¬ (acc * 10 + (b.toNat - 48) < acc * 10 ∨
        maxUint64 < acc * 10 + (b.toNat - 48)) := by rw [hmaxv]; omega
    simp only [hb, and_self, if_true, h3, if_false, h4, h5, h6]
    exact ih (acc * 10 + (b.toNat - 48)) c rest hbs hval hc

theorem parseUintLoop_range (pre : GoString) : ∀ (acc : Nat) (rest : GoString),
    (∀ b ∈ pre, isDigit b = true) → acc ≤ maxUint64 →
    maxUint64 < (pre.map (fun b => b.toNat - 48)).foldl (fun a d => a * 10 + d) acc →
    parseUintLoop (pre ++ rest) acc = (maxUint64, some NumError.ErrRange) := by
  induction pre with
  | nil =>
    intro acc rest _ hacc hval
    simp only [List.map_nil, List.foldl_nil] at hval
    omega
  | cons b bs ih =>
    intro acc rest hpre hacc hval
    have hb : isDigit b = true := hpre b (List.mem_cons_self _ _)
    have hbs : ∀ x ∈ bs, isDigit x = true := fun x hx => hpre x (List.mem_cons_of_mem _ hx)
    simp only [isDigit, Bool.and_eq_true, decide_eq_true_eq] at hb
    simp only [List.map_cons, List.foldl_cons] at hval
    have hmaxv : maxUint64 = 18446744073709551615 := by decide
    rw [List.cons_append, parseUintLoop]
    have h3 : ¬ (10 ≤ b.toNat - 48) := by omega
    simp only [hb, and_self, if_true, h3, if_false]
    by_cases h4 : maxUint64 / 10 + 1 ≤ acc
    · simp only [h4, if_true]
    · simp only [h4, if_false]
      by_cases h6 : (acc * 10 + (b.toNat - 48)) % 2 ^ 64 < acc * 10 ∨
          maxUint64 < (acc * 10 + (b.toNat - 48)) % 2 ^ 64
      · simp only [h6, if_true]
      · simp only [h6, if_false]
        rw [hmaxv] at h4 h6
        have h5 : (acc * 10 + (b.toNat - 48)) % 2 ^ 64 = acc * 10 + (b.toNat - 48) := by
          omega
        rw [h5]
        exact ih (acc * 10 + (b.toNat - 48)) rest hbs (by rw [hmaxv]; omega) hval

theorem unsigned_cons (c : UInt8) (rest : GoString) :
    unsigned (c :: rest) = if c == 43 then rest else if c == 45 then rest else c :: rest := rfl

/-- The digits of a text that is syntactically not a decimal integer, split off. -/
theorem notDecimal_split (body : GoString)
    (hany : body.any (fun c => !isDigit c) = true) :
    ∃ c rest, body = body.takeWhile isDigit ++ c :: rest ∧ isDigit c = false := by
  have hsplit := List.takeWhile_append_dropWhile isDigit body
  cases hd : body.dropWhile isDigit with
  | nil =>
    rw [List.dropWhile_eq_nil_iff] at hd
    obtain ⟨y, hy, hy2⟩ := List.any_eq_true.mp hany
    simp [hd y hy] at hy2
  | cons c rest =>
    have hcnd : isDigit c = false := by
      have := List.head_dropWhile_not isDigit body (by rw [hd]; simp)
      simpa [hd] using this
    refine ⟨c, rest, ?_, hcnd⟩
    rw [← hd, hsplit]

/-- A text that is syntactically not a decimal integer, and whose digits before the first
byte that is not a digit spell a number within `2^64 - 1`, is rejected by `Atoi` with a
syntax error and 0. -/
theorem Atoi_notDecimal (s : GoString) (hnd : notDecimal s = true)
    (hval : leadingValue s ≤ maxUint64) :
    Atoi s = (0, some NumError.ErrSyntax) := by
  have hbody : ParseUint (unsigned s) = (0, some NumError.ErrSyntax) := by
    unfold notDecimal at hnd
    unfold leadingValue at hval
    generalize unsigned s = body at hnd hval
    cases hb : body with
    | nil => rfl
    | cons x xs =>
      rw [← hb]
      have hany : body.any (fun c => !isDigit c) = true := by
        rw [Bool.or_eq_true] at hnd
        rcases hnd with h | h
        · rw [hb] at h; simp at h
        · exact h
      obtain ⟨c, rest, hsplit, hcnd⟩ := notDecimal_split body hany
      have hpre : ∀ b ∈ body.takeWhile isDigit, isDigit b = true :=
        fun b hb1 => List.mem_takeWhile_imp hb1
      have hloop := parseUintLoop_syntax (body.takeWhile isDigit) 0 c rest hpre hval hcnd
      rw [← hsplit] at hloop
      rw [hb] at hloop ⊢
      exact hloop
  unfold Atoi ParseInt
  cases s with
  | nil => rfl
  | cons c rest =>
    rw [unsigned_cons] at hbody
    simp only [hbody, if_true]

/-- When the digits before the first byte that is not a digit spell a number above
`2^64 - 1`, `Atoi` meets the range error first and returns the largest or the smallest
`int`, not 0. -/
theorem Atoi_leading_overflow (s : GoString) (hval : maxUint64 < leadingValue s) :
    Atoi s = (maxInt, some NumError.ErrRange) ∨ Atoi s = (minInt, some NumError.ErrRange) := by
  have hbody : ParseUint (unsigned s) = (maxUint64, some NumError.ErrRange) := by
    unfold leadingValue at hval
    generalize unsigned s = body at hval
    cases hb : body with
    | nil => rw [hb] at hval; simp at hval
    | cons x xs =>
      rw [← hb]
      have hsplit := List.takeWhile_append_dropWhile isDigit body
      have hpre : ∀ b ∈ body.takeWhile isDigit, isDigit b = true :=
        fun b hb1 => List.mem_takeWhile_imp hb1
      have hloop := parseUintLoop_range (body.takeWhile isDigit) 0 (body.dropWhile isDigit) hpre
        (by decide) hval
      rw [hsplit] at hloop
      rw [hb] at hloop ⊢
      exact hloop
  unfold Atoi ParseInt
  cases s with
  | nil => simp [leadingValue, unsigned] at hval
  | cons c rest =>
    rw [unsigned_cons] at hbody
    simp only [hbody]
    by_cases hneg : (c == 45) = true
    · right
      simp [hneg, maxUint64, minInt]
    · left
      simp [hneg, maxUint64, maxInt]


/-- Whatever payload a rule of the table has read, the result of `RpcErrorToNative`
depends on the payload only through the integer that `Atoi` returns. -/
theorem RpcErrorToNative_same_value (c : Int) (m1 m2 : GoString) (r : prefixSuffix)
    (h1 : choosePrefixSuffix specificErrors m1 = some r)
    (h2 : choosePrefixSuffix specificErrors m2 = some r)
    (hv : (Atoi (trimmedData m1 r)).1 = (Atoi (trimmedData m2 r)).1) :
    RpcErrorToNative ⟨c, m1⟩ = RpcErrorToNative ⟨c, m2⟩ := by
  have hk := (rule_template r (choose_some_mem _ _ _ h1).1).1
  unfold RpcErrorToNative
  rw [TryExpandError_matched m1 r h1, TryExpandError_matched m2 r h2, hv]

/-- C21, the claim as stated fails: the payload `"99999999999999999999x"` of
`"FLOOD_WAIT_99999999999999999999x"` is syntactically not a base-10 integer, yet the
additional data is the largest `int`, not 0: `Atoi` meets the range error at the
twentieth digit, before it reads the `x`.  The result differs from that of
`"FLOOD_WAIT_0"`. -/
theorem RpcErrorToNative_not_decimal_counterexample :
    firstMatchAt specificErrors (utf8 "FLOOD_WAIT_99999999999999999999x") 4
      ⟨utf8 "FLOOD_WAIT_", utf8 "", Kind.Int⟩ ∧
    trimmedData (utf8 "FLOOD_WAIT_99999999999999999999x")
      ⟨utf8 "FLOOD_WAIT_", utf8 "", Kind.Int⟩ = utf8 "99999999999999999999x" ∧
    notDecimal (utf8 "99999999999999999999x") = true ∧
    Atoi (utf8 "99999999999999999999x") = (9223372036854775807, some NumError.ErrRange) ∧
    TryExpandError (utf8 "FLOOD_WAIT_99999999999999999999x") =
      Outcome.ok (utf8 "FLOOD_WAIT_X", some (Any.int 9223372036854775807)) ∧
    RpcErrorToNative ⟨420, utf8 "FLOOD_WAIT_99999999999999999999x"⟩ =
      Outcome.ok ⟨420, utf8 "FLOOD_WAIT_X",
        utf8 "A wait of 9223372036854775807 seconds is required",
        some (Any.int 9223372036854775807)⟩ ∧
    RpcErrorToNative ⟨420, utf8 "FLOOD_WAIT_99999999999999999999x"⟩ ≠
      RpcErrorToNative ⟨420, utf8 "FLOOD_WAIT_0"⟩ := by
  decide

/-- C21, amended: when `r` is the rule of `specificErrors` that classifies a raw string
and the payload is syntactically not a base-10 integer (after an optional sign it is
empty or has a byte that is not a digit), the digits before the first such byte spelling
a number that does not exceed `2^64 - 1`, `TryExpandError` returns the integer 0 as
additional data, and the whole result of `RpcErrorToNative`, Message, Description with
`0` in the place of the placeholder and AdditionalInfo, is the result for the same rule
with the payload `"0"`. -/
theorem RpcErrorToNative_not_decimal (c : Int) (m : GoString) (i : Nat) (r : prefixSuffix)
    (h : firstMatchAt specificErrors m i r)
    (hnd : notDecimal (trimmedData m r) = true)
    (hval : leadingValue (trimmedData m r) ≤ maxUint64) :
    TryExpandError m = Outcome.ok (r.prefix_ ++ utf8 "X" ++ r.suffix_, some (Any.int 0)) ∧
    RpcErrorToNative ⟨c, m⟩ = RpcErrorToNative ⟨c, r.prefix_ ++ utf8 "0" ++ r.suffix_⟩ ∧
    ∃ pre post : GoString,
      errorMessagesGet (r.prefix_ ++ utf8 "X" ++ r.suffix_) = some (pre ++ utf8 "%v" ++ post) ∧
      RpcErrorToNative ⟨c, m⟩ =
        Outcome.ok ⟨c, r.prefix_ ++ utf8 "X" ++ r.suffix_, pre ++ utf8 "0" ++ post,
          some (Any.int 0)⟩ := by
  have hc := choose_of_firstMatchAt _ _ _ _ h
  have hr : r ∈ specificErrors := firstMatchAt_mem _ _ _ _ h
  have ha := Atoi_notDecimal _ hnd hval
  have hc0 := choose_build r hr (utf8 "0")
  have ht := TryExpandError_matched m r hc
  rw [ha] at ht
  refine ⟨ht, ?_, ?_⟩
  · apply RpcErrorToNative_same_value c _ _ r hc hc0
    rw [ha, trimmedData_build]
    decide
  · obtain ⟨pre, post, hget, _, _, hres⟩ := RpcErrorToNative_matched m r hc
    have h0 := hres c
    rw [ha] at h0
    exact ⟨pre, post, hget, h0⟩

theorem RpcErrorToNative_not_decimal_witness :
    firstMatchAt specificErrors (utf8 "FLOOD_WAIT_18446744073709551615x") 4
      ⟨utf8 "FLOOD_WAIT_", utf8 "", Kind.Int⟩ ∧
    notDecimal (trimmedData (utf8 "FLOOD_WAIT_18446744073709551615x")
      ⟨utf8 "FLOOD_WAIT_", utf8 "", Kind.Int⟩) = true ∧
    leadingValue (trimmedData (utf8 "FLOOD_WAIT_18446744073709551615x")
      ⟨utf8 "FLOOD_WAIT_", utf8 "", Kind.Int⟩) ≤ maxUint64 ∧
    TryExpandError (utf8 "FLOOD_WAIT_18446744073709551615x") =
      Outcome.ok (utf8 "FLOOD_WAIT_" ++ utf8 "X" ++ utf8 "", some (Any.int 0)) ∧
    RpcErrorToNative ⟨420, utf8 "FLOOD_WAIT_18446744073709551615x"⟩ =
      RpcErrorToNative ⟨420, utf8 "FLOOD_WAIT_" ++ utf8 "0" ++ utf8 ""⟩ ∧
    ∃ pre post : GoString,
      errorMessagesGet (utf8 "FLOOD_WAIT_" ++ utf8 "X" ++ utf8 "") =
        some (pre ++ utf8 "%v" ++ post) ∧
      RpcErrorToNative ⟨420, utf8 "FLOOD_WAIT_18446744073709551615x"⟩ =
        Outcome.ok ⟨420, utf8 "FLOOD_WAIT_" ++ utf8 "X" ++ utf8 "", pre ++ utf8 "0" ++ post,
          some (Any.int 0)⟩ :=
  ⟨by decide, by decide, by decide,
    RpcErrorToNative_not_decimal 420 (utf8 "FLOOD_WAIT_18446744073709551615x") 4
      ⟨utf8 "FLOOD_WAIT_", utf8 "", Kind.Int⟩ (by decide) (by decide) (by decide)⟩

/-! ## Keys without a placeholder -/

theorem mem_of_lookup_eq_some (l : List (GoString × GoString)) (k t : GoString)
    (h : List.lookup k l = some t) : (k, t) ∈ l := by
  induction l with
  | nil => simp [List.lookup] at h
  | cons e rest ih =>
    obtain ⟨k1, t1⟩ := e
    by_cases hk : (k == k1) = true
    · simp only [List.lookup, hk] at h
      have e1 : k = k1 := by simpa using hk
      cases h
      rw [e1]
      exact List.mem_cons_self _ _
    · have hk1 : (k == k1) = false := by simpa using hk
      simp only [List.lookup, hk1] at h
      exact List.mem_cons_of_mem _ (ih h)

set_option maxRecDepth 100000000 in
set_option maxHeartbeats 4000000 in
theorem errorMessages_plain_unmatched :
    errorMessages.all (fun e =>
      e.2.any (fun c => c == 37) || specificErrors.all (fun r => !ruleMatches e.1 r)) = true := by
  decide

/-- C22: no plainly catalogued error is captured by a pattern rule: a key of
`errorMessages` whose template has no placeholder `%v` matches no rule of
`specificErrors`, and `RpcErrorToNative` on the key as message returns the key as
Message, its entry as Description and nil AdditionalInfo. -/
theorem RpcErrorToNative_plain_key (k t : GoString) (h : errorMessagesGet k = some t)
    (hv : ¬ utf8 "%v" <:+: t) :
    (∀ r ∈ specificErrors, ¬ (r.prefix_ <+: k ∧ r.suffix_ <:+ k)) ∧
    ∀ c : Int, RpcErrorToNative ⟨c, k⟩ = Outcome.ok ⟨c, k, t, none⟩ := by
  have hmem : (k, t) ∈ errorMessages := mem_of_lookup_eq_some _ _ _ h
  have hno : (37 : UInt8) ∉ t := by
    have hall := List.all_eq_true.mp errorMessages_templateOk (k, t) hmem
    simp only [templateOk, Bool.or_eq_true] at hall
    rcases hall with h1 | h1
    · intro hm
      have := List.all_eq_true.mp h1 _ hm
      simp at this
    · cases hp : templateParts t with
      | none => simp [hp] at h1
      | some pp =>
        obtain ⟨pre, post⟩ := pp
        obtain ⟨e, _, _⟩ := templateParts_spec t pre post hp
        exact absurd ⟨pre, post, e.symm⟩ hv
  have hrules : ∀ r ∈ specificErrors, ruleMatches k r = false := by
    have hall := List.all_eq_true.mp errorMessages_plain_unmatched (k, t) hmem
    simp only [Bool.or_eq_true] at hall
    rcases hall with h1 | h1
    · obtain ⟨x, hx, hx2⟩ := List.any_eq_true.mp h1
      have : x = 37 := by simpa using hx2
      rw [this] at hx
      exact absurd hx hno
    · intro r hr
      have := List.all_eq_true.mp h1 r hr
      simpa using this
  constructor
  · intro r hr hm
    have := hrules r hr
    rw [(ruleMatches_iff k r).mpr hm] at this
    exact absurd this (by simp)
  · intro c
    rw [RpcErrorToNative_unmatched c k ((choose_eq_none_iff _ _).mpr hrules), h]
    rfl

theorem RpcErrorToNative_plain_key_witness :
    errorMessagesGet (utf8 "2FA_CONFIRM_WAIT_X") =
      some (utf8 "You'll be able to reset your account in X seconds. If not, account will be deleted in 1 week for security reasons") ∧
    ¬ utf8 "%v" <:+: utf8 "You'll be able to reset your account in X seconds. If not, account will be deleted in 1 week for security reasons" ∧
    (∀ r ∈ specificErrors,
      ¬ (r.prefix_ <+: utf8 "2FA_CONFIRM_WAIT_X" ∧ r.suffix_ <:+ utf8 "2FA_CONFIRM_WAIT_X")) ∧
    ∀ c : Int, RpcErrorToNative ⟨c, utf8 "2FA_CONFIRM_WAIT_X"⟩ =
      Outcome.ok ⟨c, utf8 "2FA_CONFIRM_WAIT_X",
        utf8 "You'll be able to reset your account in X seconds. If not, account will be deleted in 1 week for security reasons",
        none⟩ :=
  ⟨by decide, by decide,
    RpcErrorToNative_plain_key (utf8 "2FA_CONFIRM_WAIT_X")
      (utf8 "You'll be able to reset your account in X seconds. If not, account will be deleted in 1 week for security reasons")
      (by decide) (by decide)⟩

/-! ## The text of an error -/

/-- C23: for every `ErrResponseCode` value `e`, `e.Error()` is
`"[" + e.Message + "] " + e.Description + " (code " + decimal(e.Code) + ")"`; the error
built from code 420 and `"FLOOD_WAIT_30"` renders as
`"[FLOOD_WAIT_X] A wait of 30 seconds is required (code 420)"`. -/
theorem ErrResponseCode_Error_text (e : ErrResponseCode) :
    e.Error = some (utf8 "[" ++ e.Message ++ utf8 "] " ++ e.Description ++ utf8 " (code " ++
      fmtInteger e.Code ++ utf8 ")") ∧
    ∃ e0 : ErrResponseCode,
      RpcErrorToNative ⟨420, utf8 "FLOOD_WAIT_30"⟩ = Outcome.ok e0 ∧
      e0.Error = some (utf8 "[FLOOD_WAIT_X] A wait of 30 seconds is required (code 420)") := by
  constructor
  · have hf : utf8 "[%s] %s (code %d)" =
        [91, 37, 115, 93, 32, 37, 115, 32, 40, 99, 111, 100, 101, 32, 37, 100, 41] := by decide
    have h1 : utf8 "[" = [91] := by decide
    have h2 : utf8 "] " = [93, 32] := by decide
    have h3 : utf8 " (code " = [32, 40, 99, 111, 100, 101, 32] := by decide
    have h4 : utf8 ")" = [41] := by decide
    unfold ErrResponseCode.Error SprintfArgs
    rw [hf, h1, h2, h3, h4]
    simp [doPrintfArgs, printVerb, extraOperands]
  · exact ⟨⟨420, utf8 "FLOOD_WAIT_X", utf8 "A wait of 30 seconds is required", some (Any.int 30)⟩,
      by decide, by decide⟩

/-! ## The code of a bad message notification, truncated -/

/-- C24: `BadMsgErrorFromNative` looks the code up after truncating it to its low 8 bits:
for every notification the Description is `badMsgErrorCodes[c mod 256]`, `c` being its
code, so two notifications whose codes differ by a multiple of 256, such as 16 and 272,
get the same description, while the Code of the wrapped notification is the code as it
came. -/
theorem BadMsgErrorFromNative_truncates (n : BadMsgNotification) :
    (BadMsgErrorFromNative n).Description = badMsgErrorCodesGet (n.Code % 256).toNat ∧
    (BadMsgErrorFromNative n).BadMsgNotification.Code = n.Code ∧
    (∀ (n1 : BadMsgNotification) (k : Int), n1.Code = n.Code + 256 * k →
      (BadMsgErrorFromNative n1).Description = (BadMsgErrorFromNative n).Description) ∧
    ((BadMsgErrorFromNative ⟨n.BadMsgID, n.BadMsgSeqNo, 272⟩).Description =
        (BadMsgErrorFromNative ⟨n.BadMsgID, n.BadMsgSeqNo, 16⟩).Description ∧
      (BadMsgErrorFromNative ⟨n.BadMsgID, n.BadMsgSeqNo, 272⟩).Description ≠ [] ∧
      (BadMsgErrorFromNative ⟨n.BadMsgID, n.BadMsgSeqNo, 272⟩).BadMsgNotification.Code = 272) := by
  refine ⟨rfl, rfl, ?_, ?_, ?_, rfl⟩
  · intro n1 k hk
    have : n1.Code % 256 = n.Code % 256 := by rw [hk]; omega
    simp only [BadMsgErrorFromNative, toUint8, this]
  · show badMsgErrorCodesGet (toUint8 272) = badMsgErrorCodesGet (toUint8 16)
    decide
  · show badMsgErrorCodesGet (toUint8 272) ≠ []
    decide

/-! ## The peer cache -/

theorem GetUser_eq_error_iff (c : CACHE) (id : Int) :
    (∃ err, c.GetUser id = Except.error err) ↔ c.users id = none := by
  unfold CACHE.GetUser
  cases c.users id <;> simp

theorem GetChat_eq_error_iff (c : CACHE) (id : Int) :
    (∃ err, c.GetChat id = Except.error err) ↔ c.chats id = none := by
  unfold CACHE.GetChat
  cases c.chats id <;> simp

theorem GetChannel_eq_error_iff (c : CACHE) (id : Int) :
    (∃ err, c.GetChannel id = Except.error err) ↔ c.channels id = none := by
  unfold CACHE.GetChannel
  cases c.channels id <;> simp

/-- C25: get after update on the peer cache.  After `UpdateUser(u)`, `GetUser(u.ID)`
returns `u` with a nil error, and `GetUser` on every other id, `GetChat` and `GetChannel`
return what they returned before; the same for `UpdateChat` and `GetChat`.  A lookup
fails with an error exactly when the id is absent from its map, and every lookup on
`NewCache` fails. -/
theorem cache_get_after_update (c : CACHE) :
    (∀ u : UserObj,
      (c.UpdateUser u).GetUser u.ID = Except.ok u ∧
      (∀ id, id ≠ u.ID → (c.UpdateUser u).GetUser id = c.GetUser id) ∧
      (∀ id, (c.UpdateUser u).GetChat id = c.GetChat id) ∧
      (∀ id, (c.UpdateUser u).GetChannel id = c.GetChannel id)) ∧
    (∀ ch : ChatObj,
      (c.UpdateChat ch).GetChat ch.ID = Except.ok ch ∧
      (∀ id, id ≠ ch.ID → (c.UpdateChat ch).GetChat id = c.GetChat id) ∧
      (∀ id, (c.UpdateChat ch).GetUser id = c.GetUser id) ∧
      (∀ id, (c.UpdateChat ch).GetChannel id = c.GetChannel id)) ∧
    (∀ id, ((∃ err, c.GetUser id = Except.error err) ↔ c.users id = none) ∧
      ((∃ err, c.GetChat id = Except.error err) ↔ c.chats id = none) ∧
      ((∃ err, c.GetChannel id = Except.error err) ↔ c.channels id = none)) ∧
    (∀ id, (∃ err, NewCache.GetUser id = Except.error err) ∧
      (∃ err, NewCache.GetChat id = Except.error err) ∧
      (∃ err, NewCache.GetChannel id = Except.error err)) := by
  refine ⟨?_, ?_, ?_, ?_⟩
  · intro u
    refine ⟨?_, ?_, ?_, ?_⟩
    · simp [CACHE.UpdateUser, CACHE.GetUser, mapSet]
    · intro id hid
      simp [CACHE.UpdateUser, CACHE.GetUser, mapSet, hid]
    · intro id
      rfl
    · intro id
      rfl
  · intro ch
    refine ⟨?_, ?_, ?_, ?_⟩
    · simp [CACHE.UpdateChat, CACHE.GetChat, mapSet]
    · intro id hid
      simp [CACHE.UpdateChat, CACHE.GetChat, mapSet, hid]
    · intro id
      rfl
    · intro id
      rfl
  · intro id
    exact ⟨GetUser_eq_error_iff c id, GetChat_eq_error_iff c id, GetChannel_eq_error_iff c id⟩
  · intro id
    exact ⟨⟨_, rfl⟩, ⟨_, rfl⟩, ⟨_, rfl⟩⟩

/-! ### `UpdatePeersToCache` -/

theorem updateUsers_append (l1 l2 : List User) : ∀ cache : CACHE,
    updateUsers (l1 ++ l2) cache = updateUsers l2 (updateUsers l1 cache) := by
  induction l1 with
  | nil => intro cache; rfl
  | cons x xs ih =>
    intro cache
    cases x with
    | UserObj us =>
      rw [List.cons_append]
      simp only [updateUsers]
      exact ih _
    | other tag =>
      rw [List.cons_append]
      simp only [updateUsers]
      exact ih _

theorem updateChats_append (l1 l2 : List Chat) : ∀ cache : CACHE,
    updateChats (l1 ++ l2) cache = updateChats l2 (updateChats l1 cache) := by
  induction l1 with
  | nil => intro cache; rfl
  | cons x xs ih =>
    intro cache
    cases x with
    | ChatObj ch =>
      rw [List.cons_append]
      simp only [updateChats]
      exact ih _
    | Channel channel =>
      rw [List.cons_append]
      simp only [updateChats]
      exact ih _
    | other tag =>
      rw [List.cons_append]
      simp only [updateChats]
      exact ih _

theorem updateUsers_frame (l : List User) : ∀ cache : CACHE,
    (updateUsers l cache).chats = cache.chats ∧
    (updateUsers l cache).channels = cache.channels ∧
    ∀ id, (∀ y, User.UserObj y ∈ l → y.ID ≠ id) →
      (updateUsers l cache).users id = cache.users id := by
  induction l with
  | nil => intro cache; exact ⟨rfl, rfl, fun _ _ => rfl⟩
  | cons x xs ih =>
    intro cache
    cases x with
    | UserObj us =>
      obtain ⟨h1, h2, h3⟩ := ih { cache with users := mapSet cache.users us.ID us }
      refine ⟨h1, h2, ?_⟩
      intro id hid
      have hne : id ≠ us.ID := fun e => hid us (List.mem_cons_self _ _) e.symm
      simp only [updateUsers]
      rw [h3 id (fun y hy => hid y (List.mem_cons_of_mem _ hy))]
      simp [mapSet, hne]
    | other tag =>
      obtain ⟨h1, h2, h3⟩ := ih cache
      refine ⟨h1, h2, ?_⟩
      intro id hid
      exact h3 id (fun y hy => hid y (List.mem_cons_of_mem _ hy))

theorem updateChats_frame (l : List Chat) : ∀ cache : CACHE,
    (updateChats l cache).users = cache.users ∧
    (∀ id, (∀ y, Chat.ChatObj y ∈ l → y.ID ≠ id) →
      (updateChats l cache).chats id = cache.chats id) ∧
    ∀ id, (∀ y, Chat.Channel y ∈ l → y.ID ≠ id) →
      (updateChats l cache).channels id = cache.channels id := by
  induction l with
  | nil => intro cache; exact ⟨rfl, fun _ _ => rfl, fun _ _ => rfl⟩
  | cons x xs ih =>
    intro cache
    cases x with
    | ChatObj ch =>
      obtain ⟨h1, h2, h3⟩ := ih { cache with chats := mapSet cache.chats ch.ID ch }
      refine ⟨h1, ?_, ?_⟩
      · intro id hid
        have hne : id ≠ ch.ID := fun e => hid ch (List.mem_cons_self _ _) e.symm
        simp only [updateChats]
        rw [h2 id (fun y hy => hid y (List.mem_cons_of_mem _ hy))]
        simp [mapSet, hne]
      · intro id hid
        simp only [updateChats]
        rw [h3 id (fun y hy => hid y (List.mem_cons_of_mem _ hy))]
    | Channel channel =>
      obtain ⟨h1, h2, h3⟩ := ih { cache with channels := mapSet cache.channels channel.ID channel }
      refine ⟨h1, ?_, ?_⟩
      · intro id hid
        simp only [updateChats]
        rw [h2 id (fun y hy => hid y (List.mem_cons_of_mem _ hy))]
      · intro id hid
        have hne : id ≠ channel.ID := fun e => hid channel (List.mem_cons_self _ _) e.symm
        simp only [updateChats]
        rw [h3 id (fun y hy => hid y (List.mem_cons_of_mem _ hy))]
        simp [mapSet, hne]
    | other tag =>
      obtain ⟨h1, h2, h3⟩ := ih cache
      refine ⟨h1, ?_, ?_⟩
      · intro id hid
        exact h2 id (fun y hy => hid y (List.mem_cons_of_mem _ hy))
      · intro id hid
        exact h3 id (fun y hy => hid y (List.mem_cons_of_mem _ hy))

theorem updateUsers_other (l : List User) (h : ∀ y, User.UserObj y ∉ l) : ∀ cache : CACHE,
    updateUsers l cache = cache := by
  induction l with
  | nil => intro cache; rfl
  | cons x xs ih =>
    intro cache
    cases x with
    | UserObj us => exact absurd (List.mem_cons_self _ _) (h us)
    | other tag =>
      simp only [updateUsers]
      exact ih (fun y hy => h y (List.mem_cons_of_mem _ hy)) cache

theorem updateChats_other (l : List Chat)
    (h : ∀ x ∈ l, ∃ tag, x = Chat.other tag) : ∀ cache : CACHE,
    updateChats l cache = cache := by
  induction l with
  | nil => intro cache; rfl
  | cons x xs ih =>
    intro cache
    obtain ⟨tag, rfl⟩ := h x (List.mem_cons_self _ _)
    simp only [updateChats]
    exact ih (fun y hy => h y (List.mem_cons_of_mem _ hy)) cache

/-- C26: after `UpdatePeersToCache(u, c)` each `*UserObj` element of `u` is returned by
`GetUser` under its ID, each `*ChatObj` element of `c` by `GetChat` under its ID and each
`*Channel` element of `c` by `GetChannel` under its ID, the last element winning when an
ID occurs again; an element of any other concrete type is ignored, and what the lookups
return for the ids that are not mentioned is left unchanged. -/
theorem UpdatePeersToCache_lookup (cache : CACHE) (u : List User) (c : List Chat) :
    (∀ (l1 : List User) (x : UserObj) (l2 : List User), u = l1 ++ User.UserObj x :: l2 →
      (∀ y, User.UserObj y ∈ l2 → y.ID ≠ x.ID) →
      (cache.UpdatePeersToCache u c).GetUser x.ID = Except.ok x) ∧
    (∀ (l1 : List Chat) (x : ChatObj) (l2 : List Chat), c = l1 ++ Chat.ChatObj x :: l2 →
      (∀ y, Chat.ChatObj y ∈ l2 → y.ID ≠ x.ID) →
      (cache.UpdatePeersToCache u c).GetChat x.ID = Except.ok x) ∧
    (∀ (l1 : List Chat) (x : Channel) (l2 : List Chat), c = l1 ++ Chat.Channel x :: l2 →
      (∀ y, Chat.Channel y ∈ l2 → y.ID ≠ x.ID) →
      (cache.UpdatePeersToCache u c).GetChannel x.ID = Except.ok x) ∧
    (∀ id, (∀ y, User.UserObj y ∈ u → y.ID ≠ id) →
      (cache.UpdatePeersToCache u c).GetUser id = cache.GetUser id) ∧
    (∀ id, (∀ y, Chat.ChatObj y ∈ c → y.ID ≠ id) →
      (cache.UpdatePeersToCache u c).GetChat id = cache.GetChat id) ∧
    (∀ id, (∀ y, Chat.Channel y ∈ c → y.ID ≠ id) →
      (cache.UpdatePeersToCache u c).GetChannel id = cache.GetChannel id) ∧
    (∀ (l1 : List User) (tag : Nat) (l2 : List User), u = l1 ++ User.other tag :: l2 →
      cache.UpdatePeersToCache u c = cache.UpdatePeersToCache (l1 ++ l2) c) ∧
    (∀ (l1 : List Chat) (tag : Nat) (l2 : List Chat), c = l1 ++ Chat.other tag :: l2 →
      cache.UpdatePeersToCache u c = cache.UpdatePeersToCache u (l1 ++ l2)) := by
  refine ⟨?_, ?_, ?_, ?_, ?_, ?_, ?_, ?_⟩
  · intro l1 x l2 hu hlast
    have h1 : (updateChats c (updateUsers u cache)).users = (updateUsers u cache).users :=
      (updateChats_frame c _).1
    have h2 : (updateUsers u cache).users x.ID = some x := by
      rw [hu, updateUsers_append]
      simp only [updateUsers]
      rw [(updateUsers_frame l2 _).2.2 x.ID hlast]
      simp [mapSet]
    simp only [CACHE.UpdatePeersToCache, CACHE.GetUser, h1, h2]
  · intro l1 x l2 hc hlast
    have h2 : (updateChats c (updateUsers u cache)).chats x.ID = some x := by
      rw [hc, updateChats_append]
      simp only [updateChats]
      rw [(updateChats_frame l2 _).2.1 x.ID hlast]
      simp [mapSet]
    simp only [CACHE.UpdatePeersToCache, CACHE.GetChat, h2]
  · intro l1 x l2 hc hlast
    have h2 : (updateChats c (updateUsers u cache)).channels x.ID = some x := by
      rw [hc, updateChats_append]
      simp only [updateChats]
      rw [(updateChats_frame l2 _).2.2 x.ID hlast]
      simp [mapSet]
    simp only [CACHE.UpdatePeersToCache, CACHE.GetChannel, h2]
  · intro id hid
    have h1 : (updateChats c (updateUsers u cache)).users = (updateUsers u cache).users :=
      (updateChats_frame c _).1
    simp only [CACHE.UpdatePeersToCache, CACHE.GetUser, h1, (updateUsers_frame u cache).2.2 id hid]
  · intro id hid
    simp only [CACHE.UpdatePeersToCache, CACHE.GetChat, (updateChats_frame c _).2.1 id hid,
      (updateUsers_frame u cache).1]
  · intro id hid
    simp only [CACHE.UpdatePeersToCache, CACHE.GetChannel, (updateChats_frame c _).2.2 id hid,
      (updateUsers_frame u cache).2.1]
  · intro l1 tag l2 hu
    simp only [CACHE.UpdatePeersToCache, hu, updateUsers_append, updateUsers]
  · intro l1 tag l2 hc
    simp only [CACHE.UpdatePeersToCache, hc, updateChats_append, updateChats]

/-! ### `GetPeersFromCache` -/

theorem collectUsers_eq (cache : CACHE) (l : List Int) : ∀ acc : List User,
    collectUsers cache l acc =
      acc ++ l.filterMap (fun id => (cache.users id).map User.UserObj) := by
  induction l with
  | nil => intro acc; simp [collectUsers]
  | cons id rest ih =>
    intro acc
    cases h : cache.users id with
    | none => simp [collectUsers, h, ih, List.filterMap_cons]
    | some found => simp [collectUsers, h, ih, List.filterMap_cons]

theorem collectChats_eq (cache : CACHE) (l : List Int) : ∀ acc : List Chat,
    collectChats cache l acc =
      acc ++ l.filterMap (fun id => (cache.chats id).map Chat.ChatObj) := by
  induction l with
  | nil => intro acc; simp [collectChats]
  | cons id rest ih =>
    intro acc
    cases h : cache.chats id with
    | none => simp [collectChats, h, ih, List.filterMap_cons]
    | some found => simp [collectChats, h, ih, List.filterMap_cons]

/-- C27: `GetPeersFromCache(u, c)` returns as users the cached users for the ids of `u`
that are present in the users map, in the order and with the multiplicity of the ids in
`u`, absent ids being skipped, and as chats the same for `c` against the chats map only:
no channel is ever returned.  The results are no longer than the inputs, and the cache is
not modified. -/
theorem GetPeersFromCache_result (cache : CACHE) (u c : List Int) :
    (cache.GetPeersFromCache u c).1.1 =
      u.filterMap (fun id => (cache.users id).map User.UserObj) ∧
    (cache.GetPeersFromCache u c).1.2 =
      c.filterMap (fun id => (cache.chats id).map Chat.ChatObj) ∧
    (∀ x ∈ (cache.GetPeersFromCache u c).1.2,
      ∃ id ∈ c, ∃ chat, cache.chats id = some chat ∧ x = Chat.ChatObj chat) ∧
    (∀ channel, Chat.Channel channel ∉ (cache.GetPeersFromCache u c).1.2) ∧
    (cache.GetPeersFromCache u c).1.1.length ≤ u.length ∧
    (cache.GetPeersFromCache u c).1.2.length ≤ c.length ∧
    (cache.GetPeersFromCache u c).2 = cache := by
  have hu : (cache.GetPeersFromCache u c).1.1 =
      u.filterMap (fun id => (cache.users id).map User.UserObj) := by
    simp [CACHE.GetPeersFromCache, collectUsers_eq]
  have hc : (cache.GetPeersFromCache u c).1.2 =
      c.filterMap (fun id => (cache.chats id).map Chat.ChatObj) := by
    simp [CACHE.GetPeersFromCache, collectChats_eq]
  have hmem : ∀ x ∈ (cache.GetPeersFromCache u c).1.2,
      ∃ id ∈ c, ∃ chat, cache.chats id = some chat ∧ x = Chat.ChatObj chat := by
    intro x hx
    rw [hc, List.mem_filterMap] at hx
    obtain ⟨id, hid, hx⟩ := hx
    cases h : cache.chats id with
    | none => simp [h] at hx
    | some chat =>
      simp only [h, Option.map_some', Option.some.injEq] at hx
      exact ⟨id, hid, chat, h, hx.symm⟩
  refine ⟨hu, hc, hmem, ?_, ?_, ?_, rfl⟩
  · intro channel hmem1
    obtain ⟨_, _, chat, _, hx⟩ := hmem _ hmem1
    cases hx
  · rw [hu]
    exact List.length_filterMap_le _ _
  · rw [hc]
    exact List.length_filterMap_le _ _

/-! ### `GetInputPeer` -/

theorem NewCache_chatsKeyed : NewCache.chatsKeyed := by
  intro id chat h
  simp [NewCache] at h

theorem UpdateUser_chatsKeyed (c : CACHE) (u : UserObj) (h : c.chatsKeyed) :
    (c.UpdateUser u).chatsKeyed := h

theorem UpdateChat_chatsKeyed (c : CACHE) (ch : ChatObj) (h : c.chatsKeyed) :
    (c.UpdateChat ch).chatsKeyed := by
  intro id chat hc
  simp only [CACHE.UpdateChat, mapSet] at hc
  split_ifs at hc with hid
  · cases hc
    exact hid.symm
  · exact h id chat hc

theorem updateChats_chatsKeyed (l : List Chat) : ∀ cache : CACHE, cache.chatsKeyed →
    (updateChats l cache).chatsKeyed := by
  induction l with
  | nil => intro cache h; exact h
  | cons x xs ih =>
    intro cache h
    cases x with
    | ChatObj ch =>
      simp only [updateChats]
      exact ih _ (UpdateChat_chatsKeyed cache ch h)
    | Channel channel =>
      simp only [updateChats]
      exact ih _ h
    | other tag =>
      simp only [updateChats]
      exact ih _ h

theorem UpdatePeersToCache_chatsKeyed (cache : CACHE) (u : List User) (c : List Chat)
    (h : cache.chatsKeyed) : (cache.UpdatePeersToCache u c).chatsKeyed := by
  apply updateChats_chatsKeyed
  intro id chat hc
  rw [(updateUsers_frame u cache).1] at hc
  exact h id chat hc

/-- C28, the claim as stated fails: in a cache whose chats map holds under the id 5 a
chat with the ID 7, `GetInputPeer(5)` returns `InputPeerChat{7}`, not `InputPeerChat{5}`. -/
theorem GetInputPeer_counterexample :
    (({ chats := mapSet (fun _ => none) 5 ⟨7, []⟩, users := fun _ => none,
        channels := fun _ => none } : CACHE).chats 5 = some ⟨7, []⟩) ∧
    Client.GetInputPeer
      ⟨{ chats := mapSet (fun _ => none) 5 ⟨7, []⟩, users := fun _ => none,
         channels := fun _ => none }⟩ 5 = some (InputPeer.InputPeerChat 7) ∧
    Client.GetInputPeer
      ⟨{ chats := mapSet (fun _ => none) 5 ⟨7, []⟩, users := fun _ => none,
         channels := fun _ => none }⟩ 5 ≠ some (InputPeer.InputPeerChat 5) := by
  decide

/-- C28, amended: `GetInputPeer` resolves an id with the precedence chat, user, channel:
it returns `InputPeerChat` with the ID of the cached chat if the id is in the chats map
(this is `InputPeerChat{id}` when the chats are stored under their own IDs, as the update
operations store them); otherwise `InputPeerUser` with the ID and AccessHash of the cached
user if the id is in the users map; otherwise `InputPeerChannel` with the ID and
AccessHash of the cached channel if the id is in the channels map; and nil exactly when
the id is in none of the three maps. -/
theorem GetInputPeer_precedence (client : Client) (id : Int) :
    (∀ chat, client.Cache.chats id = some chat →
      client.GetInputPeer id = some (InputPeer.InputPeerChat chat.ID)) ∧
    (client.Cache.chatsKeyed → ∀ chat, client.Cache.chats id = some chat →
      client.GetInputPeer id = some (InputPeer.InputPeerChat id)) ∧
    (client.Cache.chats id = none → ∀ user, client.Cache.users id = some user →
      client.GetInputPeer id = some (InputPeer.InputPeerUser user.ID user.AccessHash)) ∧
    (client.Cache.chats id = none → client.Cache.users id = none →
      ∀ channel, client.Cache.channels id = some channel →
        client.GetInputPeer id =
          some (InputPeer.InputPeerChannel channel.ID channel.AccessHash)) ∧
    (client.GetInputPeer id = none ↔
      client.Cache.chats id = none ∧ client.Cache.users id = none ∧
        client.Cache.channels id = none) := by
  refine ⟨?_, ?_, ?_, ?_, ?_⟩
  · intro chat h
    simp [Client.GetInputPeer, CACHE.GetChat, h]
  · intro hk chat h
    simp [Client.GetInputPeer, CACHE.GetChat, h, hk id chat h]
  · intro h1 user h2
    simp [Client.GetInputPeer, CACHE.GetChat, CACHE.GetUser, h1, h2]
  · intro h1 h2 channel h3
    simp [Client.GetInputPeer, CACHE.GetChat, CACHE.GetUser, CACHE.GetChannel, h1, h2, h3]
  · cases h1 : client.Cache.chats id with
    | some chat => simp [Client.GetInputPeer, CACHE.GetChat, h1]
    | none =>
      cases h2 : client.Cache.users id with
      | some user => simp [Client.GetInputPeer, CACHE.GetChat, CACHE.GetUser, h1, h2]
      | none =>
        cases h3 : client.Cache.channels id with
        | some channel =>
          simp [Client.GetInputPeer, CACHE.GetChat, CACHE.GetUser, CACHE.GetChannel, h1, h2, h3]
        | none =>
          simp [Client.GetInputPeer, CACHE.GetChat, CACHE.GetUser, CACHE.GetChannel, h1, h2, h3]

/-- The lookups of the cache and `GetInputPeer`, evaluated on a cache built from
`NewCache` by the update operations. -/
theorem cache_examples :
    (NewCache.UpdatePeersToCache
        [User.UserObj ⟨1, 10, []⟩, User.other 0, User.UserObj ⟨1, 11, []⟩]
        [Chat.ChatObj ⟨2, []⟩, Chat.Channel ⟨3, 30, []⟩, Chat.other 1]).GetUser 1 =
      Except.ok ⟨1, 11, []⟩ ∧
    ((NewCache.UpdatePeersToCache [User.UserObj ⟨1, 10, []⟩]
        [Chat.ChatObj ⟨2, []⟩, Chat.Channel ⟨3, 30, []⟩]).GetPeersFromCache [1, 4, 1] [3, 2]).1 =
      ([User.UserObj ⟨1, 10, []⟩, User.UserObj ⟨1, 10, []⟩], [Chat.ChatObj ⟨2, []⟩]) ∧
    Client.GetInputPeer ⟨NewCache.UpdatePeersToCache [User.UserObj ⟨2, 10, []⟩]
        [Chat.ChatObj ⟨2, []⟩, Chat.Channel ⟨2, 30, []⟩, Chat.Channel ⟨3, 30, []⟩]⟩ 2 =
      some (InputPeer.InputPeerChat 2) ∧
    Client.GetInputPeer ⟨NewCache.UpdatePeersToCache [User.UserObj ⟨2, 10, []⟩]
        [Chat.Channel ⟨3, 30, []⟩]⟩ 3 = some (InputPeer.InputPeerChannel 3 30) ∧
    Client.GetInputPeer ⟨NewCache.UpdatePeersToCache [User.UserObj ⟨2, 10, []⟩]
        [Chat.Channel ⟨3, 30, []⟩]⟩ 4 = none :=
  ⟨rfl, rfl, rfl, rfl, rfl⟩

end Gogram
